import Mathlib

/-!
Verification development for the AIMET tensor-quantizer module
(`aimet_torch/tensor_quantizer.py`).

The source operates on torch tensors of floating-point numbers.  We model the
numeric domain by exact rationals (ℚ): every arithmetic formula of the source
is translated verbatim, only the machine representation of the reals is
idealised.  `torch.round` rounds half to even, which `torchRound` reproduces.
A torch tensor is modelled as a shape (list of dimension sizes) together with
its row-major flat data; elementwise broadcasting, reductions over a set of
axes, `select` and `stack` are defined below with torch's semantics.

Functions of this repository that are imported by the module but live outside
the sources given here (`aimet_torch.quantsim_straight_through_grad`) are
modelled from the specification; each such definition carries a doc comment
starting with "Modelled from the spec:".
-/

set_option maxHeartbeats 1000000

namespace Aimet

/-- Round half to even, the rounding used by `torch.round`. -/
def torchRound (x : ℚ) : ℤ :=
  let f := ⌊x⌋
  if x - f < 1/2 then f
  else if x - f > 1/2 then f + 1
  else if f % 2 = 0 then f else f + 1

/-- torch.clamp: first the lower bound, then the upper bound. -/
def clampQ (x n p : ℚ) : ℚ := min (max x n) p

/-- Truncation toward zero, the float-to-integer conversion of torch casts. -/
def truncQ (x : ℚ) : ℤ := if 0 ≤ x then ⌊x⌋ else ⌈x⌉

/-- Wrap an integer into the range of a signed two's-complement type. -/
def wrapSigned (bits : ℕ) (t : ℤ) : ℤ := ((t + 2 ^ (bits - 1)) % 2 ^ bits) - 2 ^ (bits - 1)

/-- Wrap an integer into the range of an unsigned type. -/
def wrapUnsigned (bits : ℕ) (t : ℤ) : ℤ := t % 2 ^ bits

/-- The integer storage dtypes appearing in `_encoding_params_to_dtype`. -/
inductive TorchDType
  | uint8
  | int8
  | int16
  | int32
deriving DecidableEq

/-- Value-level semantics of `tensor.to(dtype)` for the integer dtypes:
truncate toward zero, then wrap into the dtype's range. -/
def castTo : TorchDType → ℚ → ℚ
  | .uint8, x => (wrapUnsigned 8 (truncQ x) : ℤ)
  | .int8, x => (wrapSigned 8 (truncQ x) : ℤ)
  | .int16, x => (wrapSigned 16 (truncQ x) : ℤ)
  | .int32, x => (wrapSigned 32 (truncQ x) : ℤ)

/-! ### Row-major tensors -/

/-- Product of the dimensions of a shape. -/
def prodl : List ℕ → ℕ
  | [] => 1
  | d :: ds => d * prodl ds

/-- Multi-index of the `j`-th element of a row-major tensor of shape `s`. -/
def unflatten : List ℕ → ℕ → List ℕ
  | [], _ => []
  | _ :: ds, j => j / prodl ds :: unflatten ds (j % prodl ds)

/-- Row-major flat position of a multi-index. -/
def flatten : List ℕ → List ℕ → ℕ
  | d :: ds, c :: cs =>
    let _ := d
    c * prodl ds + flatten ds cs
  | _, _ => 0

/-- `validIdxB idx s` holds when `idx` is a multi-index inside shape `s`. -/
def validIdxB : List ℕ → List ℕ → Bool
  | [], [] => true
  | i :: is_, d :: ds => decide (i < d) && validIdxB is_ ds
  | _, _ => false

/-- A torch tensor: shape and row-major data. -/
structure Tensor where
  shape : List ℕ
  data : List ℚ
deriving DecidableEq

/-- A rank-1 tensor (used for the encoding-min/max parameter vectors). -/
def Tensor.vec (v : List ℚ) : Tensor := ⟨[v.length], v⟩

/-- Build a tensor of shape `s` from a function on multi-indices. -/
def Tensor.ofFn (s : List ℕ) (f : List ℕ → ℚ) : Tensor :=
  ⟨s, (List.range (prodl s)).map (fun j => f (unflatten s j))⟩

/-- Value at a multi-index. -/
def Tensor.get (t : Tensor) (idx : List ℕ) : ℚ := t.data.getD (flatten t.shape idx) 0

/-- Broadcast-aware read: right-align `t`'s shape with the index, send each
coordinate of a size-1 dimension to 0. -/
def stepCoord (c d : ℕ) : ℕ := if d = 1 then 0 else c

def Tensor.bval (t : Tensor) (idx : List ℕ) : ℚ :=
  t.data.getD
    (flatten t.shape (List.zipWith stepCoord (idx.drop (idx.length - t.shape.length)) t.shape))
    0

/-- Right-aligned broadcast of two shapes (torch semantics on compatible
shapes: pad the shorter one with leading 1s, take the elementwise max). -/
def padOnes (r : ℕ) (s : List ℕ) : List ℕ := List.replicate (r - s.length) 1 ++ s

def broadcastShape (s1 s2 : List ℕ) : List ℕ :=
  List.zipWith max (padOnes (max s1.length s2.length) s1) (padOnes (max s1.length s2.length) s2)

/-- Elementwise binary operation with broadcasting. -/
def Tensor.binop (f : ℚ → ℚ → ℚ) (a b : Tensor) : Tensor :=
  Tensor.ofFn (broadcastShape a.shape b.shape) (fun idx => f (a.bval idx) (b.bval idx))

/-- Elementwise unary operation. -/
def Tensor.mapT (f : ℚ → ℚ) (t : Tensor) : Tensor := Tensor.ofFn t.shape (fun idx => f (t.get idx))

def Tensor.addT (a b : Tensor) : Tensor := Tensor.binop (fun x y => x + y) a b
def Tensor.subT (a b : Tensor) : Tensor := Tensor.binop (fun x y => x - y) a b
def Tensor.mulT (a b : Tensor) : Tensor := Tensor.binop (fun x y => x * y) a b
def Tensor.divT (a b : Tensor) : Tensor := Tensor.binop (fun x y => x / y) a b
def Tensor.roundT (t : Tensor) : Tensor := Tensor.mapT (fun x => (torchRound x : ℚ)) t
def Tensor.clampT (t : Tensor) (n p : ℚ) : Tensor := Tensor.mapT (fun x => clampQ x n p) t
def Tensor.negT (t : Tensor) : Tensor := Tensor.mapT (fun x => -x) t

/-- Indicator tensor of `tensor.ge(c)`. -/
def Tensor.geT (t : Tensor) (c : ℚ) : Tensor := Tensor.mapT (fun x => if c ≤ x then 1 else 0) t

/-- Indicator tensor of `tensor.le(c)`. -/
def Tensor.leT (t : Tensor) (c : ℚ) : Tensor := Tensor.mapT (fun x => if x ≤ c then 1 else 0) t

/-- Axes kept by `tensor.sum(dim=dims)`. -/
def keepAxes (r : ℕ) (dims : List ℕ) : List ℕ :=
  (List.range r).filter (fun i => decide (i ∉ dims))

/-- Shape left after reducing `dims` away. -/
def reducedShape (s : List ℕ) (dims : List ℕ) : List ℕ :=
  (keepAxes s.length dims).map (fun i => s.getD i 0)

/-- One entry of `tensor.sum(dim=dims)`: the sum of all elements whose kept
coordinates equal `ridx`. -/
def sumEntry (t : Tensor) (dims : List ℕ) (ridx : List ℕ) : ℚ :=
  (((List.range (prodl t.shape)).filter (fun j =>
      decide ((keepAxes t.shape.length dims).map (fun i => (unflatten t.shape j).getD i 0)
        = ridx))).map (fun j => t.data.getD j 0)).sum

/-- `tensor.sum(dim=dims)` (keepdim = False), torch semantics. -/
def Tensor.sumDims (t : Tensor) (dims : List ℕ) : Tensor :=
  Tensor.ofFn (reducedShape t.shape dims) (sumEntry t dims)

/-- `tensor.select(axis, i)`: fix coordinate `i` on `axis`, dropping the axis. -/
def Tensor.select (t : Tensor) (axis i : ℕ) : Tensor :=
  Tensor.ofFn (t.shape.eraseIdx axis) (fun idx => t.get (List.insertIdx axis i idx))

/-- `torch.stack(ts, dim=axis)` for a non-empty list of equal-shape tensors. -/
def Tensor.stack (ts : List Tensor) (axis : ℕ) : Tensor :=
  match ts with
  | [] => ⟨[], []⟩
  | t0 :: _ =>
    Tensor.ofFn (List.insertIdx axis ts.length t0.shape)
      (fun idx => (ts.getD (idx.getD axis 0) ⟨[], []⟩).get (idx.eraseIdx axis))

/-! ### Data model of the quantizer module -/

/-- `QuantizationDataType` from `aimet_common.defs`. -/
inductive QuantizationDataType
  | int
  | float
deriving DecidableEq

/-- `libpymo.TfEncoding`: min, max, delta, offset, bitwidth. -/
structure TfEncoding where
  min : ℚ
  max : ℚ
  delta : ℚ
  offset : ℚ
  bw : ℕ
deriving DecidableEq

/-- The `_encoding_params_to_dtype` lookup table, with `torch.int32` as the
default on a missing key. -/
def encoding_params_to_dtype (bitwidth : ℕ) (is_symmetric use_unsigned_symmetric : Bool) :
    TorchDType :=
  if bitwidth = 8 ∧ is_symmetric = true ∧ use_unsigned_symmetric = true then .uint8
  else if bitwidth = 8 ∧ is_symmetric = true ∧ use_unsigned_symmetric = false then .int8
  else if bitwidth = 8 ∧ is_symmetric = false then .uint8
  else if bitwidth = 16 ∧ is_symmetric = true ∧ use_unsigned_symmetric = false then .int16
  else .int32

/-- Shape of a per-channel vector after broadcasting: rank `r`, every
dimension 1 except dimension `ch`, which has length `len`. -/
def bcastShape : ℕ → ℕ → ℕ → List ℕ
  | 0, _, _ => []
  | r + 1, 0, len => len :: List.replicate r 1
  | r + 1, ch + 1, len => 1 :: bcastShape r ch len

/-- Modelled from the spec: `broadcast_to_tensor` of
`aimet_torch.quantsim_straight_through_grad`, which is imported by the module
but is not among the sources here.  Spec section 4.1: insert singleton
dimensions everywhere except the channel axis so that elementwise operations
against the full tensor are valid. -/
def broadcast_to_tensor (tensor t : Tensor) (channel_axis : ℕ) : Tensor :=
  ⟨bcastShape tensor.shape.length channel_axis t.data.length, t.data⟩

/-- `_compute_delta_and_offset`: delta and offset from the encoding min/max
vectors, broadcast across the channel axis in the per-channel case. -/
def compute_delta_and_offset (tensor : Tensor) (encoding_min encoding_max : List ℚ)
    (steps : Tensor) (channel_axis : ℕ) : Tensor × Tensor :=
  let delta := ((Tensor.vec encoding_max).subT (Tensor.vec encoding_min)).divT steps
  let offset := ((Tensor.vec encoding_min).divT delta).roundT
  if 1 < encoding_min.length then
    (broadcast_to_tensor tensor delta channel_axis, broadcast_to_tensor tensor offset channel_axis)
  else
    (delta, offset)

/-- The context saved by `QuantizeDequantizeFunc.forward` via
`ctx.save_for_backward` (plus `ctx.channel_axis`). -/
structure QdqCtx where
  tensor : Tensor
  clamp_out : Tensor
  delta : Tensor
  offset : Tensor
  encoding_min : Tensor
  encoding_max : Tensor
  mask_tensor : Tensor
  steps : Tensor
  channel_axis : ℕ
deriving DecidableEq

/-- `QuantizeDequantizeFunc.forward`: the learned-grid quantize-dequantize.
`n` and `p` are the quantizer bounds (`steps = p`); returns the dequantized
output together with the saved context. -/
def qdqForward (tensor : Tensor) (encoding_min encoding_max : List ℚ) (bitwidth : ℕ)
    (use_symmetric_encodings use_unsigned_symmetric : Bool) (channel_axis : ℕ)
    (n p : ℚ) : Tensor × QdqCtx :=
  let steps := Tensor.vec [p]
  let deltaOffset := compute_delta_and_offset tensor encoding_min encoding_max steps channel_axis
  let delta := deltaOffset.1
  let offset := deltaOffset.2
  let quantize_out := ((tensor.divT delta).roundT).subT offset
  let clamp_out := quantize_out.clampT n p
  let dequantize_out := (clamp_out.addT offset).mulT delta
  let mask_tensor := (quantize_out.geT n).mulT (quantize_out.leT p)
  let dtype_for_clamp_out :=
    encoding_params_to_dtype bitwidth use_symmetric_encodings use_unsigned_symmetric
  (dequantize_out,
    { tensor := tensor
      clamp_out := Tensor.mapT (castTo dtype_for_clamp_out) clamp_out
      delta := delta
      offset := offset
      encoding_min := Tensor.vec encoding_min
      encoding_max := Tensor.vec encoding_max
      mask_tensor := mask_tensor
      steps := steps
      channel_axis := channel_axis })

/-- The reduction axes of `QuantizeDequantizeFunc.backward`: the whole range
of axes, popping the channel axis only when the saved delta has more than one
entry along its first dimension and the tensor has rank > 1 (the exact guard
of the source, lines 750-752). -/
def backwardDims (ctx : QdqCtx) : List ℕ :=
  if 1 < ctx.delta.shape.headD 0 ∧ 1 < ctx.tensor.shape.length then
    (List.range ctx.tensor.shape.length).filter (fun i => decide (i ≠ ctx.channel_axis))
  else
    List.range ctx.tensor.shape.length

/-- `QuantizeDequantizeFunc.backward`: gradients with respect to the tensor,
the encoding min and the encoding max, computed from the saved context. -/
def qdqBackward (ctx : QdqCtx) (grad : Tensor) : Tensor × Tensor × Tensor :=
  let dequantize_grad := ctx.delta.mulT grad
  let tensor_grad := grad.mulT ctx.mask_tensor
  let scale_grad :=
    ((ctx.clamp_out.addT ctx.offset).subT
      ((ctx.tensor.mulT ctx.mask_tensor).divT ctx.delta)).mulT grad
  let offset_grad := dequantize_grad.mulT (Tensor.mapT (fun m => 1 - m) ctx.mask_tensor)
  let dim := backwardDims ctx
  let intermediate_term1 := (scale_grad.sumDims dim).divT ctx.steps
  let intermediate_term2 :=
    (ctx.steps.divT (Tensor.mapT (fun x => x ^ 2)
      (ctx.encoding_max.subT ctx.encoding_min))).mulT (offset_grad.sumDims dim)
  let tensor_encoding_min_grad :=
    (intermediate_term1.negT).addT (ctx.encoding_max.mulT intermediate_term2)
  let tensor_encoding_max_grad :=
    intermediate_term1.subT (ctx.encoding_min.mulT intermediate_term2)
  (tensor_grad, tensor_encoding_min_grad, tensor_encoding_max_grad)

/-- The min/max gradients exactly as claim C2 words them: identical formulas,
but the reductions always run over every axis except the channel axis.  Used
only to compare against `qdqBackward`. -/
def specBackwardMinMax (ctx : QdqCtx) (grad : Tensor) : Tensor × Tensor :=
  let dequantize_grad := ctx.delta.mulT grad
  let scale_grad :=
    ((ctx.clamp_out.addT ctx.offset).subT
      ((ctx.tensor.mulT ctx.mask_tensor).divT ctx.delta)).mulT grad
  let offset_grad := dequantize_grad.mulT (Tensor.mapT (fun m => 1 - m) ctx.mask_tensor)
  let dim := (List.range ctx.tensor.shape.length).filter (fun i => decide (i ≠ ctx.channel_axis))
  let intermediate_term1 := (scale_grad.sumDims dim).divT ctx.steps
  let intermediate_term2 :=
    (ctx.steps.divT (Tensor.mapT (fun x => x ^ 2)
      (ctx.encoding_max.subT ctx.encoding_min))).mulT (offset_grad.sumDims dim)
  ((intermediate_term1.negT).addT (ctx.encoding_max.mulT intermediate_term2),
    intermediate_term1.subT (ctx.encoding_min.mulT intermediate_term2))

/-! ### Learned-grid quantizer -/

/-- State of a `LearnedGridTensorQuantizer`.  The min/max parameters that
physically live on the wrapper module are modelled by the two `wrapper_*`
fields (`none` when the named parameter is absent or `None`). -/
structure LearnedState where
  bitwidth : ℕ
  use_symmetric_encodings : Bool
  use_strict_symmetric : Bool
  use_unsigned_symmetric : Bool
  enabled : Bool
  is_encoding_frozen : Bool
  n : ℚ
  p : ℚ
  ch_axis : ℕ
  scaling : Tensor
  offset : Tensor
  wrapper_min : Option (List ℚ)
  wrapper_max : Option (List ℚ)
deriving DecidableEq

/-- `LearnedGridTensorQuantizer.get_n_and_p`. -/
def get_n_and_p (bitwidth : ℕ) (use_symmetric_encoding use_strict_symmetric : Bool) :
    Except String (ℚ × ℚ) :=
  if use_symmetric_encoding = false ∧ use_strict_symmetric = true then
    .error "Strict symmetric can be enabled only when using symmetric encoding"
  else
    let p : ℚ := 2 ^ bitwidth - 1
    let p := if use_symmetric_encoding = true ∧ use_strict_symmetric = true then p - 1 else p
    .ok (0, p)

/-- Modelled from the spec: the forward direction of
`RoundStraightThrough.apply` from `aimet_torch.quantsim_straight_through_grad`
(not among the sources here).  Spec section 4.3: forward rounds, backward
passes the gradient through unchanged. -/
def round_ste (t : Tensor) : Tensor := t.roundT

/-- `LearnedGridTensorQuantizer.compute_scaling_offset`. -/
def compute_scaling_offset (p : ℚ) (encoding_min encoding_max : Tensor) : Tensor × Tensor :=
  let scaling := (encoding_max.subT encoding_min).divT (Tensor.vec [p])
  let offset := round_ste ((encoding_min.negT).divT scaling)
  (scaling, offset)

/-- `LearnedGridTensorQuantizer.quantize_dequantize`: pass-through when
disabled; error when enabled and a min or max parameter is missing; otherwise
the differentiable operator. -/
def quantize_dequantize_learned (q : LearnedState) (tensor : Tensor)
    (encoding_min encoding_max : Option (List ℚ)) : Except String Tensor :=
  if q.enabled = true then
    match encoding_min, encoding_max with
    | some emin, some emax =>
      .ok (qdqForward tensor emin emax q.bitwidth q.use_symmetric_encodings
            q.use_unsigned_symmetric q.ch_axis q.n q.p).1
    | _, _ =>
      .error "Forward pass used for compute_encodings differs from forward pass used during training"
  else
    .ok tensor

/-- Argument of the learned-grid `encoding` setter: a single `TfEncoding` or a
list of them. -/
inductive EncodingArg
  | single (e : TfEncoding)
  | list (es : List TfEncoding)
deriving DecidableEq

/-- Bitwidth of the (first) encoding of an `EncodingArg`. -/
def firstBw : EncodingArg → ℕ
  | .single e => e.bw
  | .list [] => 0
  | .list (e :: _) => e.bw

def bitwidthMismatchMsg : String := "Bitwidth mismatched."

/-- `LearnedGridTensorQuantizer._set_encoding_min_max_parameters`: write the
min/max vectors as wrapper parameters and overwrite the stored bitwidth with
the (first) encodings bitwidth.  Indexing an empty list raises. -/
def set_encoding_min_max_parameters (q : LearnedState) (encodings : EncodingArg) :
    LearnedState × Option String :=
  match encodings with
  | .list [] => (q, some "IndexError: list index out of range")
  | .list (e0 :: rest) =>
    ({ q with
        bitwidth := e0.bw
        wrapper_min := some ((e0 :: rest).map (fun e => e.min))
        wrapper_max := some ((e0 :: rest).map (fun e => e.max)) }, none)
  | .single e =>
    ({ q with
        bitwidth := e.bw
        wrapper_min := some [e.min]
        wrapper_max := some [e.max] }, none)

/-- `LearnedGridTensorQuantizer._set_p_and_n`: assert the encodings bitwidth
matches the stored one, then recompute the bounds. -/
def set_p_and_n (q : LearnedState) (encodings : EncodingArg) : LearnedState × Option String :=
  match encodings with
  | .list [] => (q, some "IndexError: list index out of range")
  | _ =>
    if firstBw encodings ≠ q.bitwidth then (q, some bitwidthMismatchMsg)
    else
      match get_n_and_p q.bitwidth q.use_symmetric_encodings q.use_strict_symmetric with
      | .error e => (q, some e)
      | .ok np => ({ q with n := np.1, p := np.2 }, none)

/-- The learned-grid `encoding` setter (property setter): everything is guarded
by `enabled`; when enabled it asserts the encoding is present, checks the
frozen flag, writes the wrapper parameters and recomputes `p` and `n`. -/
def set_encoding_learned (q : LearnedState) (encoding : Option EncodingArg) :
    LearnedState × Option String :=
  if q.enabled = true then
    match encoding with
    | none => (q, some "Encodings cannot be None if Quantizer is enabled.")
    | some enc =>
      if q.is_encoding_frozen = true then
        (q, some "Encoding can be set only when it is not frozen.")
      else
        let step1 := set_encoding_min_max_parameters q enc
        match step1.2 with
        | some e => (step1.1, some e)
        | none => set_p_and_n step1.1 enc
  else
    (q, none)

/-! ### Static-grid quantizer -/

/-- State of a `StaticGridTensorQuantizer` (`per_channel = true` for
`StaticGridPerChannelQuantizer`, `false` for `StaticGridPerTensorQuantizer`).
The native engines (`_cppOp`) hold only statistics, which are out of scope;
their count and answers enter through the operations below. -/
structure StaticGridState where
  bitwidth : ℕ
  use_symmetric_encodings : Bool
  use_strict_symmetric : Bool
  use_unsigned_symmetric : Bool
  enabled : Bool
  data_type : QuantizationDataType
  is_encoding_frozen : Bool
  encoding : Option (List TfEncoding)
  per_channel : Bool
  ch_axis : ℕ
  num_ops : ℕ
deriving DecidableEq

/-- The base `encoding` setter (also the per-channel one, lines 260-269 and
458-467: both only check the frozen flag and assign `_encoding`). -/
def set_encoding_static (q : StaticGridState) (encoding : Option (List TfEncoding)) :
    StaticGridState × Option String :=
  if q.is_encoding_frozen = true then
    (q, some "Encoding can be set only when it is not frozen.")
  else
    ({ q with encoding := encoding }, none)

/-- `StaticGridTensorQuantizer.compute_encoding`.  `results` is the answer of
`op.getEncoding(...)` for each native engine, in engine order.  The returned
pair is the state after the call together with the raised error, if any (the
mutations made before an assertion fires do persist, as in the source). -/
def compute_encoding (q : StaticGridState) (results : List (TfEncoding × Bool)) :
    StaticGridState × Option String :=
  if q.enabled = true ∧ q.is_encoding_frozen = false then
    if q.data_type = QuantizationDataType.float then
      ({ q with encoding := none }, none)
    else
      let final := results.foldl
        (fun (st : Bool × List TfEncoding) r =>
          if r.2 = true then (st.1, st.2 ++ [r.1]) else (false, st.2))
        (true, [])
      let q1 := { q with enabled := final.1, encoding := some final.2 }
      if final.1 = false ∧ final.2 ≠ [] then
        (q1, some "At least one encoding for a multi-encoding quantizer is invalid.")
      else
        (q1, none)
  else
    (q, none)

/-- `StaticGridTensorQuantizer.freeze_encoding`: `not self._encoding` is true
both for `None` and for an empty list. -/
def freeze_encoding (q : StaticGridState) : StaticGridState × Option String :=
  if q.encoding = none ∨ q.encoding = some [] then
    (q, some "Encoding can be frozen only when it is not None.")
  else
    ({ q with is_encoding_frozen := true }, none)

/-- `StaticGridTensorQuantizer.reset_encoding_stats`: engine statistics (out of
scope) are cleared and the encoding is discarded, unless frozen. -/
def reset_encoding_stats (q : StaticGridState) : StaticGridState × Option String :=
  if q.is_encoding_frozen = false then ({ q with encoding := none }, none) else (q, none)

/-- The mutating operations a static-grid quantizer exposes.  `setQuantScheme`
recreates the native engines and `updateStats`/`setPercentile` feed them; none
of the three touches the modelled state (encoding and flags). -/
inductive StaticOp
  | setEncoding (encoding : Option (List TfEncoding))
  | computeEncoding (results : List (TfEncoding × Bool))
  | freezeEnc
  | resetEncodingStats
  | setQuantScheme
  | updateStats
  | setPercentile

def staticStep (q : StaticGridState) : StaticOp → StaticGridState × Option String
  | .setEncoding enc => set_encoding_static q enc
  | .computeEncoding results => compute_encoding q results
  | .freezeEnc => freeze_encoding q
  | .resetEncodingStats => reset_encoding_stats q
  | .setQuantScheme => (q, none)
  | .updateStats => (q, none)
  | .setPercentile => (q, none)

def runOps (q : StaticGridState) : List StaticOp → StaticGridState
  | [] => q
  | op :: ops => runOps (staticStep q op).1 ops

/-- The per-tensor `encoding` property getter: the first stored encoding, or
`None` when the list is absent or empty. -/
def per_tensor_encoding (q : StaticGridState) : Option TfEncoding :=
  match q.encoding with
  | some (e :: _) => some e
  | _ => none

/-- Modelled from the spec: `compute_dloss_by_dx` of
`aimet_torch.quantsim_straight_through_grad` (not among the sources here).
Spec sections 4.4 and 8: the gradient is exactly 0 at every element whose
quantize-dequantized value lies outside the encoding range and equals the
upstream gradient unchanged elsewhere. -/
def compute_dloss_by_dx (x grad : Tensor) (encoding_min encoding_max : ℚ) : Tensor :=
  Tensor.binop (fun xv g => if encoding_min ≤ xv ∧ xv ≤ encoding_max then g else 0) x grad

/-- `QuantizeDequantize.backward` for the static-grid quantizers.  `saved` is
the quantize-dequantized output saved by forward.  The source reads
`tensor_quantizer.encoding.min`: for a per-channel quantizer the `encoding`
property is a Python list and for a missing encoding it is `None`, and the
attribute access raises in both cases. -/
def staticBackward (q : StaticGridState) (saved output_grad : Tensor) : Except String Tensor :=
  if q.enabled = true ∧ q.data_type = QuantizationDataType.int then
    if q.per_channel = true then
      .error (match q.encoding with
        | some _ => "AttributeError: list object has no attribute min"
        | none => "AttributeError: NoneType object has no attribute min")
    else
      match per_tensor_encoding q with
      | some e => .ok (compute_dloss_by_dx saved output_grad e.min e.max)
      | none => .error "AttributeError: NoneType object has no attribute min"
  else
    .ok output_grad

/-- `QuantizeDequantize._per_tensor_quantize_dequantize`.  `nativeQdq` is the
out-of-scope native engine primitive `op.quantizeDequantize` (indexed by
engine), `toHalf` the out-of-scope float16 round trip of `tensor.half()`. -/
def per_tensor_quantize_dequantize (q : StaticGridState) (tensor : Tensor)
    (nativeQdq : ℕ → Tensor → Option TfEncoding → Tensor) (toHalf : ℚ → ℚ) :
    Except String Tensor :=
  if q.data_type = QuantizationDataType.float then
    if q.bitwidth ≠ 16 then .error "float data_type only supports bitwidth=16"
    else .ok (Tensor.mapT toHalf tensor)
  else
    .ok (nativeQdq 0 tensor (per_tensor_encoding q))

/-- `QuantizeDequantize._per_channel_quantize_dequantize`: per-channel slices
through the native engines, stacked back along the channel axis. -/
def per_channel_quantize_dequantize (q : StaticGridState) (tensor : Tensor)
    (nativeQdq : ℕ → Tensor → Option TfEncoding → Tensor) (toHalf : ℚ → ℚ) :
    Except String Tensor :=
  if q.data_type = QuantizationDataType.float then
    if q.bitwidth ≠ 16 then .error "float data_type only supports bitwidth=16"
    else .ok (Tensor.mapT toHalf tensor)
  else
    .ok (Tensor.stack
      ((List.range q.num_ops).map (fun index =>
        nativeQdq index (tensor.select q.ch_axis index) ((q.encoding.getD []).get? index)))
      q.ch_axis)

/-- `QuantizeDequantize.forward`: dispatch on `enabled` and the quantizer
variant; a disabled quantizer passes the tensor through. -/
def static_qdq_forward (q : StaticGridState) (tensor : Tensor)
    (nativeQdq : ℕ → Tensor → Option TfEncoding → Tensor) (toHalf : ℚ → ℚ) :
    Except String Tensor :=
  if q.enabled = true then
    if q.per_channel = true then per_channel_quantize_dequantize q tensor nativeQdq toHalf
    else per_tensor_quantize_dequantize q tensor nativeQdq toHalf
  else
    .ok tensor

/-! ### Parameter quantization -/

/-- One named parameter of a wrapped layer: its quantizer, its data and the
gradient it received (if any). -/
structure ParamInfo where
  quantizer : LearnedState
  data : Tensor
  grad : Option Tensor
deriving DecidableEq

/-- Modelled from the spec: the closed-form helpers
`compute_intermediate_result_for_learned_grid`, `compute_dloss_by_dmin` and
`compute_dloss_by_dmax` of `aimet_torch.quantsim_straight_through_grad` (not
among the sources here).  Spec section 4.4: re-derive the broadcast
scale/offset, then take the scale term `(clamped + offset - tensor*mask/delta)
* g` and the offset term `delta*g*(1-mask)`, reduced over all axes except the
channel axis in the per-channel case, and combine them into the min/max
gradients; the encoding bounds are recovered from scale and offset via
`min = -offset*scale` and `max = min + scale*p`. -/
def learned_grid_encoding_grads (tensor grad : Tensor) (scalingL offsetL : List ℚ)
    (n p : ℚ) (channel_axis : ℕ) : Tensor × Tensor :=
  let perChannel := 1 < scalingL.length ∧ 1 < tensor.shape.length
  let scaling :=
    if perChannel then broadcast_to_tensor tensor (Tensor.vec scalingL) channel_axis
    else Tensor.vec scalingL
  let offsetB :=
    if perChannel then broadcast_to_tensor tensor (Tensor.vec offsetL) channel_axis
    else Tensor.vec offsetL
  let q := ((tensor.divT scaling).roundT).addT offsetB
  let mask := (q.geT n).mulT (q.leT p)
  let clamped := q.clampT n p
  let scale_grad := ((clamped.subT offsetB).subT ((tensor.mulT mask).divT scaling)).mulT grad
  let offset_grad := (scaling.mulT grad).mulT (Tensor.mapT (fun m => 1 - m) mask)
  let dims :=
    if perChannel then
      (List.range tensor.shape.length).filter (fun i => decide (i ≠ channel_axis))
    else
      List.range tensor.shape.length
  let minV := Tensor.vec (List.zipWith (fun o s => -o * s) offsetL scalingL)
  let maxV := Tensor.vec (List.zipWith (fun o s => -o * s + s * p) offsetL scalingL)
  let scale_term := (scale_grad.sumDims dims).divT (Tensor.vec [p])
  let offset_term :=
    ((Tensor.vec [p]).divT (Tensor.mapT (fun x => x ^ 2) (maxV.subT minV))).mulT
      (offset_grad.sumDims dims)
  ((scale_term.negT).addT (maxV.mulT offset_term),
    scale_term.subT (minV.mulT offset_term))

/-- `ParameterQuantizer.compute_gradients`: gradients of the loss with respect
to a parameters encoding min and max (the in-place write of the tensor
gradient is not part of the returned value). -/
def pq_compute_gradients (tensor : Tensor) (tensor_quantizer : LearnedState) (grad : Tensor) :
    Tensor × Tensor :=
  learned_grid_encoding_grads tensor grad tensor_quantizer.scaling.data
    tensor_quantizer.offset.data tensor_quantizer.n tensor_quantizer.p
    tensor_quantizer.ch_axis

/-- `ParameterQuantizer.quantize_parameters`: for every enabled parameter
quantizer, read the encoding min/max supplied at positions `2*index` and
`2*index+1` of `encoding_params` (indexed over all named parameters), refresh
the quantizers scaling/offset and replace the parameter data in place with its
quantize-dequantize result. -/
def quantize_parameters (params : List ParamInfo) (encoding_params : List (List ℚ)) :
    List ParamInfo :=
  params.enum.map (fun ip =>
    let index := ip.1
    let pr := ip.2
    if pr.quantizer.enabled = true then
      let encoding_min := encoding_params.getD (index * 2) []
      let encoding_max := encoding_params.getD (index * 2 + 1) []
      let so := compute_scaling_offset pr.quantizer.p (Tensor.vec encoding_min)
        (Tensor.vec encoding_max)
      let q1 := { pr.quantizer with scaling := so.1, offset := so.2 }
      match quantize_dequantize_learned q1 pr.data (some encoding_min) (some encoding_max) with
      | .ok t => { pr with quantizer := q1, data := t }
      | .error _ => { pr with quantizer := q1 }
    else
      pr)

/-- `ParameterQuantizer.backward_pass_for_parameters`: the loop over the named
parameters, appending a (min-grad, max-grad) pair for an enabled parameter
with a gradient, a (`None`, `None`) pair for an enabled parameter without one,
and nothing for a disabled parameter. -/
def backward_pass_for_parameters (params : List ParamInfo) : List (Option Tensor) :=
  params.foldl
    (fun acc pr =>
      if pr.quantizer.enabled = true then
        match pr.grad with
        | some g =>
          acc ++ [some (pq_compute_gradients pr.data pr.quantizer g).1,
            some (pq_compute_gradients pr.data pr.quantizer g).2]
        | none => acc ++ [none, none]
      else
        acc)
    []

/-! ### Claim-side (spec) formulas for the learned-grid operator -/

/-- Channel index a tensor element reads its encoding from: the coordinate on
the channel axis in the per-channel case, 0 in the per-tensor case. -/
def specChannel (encoding_min : List ℚ) (channel_axis : ℕ) (idx : List ℕ) : ℕ :=
  if 1 < encoding_min.length then idx.getD channel_axis 0 else 0

/-- The delta of claim C1: `(max - min) / steps` at channel `c`. -/
def specDelta (encoding_min encoding_max : List ℚ) (steps : ℚ) (c : ℕ) : ℚ :=
  (encoding_max.getD c 0 - encoding_min.getD c 0) / steps

/-- The offset of claim C1: `round(min / delta)` at channel `c`. -/
def specOffsetQ (encoding_min encoding_max : List ℚ) (steps : ℚ) (c : ℕ) : ℚ :=
  (torchRound (encoding_min.getD c 0 / specDelta encoding_min encoding_max steps c) : ℚ)

/-- `q = round(tensor/delta) - offset` of claim C1 at one element. -/
def specQ (tensor : Tensor) (encoding_min encoding_max : List ℚ) (steps : ℚ)
    (channel_axis : ℕ) (idx : List ℕ) : ℚ :=
  (torchRound (tensor.get idx /
    specDelta encoding_min encoding_max steps (specChannel encoding_min channel_axis idx)) : ℚ)
    - specOffsetQ encoding_min encoding_max steps (specChannel encoding_min channel_axis idx)

/-- The boundary mask of claim C1 at one element: 1 inside `[n, p]`, 0 where
clamped. -/
def specMask (tensor : Tensor) (encoding_min encoding_max : List ℚ) (steps : ℚ)
    (channel_axis : ℕ) (n p : ℚ) (idx : List ℕ) : ℚ :=
  if n ≤ specQ tensor encoding_min encoding_max steps channel_axis idx ∧
      specQ tensor encoding_min encoding_max steps channel_axis idx ≤ p then 1 else 0

/-- The output of claim C1 at one element:
`(clamp(round(tensor/delta) - offset, n, p) + offset) * delta`. -/
def specDequant (tensor : Tensor) (encoding_min encoding_max : List ℚ) (steps : ℚ)
    (channel_axis : ℕ) (n p : ℚ) (idx : List ℕ) : ℚ :=
  (clampQ (specQ tensor encoding_min encoding_max steps channel_axis idx) n p +
    specOffsetQ encoding_min encoding_max steps (specChannel encoding_min channel_axis idx)) *
    specDelta encoding_min encoding_max steps (specChannel encoding_min channel_axis idx)

/-- The saved (integer-cast) clamped value at one element, as claim C2 reads
it from the forward context. -/
def specClampCast (tensor : Tensor) (encoding_min encoding_max : List ℚ) (steps : ℚ)
    (channel_axis : ℕ) (n p : ℚ) (bitwidth : ℕ)
    (use_symmetric_encodings use_unsigned_symmetric : Bool) (idx : List ℕ) : ℚ :=
  castTo (encoding_params_to_dtype bitwidth use_symmetric_encodings use_unsigned_symmetric)
    (clampQ (specQ tensor encoding_min encoding_max steps channel_axis idx) n p)

/-- The scale-gradient summand of claim C2 at one element:
`(clamped + offset - tensor*mask/delta) * g`. -/
def specScaleGradElem (tensor grad : Tensor) (encoding_min encoding_max : List ℚ)
    (steps : ℚ) (channel_axis : ℕ) (n p : ℚ) (bitwidth : ℕ)
    (use_symmetric_encodings use_unsigned_symmetric : Bool) (idx : List ℕ) : ℚ :=
  (specClampCast tensor encoding_min encoding_max steps channel_axis n p bitwidth
      use_symmetric_encodings use_unsigned_symmetric idx +
    specOffsetQ encoding_min encoding_max steps (specChannel encoding_min channel_axis idx) -
    tensor.get idx * specMask tensor encoding_min encoding_max steps channel_axis n p idx /
      specDelta encoding_min encoding_max steps (specChannel encoding_min channel_axis idx)) *
    grad.get idx

/-- The offset-gradient summand of claim C2 at one element:
`delta * g * (1 - mask)`. -/
def specOffsetGradElem (tensor grad : Tensor) (encoding_min encoding_max : List ℚ)
    (steps : ℚ) (channel_axis : ℕ) (n p : ℚ) (idx : List ℕ) : ℚ :=
  specDelta encoding_min encoding_max steps (specChannel encoding_min channel_axis idx) *
    grad.get idx *
    (1 - specMask tensor encoding_min encoding_max steps channel_axis n p idx)

/-- Sum of a per-element function over all elements whose coordinate on axis 0
is `c` (the reduction over all axes except channel axis 0). -/
def specChannelSum (s : List ℕ) (c : ℕ) (f : List ℕ → ℚ) : ℚ :=
  (((List.range (prodl s)).filter (fun j => decide ((unflatten s j).getD 0 0 = c))).map
    (fun j => f (unflatten s j))).sum

/-- A concrete enabled, unfrozen float-typed static-grid state, used as a
witness input. -/
def c4qFloat : StaticGridState :=
  { bitwidth := 8
    use_symmetric_encodings := false
    use_strict_symmetric := false
    use_unsigned_symmetric := true
    enabled := true
    data_type := QuantizationDataType.float
    is_encoding_frozen := false
    encoding := none
    per_channel := false
    ch_axis := 0
    num_ops := 1 }

/-- A concrete enabled, unfrozen int-typed static-grid state, used as a
witness input. -/
def c4qInt : StaticGridState :=
  { c4qFloat with data_type := QuantizationDataType.int }

/-- A concrete list of (encoding, is_valid) results from the native engines,
used as a witness input. -/
def c4results : List (TfEncoding × Bool) :=
  [({ min := 0, max := 1, delta := 1 / 255, offset := 0, bw := 8 }, true),
   ({ min := 0, max := 2, delta := 2 / 255, offset := 0, bw := 8 }, false)]

/-- A concrete frozen static-grid state with a stored encoding, used as a
witness input. -/
def c5qFrozen : StaticGridState :=
  { bitwidth := 8
    use_symmetric_encodings := false
    use_strict_symmetric := false
    use_unsigned_symmetric := true
    enabled := true
    data_type := QuantizationDataType.int
    is_encoding_frozen := true
    encoding := some [{ min := -1, max := 1, delta := 2 / 255, offset := -128, bw := 8 }]
    per_channel := false
    ch_axis := 0
    num_ops := 1 }

/-- A concrete disabled static-grid state, used as a witness input. -/
def c6qs : StaticGridState :=
  { bitwidth := 8
    use_symmetric_encodings := false
    use_strict_symmetric := false
    use_unsigned_symmetric := true
    enabled := false
    data_type := QuantizationDataType.int
    is_encoding_frozen := false
    encoding := none
    per_channel := false
    ch_axis := 0
    num_ops := 1 }

/-- A concrete disabled learned-grid state, used as a witness input. -/
def c6ql : LearnedState :=
  { bitwidth := 8
    use_symmetric_encodings := false
    use_strict_symmetric := false
    use_unsigned_symmetric := true
    enabled := false
    is_encoding_frozen := false
    n := 0
    p := 255
    ch_axis := 0
    scaling := Tensor.vec [1]
    offset := Tensor.vec [0]
    wrapper_min := none
    wrapper_max := none }

/-- A concrete enabled, unfrozen learned-grid state, used as a witness
input. -/
def c6qlEnabled : LearnedState := { c6ql with enabled := true }

/-- A concrete disabled parameter that nevertheless received a gradient, used
as a counterexample input. -/
def c8param : ParamInfo :=
  { quantizer := c6ql
    data := Tensor.mk [1] [1]
    grad := some (Tensor.mk [1] [1]) }

/-- A concrete disabled, already-frozen learned-grid state, used as a witness
input. -/
def c9ql : LearnedState := { c6ql with is_encoding_frozen := true }

/-- A concrete single encoding argument, used as a witness input. -/
def c10enc : EncodingArg :=
  EncodingArg.single { min := 0, max := 1, delta := 1 / 255, offset := 0, bw := 8 }

/-- The per-parameter contribution of `backward_pass_for_parameters`: the
(min-gradient, max-gradient) pair for a parameter with a gradient, a
(`None`, `None`) pair otherwise. -/
def bpPair (pr : ParamInfo) : List (Option Tensor) :=
  match pr.grad with
  | some g => [some (pq_compute_gradients pr.data pr.quantizer g).1,
      some (pq_compute_gradients pr.data pr.quantizer g).2]
  | none => [none, none]

/-- One step of the `backward_pass_for_parameters` fold: an enabled parameter
appends its contribution, a disabled one appends nothing. -/
def bpStep (acc : List (Option Tensor)) (pr : ParamInfo) : List (Option Tensor) :=
  if pr.quantizer.enabled = true then acc ++ bpPair pr else acc

/-! ### Index arithmetic lemmas -/

theorem prodl_pos {s : List ℕ} (h : ∀ d ∈ s, 0 < d) : 0 < prodl s := by
  induction s with
  | nil => simp [prodl]
  | cons d ds ih =>
    simp only [prodl]
    exact Nat.mul_pos (h d (by simp)) (ih (fun x hx => h x (by simp [hx])))

theorem validIdxB_cons {i d : ℕ} {is_ ds : List ℕ} :
    validIdxB (i :: is_) (d :: ds) = true ↔ i < d ∧ validIdxB is_ ds = true := by
  simp [validIdxB]

theorem validIdxB_length : ∀ {idx s : List ℕ}, validIdxB idx s = true → idx.length = s.length
  | [], [], _ => rfl
  | _ :: is_, _ :: ds, h => by
    have h' := validIdxB_cons.mp h
    simp [validIdxB_length h'.2]
  | [], _ :: _, h => by simp [validIdxB] at h
  | _ :: _, [], h => by simp [validIdxB] at h

theorem validIdxB_getD : ∀ {idx s : List ℕ}, validIdxB idx s = true →
    ∀ i, i < s.length → idx.getD i 0 < s.getD i 0
  | [], [], _ => by intro i hi; simp at hi
  | _ :: is_, _ :: ds, h => by
    intro i hi
    have h' := validIdxB_cons.mp h
    cases i with
    | zero => simpa using h'.1
    | succ i =>
      simp only [List.getD_cons_succ]
      exact validIdxB_getD h'.2 i (by simpa using hi)
  | [], _ :: _, h => by simp [validIdxB] at h
  | _ :: _, [], h => by simp [validIdxB] at h

theorem flatten_lt : ∀ {s idx : List ℕ}, validIdxB idx s = true → flatten s idx < prodl s
  | [], [], _ => by simp [flatten, prodl]
  | d :: ds, i :: is_, h => by
    have h' := validIdxB_cons.mp h
    have hf : flatten ds is_ < prodl ds := flatten_lt h'.2
    have : i * prodl ds + flatten ds is_ < (i + 1) * prodl ds := by
      calc i * prodl ds + flatten ds is_ < i * prodl ds + prodl ds := by omega
        _ = (i + 1) * prodl ds := by ring
    calc flatten (d :: ds) (i :: is_) = i * prodl ds + flatten ds is_ := by simp [flatten]
      _ < (i + 1) * prodl ds := this
      _ ≤ d * prodl ds := Nat.mul_le_mul_right _ h'.1
      _ = prodl (d :: ds) := by simp [prodl]
  | [], _ :: _, h => by simp [validIdxB] at h
  | _ :: _, [], h => by simp [validIdxB] at h

theorem unflatten_length : ∀ (s : List ℕ) (j : ℕ), (unflatten s j).length = s.length
  | [], _ => rfl
  | _ :: ds, j => by simp [unflatten, unflatten_length ds]

theorem validIdxB_unflatten : ∀ {s : List ℕ} {j : ℕ}, j < prodl s →
    validIdxB (unflatten s j) s = true
  | [], j, h => by
    have hj : j = 0 := by
      have h1 : j < 1 := by simpa [prodl] using h
      omega
    subst hj
    rfl
  | d :: ds, j, h => by
    have hP : 0 < prodl ds := by
      rcases Nat.eq_zero_or_pos (prodl ds) with h0 | h0
      · simp [prodl, h0] at h
      · exact h0
    have h1 : j / prodl ds < d := (Nat.div_lt_iff_lt_mul hP).mpr (by simpa [prodl] using h)
    have h2 : j % prodl ds < prodl ds := Nat.mod_lt _ hP
    simp only [unflatten]
    exact validIdxB_cons.mpr ⟨h1, validIdxB_unflatten h2⟩

theorem flatten_unflatten : ∀ {s : List ℕ} {j : ℕ}, j < prodl s →
    flatten s (unflatten s j) = j
  | [], j, h => by
    have hj : j = 0 := by
      have h1 : j < 1 := by simpa [prodl] using h
      omega
    subst hj
    rfl
  | d :: ds, j, h => by
    have hP : 0 < prodl ds := by
      rcases Nat.eq_zero_or_pos (prodl ds) with h0 | h0
      · simp [prodl, h0] at h
      · exact h0
    have h2 : j % prodl ds < prodl ds := Nat.mod_lt _ hP
    simp only [unflatten, flatten]
    rw [flatten_unflatten h2]
    exact Nat.div_add_mod' j (prodl ds)

theorem unflatten_flatten : ∀ {s idx : List ℕ}, validIdxB idx s = true →
    unflatten s (flatten s idx) = idx
  | [], [], _ => rfl
  | d :: ds, i :: is_, h => by
    have h' := validIdxB_cons.mp h
    have hf : flatten ds is_ < prodl ds := flatten_lt h'.2
    have hP : 0 < prodl ds := Nat.lt_of_le_of_lt (Nat.zero_le _) hf
    simp only [flatten, unflatten, List.cons.injEq]
    have e : i * prodl ds + flatten ds is_ = prodl ds * i + flatten ds is_ := by ring
    refine ⟨?_, ?_⟩
    · rw [e, Nat.mul_add_div hP, Nat.div_eq_of_lt hf]
      omega
    · rw [e, Nat.mul_add_mod, Nat.mod_eq_of_lt hf]
      exact unflatten_flatten h'.2

theorem unflatten_rank1 (L j : ℕ) : unflatten [L] j = [j] := by
  simp [unflatten, prodl]

/-! ### Tensor access lemmas -/

theorem ofFn_shape (s : List ℕ) (f : List ℕ → ℚ) : (Tensor.ofFn s f).shape = s := rfl

theorem ofFn_data_length (s : List ℕ) (f : List ℕ → ℚ) :
    (Tensor.ofFn s f).data.length = prodl s := by
  simp [Tensor.ofFn]

theorem ofFn_data_getD {s : List ℕ} {f : List ℕ → ℚ} {j : ℕ} (h : j < prodl s) :
    (Tensor.ofFn s f).data.getD j 0 = f (unflatten s j) := by
  have hlen : j < ((List.range (prodl s)).map (fun j => f (unflatten s j))).length := by
    simpa using h
  simp only [Tensor.ofFn]
  rw [List.getD_eq_getElem _ _ hlen]
  simp

theorem ofFn_get {s : List ℕ} {f : List ℕ → ℚ} {idx : List ℕ}
    (h : validIdxB idx s = true) : (Tensor.ofFn s f).get idx = f idx := by
  have h1 : flatten s idx < prodl s := flatten_lt h
  simp only [Tensor.get, ofFn_shape]
  rw [ofFn_data_getD h1, unflatten_flatten h]

theorem get_rank1 {t : Tensor} {L c : ℕ} (hs : t.shape = [L]) :
    t.get [c] = t.data.getD c 0 := by
  simp [Tensor.get, hs, flatten, prodl]

theorem vec_get (v : List ℚ) (c : ℕ) : (Tensor.vec v).get [c] = v.getD c 0 :=
  get_rank1 rfl

theorem stepCoord_one (i : ℕ) : stepCoord i 1 = 0 := by simp [stepCoord]

theorem stepCoord_of_lt {i d : ℕ} (h : i < d) : stepCoord i d = i := by
  unfold stepCoord
  split
  · omega
  · rfl

theorem zipWith_stepCoord_valid : ∀ {idx s : List ℕ}, validIdxB idx s = true →
    List.zipWith stepCoord idx s = idx
  | [], [], _ => rfl
  | i :: is_, d :: ds, h => by
    have h' := validIdxB_cons.mp h
    simp only [List.zipWith_cons_cons, List.cons.injEq]
    exact ⟨stepCoord_of_lt h'.1, zipWith_stepCoord_valid h'.2⟩

theorem bval_same {t : Tensor} {s idx : List ℕ} (hs : t.shape = s)
    (h : validIdxB idx s = true) : t.bval idx = t.get idx := by
  have hl : idx.length = s.length := validIdxB_length h
  simp only [Tensor.bval, Tensor.get, hs, hl, Nat.sub_self, List.drop_zero]
  rw [zipWith_stepCoord_valid h]

theorem exists_drop_singleton {α : Type} : ∀ {l : List α}, l ≠ [] →
    ∃ x, l.drop (l.length - 1) = [x]
  | [], h => absurd rfl h
  | [a], _ => ⟨a, rfl⟩
  | a :: b :: t, _ => by
    obtain ⟨x, hx⟩ := exists_drop_singleton (l := b :: t) (by simp)
    refine ⟨x, ?_⟩
    simpa using hx

theorem bval_scalar {t : Tensor} {idx : List ℕ} (hs : t.shape = [1]) (h : idx ≠ []) :
    t.bval idx = t.data.getD 0 0 := by
  obtain ⟨x, hx⟩ := exists_drop_singleton h
  simp only [Tensor.bval, hs]
  simp only [List.length_cons, List.length_nil]
  rw [hx]
  simp [stepCoord, flatten, prodl]

theorem bcastShape_length : ∀ (r ch L : ℕ), (bcastShape r ch L).length = r
  | 0, _, _ => rfl
  | r + 1, 0, L => by simp [bcastShape]
  | r + 1, ch + 1, L => by simp [bcastShape, bcastShape_length r ch L]

theorem prodl_replicate_one : ∀ (r : ℕ), prodl (List.replicate r 1) = 1
  | 0 => rfl
  | r + 1 => by simp [List.replicate_succ, prodl, prodl_replicate_one r]

theorem flatten_replicate_one_step : ∀ (r : ℕ) (rest : List ℕ),
    flatten (List.replicate r 1) (List.zipWith stepCoord rest (List.replicate r 1)) = 0
  | 0, _ => rfl
  | r + 1, [] => rfl
  | r + 1, x :: rest => by
    simp only [List.replicate_succ, List.zipWith_cons_cons, flatten]
    rw [flatten_replicate_one_step r rest]
    simp [stepCoord]

theorem flatten_bcast : ∀ (r ch L : ℕ) (idx : List ℕ), idx.length = r → ch < r →
    (L = 1 → idx.getD ch 0 = 0) →
    flatten (bcastShape r ch L) (List.zipWith stepCoord idx (bcastShape r ch L))
      = idx.getD ch 0
  | 0, _, _, idx, _, hch, _ => by omega
  | r + 1, 0, L, [], hlen, _, _ => by simp at hlen
  | r + 1, 0, L, i :: rest, hlen, _, hL1 => by
    simp only [bcastShape, List.zipWith_cons_cons, flatten]
    rw [flatten_replicate_one_step r rest, prodl_replicate_one]
    simp only [Nat.mul_one, Nat.add_zero, List.getD_cons_zero]
    unfold stepCoord
    split
    · have h0 : i = 0 := by simpa using hL1 (by assumption)
      exact h0.symm
    · rfl
  | r + 1, ch + 1, L, [], hlen, _, _ => by simp at hlen
  | r + 1, ch + 1, L, i :: rest, hlen, hch, hL1 => by
    simp only [bcastShape, List.zipWith_cons_cons, flatten]
    rw [stepCoord_one, Nat.zero_mul, Nat.zero_add]
    have hr : rest.length = r := by simpa using hlen
    have hch' : ch < r := by omega
    have hL1' : L = 1 → rest.getD ch 0 = 0 := by
      intro h1
      simpa using hL1 h1
    rw [flatten_bcast r ch L rest hr hch' hL1']
    simp

theorem bval_bcast {t : Tensor} {s idx : List ℕ} {ch : ℕ}
    (hs : t.shape = bcastShape s.length ch t.data.length)
    (hch : ch < s.length) (hL : t.data.length = s.getD ch 0)
    (hidx : validIdxB idx s = true) :
    t.bval idx = t.data.getD (idx.getD ch 0) 0 := by
  have hlen : idx.length = s.length := validIdxB_length hidx
  have hsl : t.shape.length = s.length := by rw [hs, bcastShape_length]
  have hL1 : t.data.length = 1 → idx.getD ch 0 = 0 := by
    intro h1
    have := validIdxB_getD hidx ch hch
    omega
  simp only [Tensor.bval, hs]
  rw [bcastShape_length, hlen, Nat.sub_self, List.drop_zero,
    flatten_bcast s.length ch t.data.length idx hlen hch hL1]

/-! ### Broadcast shape lemmas -/

theorem padOnes_of_length {r : ℕ} {s : List ℕ} (h : s.length = r) : padOnes r s = s := by
  simp [padOnes, h]

theorem zipWith_max_self : ∀ (s : List ℕ), List.zipWith max s s = s
  | [] => rfl
  | d :: ds => by simp [zipWith_max_self ds]

theorem broadcastShape_same (s : List ℕ) : broadcastShape s s = s := by
  simp only [broadcastShape, Nat.max_self, padOnes_of_length rfl]
  exact zipWith_max_self s

theorem padOnes_scalar {r : ℕ} (h : 0 < r) : padOnes r [1] = List.replicate r 1 := by
  have h1 : r - 1 + 1 = r := by omega
  calc padOnes r [1] = List.replicate (r - 1) 1 ++ [1] := by simp [padOnes]
    _ = List.replicate (r - 1 + 1) 1 := by rw [List.replicate_succ']
    _ = List.replicate r 1 := by rw [h1]

theorem zipWith_max_replicate_right : ∀ {s : List ℕ}, (∀ d ∈ s, 0 < d) →
    List.zipWith max s (List.replicate s.length 1) = s
  | [], _ => rfl
  | d :: ds, hpos => by
    simp only [List.length_cons, List.replicate_succ, List.zipWith_cons_cons, List.cons.injEq]
    refine ⟨Nat.max_eq_left (hpos d (by simp)), ?_⟩
    exact zipWith_max_replicate_right (fun x hx => hpos x (by simp [hx]))

theorem zipWith_max_replicate_left : ∀ {s : List ℕ}, (∀ d ∈ s, 0 < d) →
    List.zipWith max (List.replicate s.length 1) s = s
  | [], _ => rfl
  | d :: ds, hpos => by
    simp only [List.length_cons, List.replicate_succ, List.zipWith_cons_cons, List.cons.injEq]
    refine ⟨Nat.max_eq_right (hpos d (by simp)), ?_⟩
    exact zipWith_max_replicate_left (fun x hx => hpos x (by simp [hx]))

theorem broadcastShape_scalar_right {s : List ℕ} (h0 : 0 < s.length)
    (hpos : ∀ d ∈ s, 0 < d) : broadcastShape s [1] = s := by
  have hr : max s.length ([1] : List ℕ).length = s.length := by
    simp only [List.length_cons, List.length_nil]
    omega
  simp only [broadcastShape, hr, padOnes_of_length rfl, padOnes_scalar h0]
  exact zipWith_max_replicate_right hpos

theorem broadcastShape_scalar_left {s : List ℕ} (h0 : 0 < s.length)
    (hpos : ∀ d ∈ s, 0 < d) : broadcastShape [1] s = s := by
  have hr : max ([1] : List ℕ).length s.length = s.length := by
    simp only [List.length_cons, List.length_nil]
    omega
  simp only [broadcastShape, hr, padOnes_of_length rfl, padOnes_scalar h0]
  exact zipWith_max_replicate_left hpos

theorem zipWith_max_bcast_right : ∀ {s : List ℕ} (ch : ℕ), ch < s.length →
    (∀ d ∈ s, 0 < d) →
    List.zipWith max s (bcastShape s.length ch (s.getD ch 0)) = s
  | [], ch, hch, _ => by simp at hch
  | d :: ds, 0, _, hpos => by
    simp only [List.length_cons, List.getD_cons_zero, bcastShape, List.zipWith_cons_cons,
      Nat.max_self, List.cons.injEq]
    exact ⟨trivial, zipWith_max_replicate_right (fun x hx => hpos x (by simp [hx]))⟩
  | d :: ds, ch + 1, hch, hpos => by
    simp only [List.length_cons, List.getD_cons_succ, bcastShape, List.zipWith_cons_cons,
      List.cons.injEq]
    refine ⟨Nat.max_eq_left (hpos d (by simp)), ?_⟩
    exact zipWith_max_bcast_right ch (by simpa using hch) (fun x hx => hpos x (by simp [hx]))

theorem zipWith_max_bcast_left : ∀ {s : List ℕ} (ch : ℕ), ch < s.length →
    (∀ d ∈ s, 0 < d) →
    List.zipWith max (bcastShape s.length ch (s.getD ch 0)) s = s
  | [], ch, hch, _ => by simp at hch
  | d :: ds, 0, _, hpos => by
    simp only [List.length_cons, List.getD_cons_zero, bcastShape, List.zipWith_cons_cons,
      Nat.max_self, List.cons.injEq]
    exact ⟨trivial, zipWith_max_replicate_left (fun x hx => hpos x (by simp [hx]))⟩
  | d :: ds, ch + 1, hch, hpos => by
    simp only [List.length_cons, List.getD_cons_succ, bcastShape, List.zipWith_cons_cons,
      List.cons.injEq]
    refine ⟨Nat.max_eq_right (hpos d (by simp)), ?_⟩
    exact zipWith_max_bcast_left ch (by simpa using hch) (fun x hx => hpos x (by simp [hx]))

theorem broadcastShape_bcast_right {s : List ℕ} {ch L : ℕ} (hch : ch < s.length)
    (hL : L = s.getD ch 0) (hpos : ∀ d ∈ s, 0 < d) :
    broadcastShape s (bcastShape s.length ch L) = s := by
  subst hL
  have hlen : (bcastShape s.length ch (s.getD ch 0)).length = s.length := bcastShape_length _ _ _
  have hr : max s.length (bcastShape s.length ch (s.getD ch 0)).length = s.length := by
    rw [hlen, Nat.max_self]
  simp only [broadcastShape, hr, padOnes_of_length rfl, padOnes_of_length hlen]
  exact zipWith_max_bcast_right ch hch hpos

theorem broadcastShape_bcast_left {s : List ℕ} {ch L : ℕ} (hch : ch < s.length)
    (hL : L = s.getD ch 0) (hpos : ∀ d ∈ s, 0 < d) :
    broadcastShape (bcastShape s.length ch L) s = s := by
  subst hL
  have hlen : (bcastShape s.length ch (s.getD ch 0)).length = s.length := bcastShape_length _ _ _
  have hr : max (bcastShape s.length ch (s.getD ch 0)).length s.length = s.length := by
    rw [hlen, Nat.max_self]
  simp only [broadcastShape, hr, padOnes_of_length rfl, padOnes_of_length hlen]
  exact zipWith_max_bcast_left ch hch hpos

/-! ### Elementwise operation access lemmas -/

theorem get_unflatten_of_shape {t : Tensor} {s : List ℕ} {j : ℕ} (hs : t.shape = s)
    (hj : j < prodl s) : t.get (unflatten s j) = t.data.getD j 0 := by
  simp only [Tensor.get, hs]
  rw [flatten_unflatten hj]

theorem binop_shape_same {f : ℚ → ℚ → ℚ} {a b : Tensor} {s : List ℕ}
    (ha : a.shape = s) (hb : b.shape = s) : (Tensor.binop f a b).shape = s := by
  simp [Tensor.binop, ofFn_shape, ha, hb, broadcastShape_same]

theorem binop_get_same {f : ℚ → ℚ → ℚ} {a b : Tensor} {s idx : List ℕ}
    (ha : a.shape = s) (hb : b.shape = s) (hidx : validIdxB idx s = true) :
    (Tensor.binop f a b).get idx = f (a.get idx) (b.get idx) := by
  have hbs : broadcastShape a.shape b.shape = s := by rw [ha, hb, broadcastShape_same]
  have h := ofFn_get (s := broadcastShape a.shape b.shape) (hbs ▸ hidx)
    (f := fun idx => f (a.bval idx) (b.bval idx))
  simp only [Tensor.binop]
  rw [h]
  dsimp only
  rw [bval_same ha hidx, bval_same hb hidx]

theorem nonempty_of_validIdxB {idx s : List ℕ} (h0 : 0 < s.length)
    (hidx : validIdxB idx s = true) : idx ≠ [] := by
  have := validIdxB_length hidx
  intro he
  rw [he] at this
  simp at this
  omega

theorem binop_shape_scalar_right {f : ℚ → ℚ → ℚ} {a b : Tensor} {s : List ℕ}
    (ha : a.shape = s) (hb : b.shape = [1]) (h0 : 0 < s.length)
    (hpos : ∀ d ∈ s, 0 < d) : (Tensor.binop f a b).shape = s := by
  simp [Tensor.binop, ofFn_shape, ha, hb, broadcastShape_scalar_right h0 hpos]

theorem binop_get_scalar_right {f : ℚ → ℚ → ℚ} {a b : Tensor} {s idx : List ℕ}
    (ha : a.shape = s) (hb : b.shape = [1]) (h0 : 0 < s.length)
    (hpos : ∀ d ∈ s, 0 < d) (hidx : validIdxB idx s = true) :
    (Tensor.binop f a b).get idx = f (a.get idx) (b.data.getD 0 0) := by
  have hbs : broadcastShape a.shape b.shape = s := by
    rw [ha, hb]
    exact broadcastShape_scalar_right h0 hpos
  have h := ofFn_get (s := broadcastShape a.shape b.shape) (hbs ▸ hidx)
    (f := fun idx => f (a.bval idx) (b.bval idx))
  simp only [Tensor.binop]
  rw [h]
  dsimp only
  rw [bval_same ha hidx, bval_scalar hb (nonempty_of_validIdxB h0 hidx)]

theorem binop_shape_scalar_left {f : ℚ → ℚ → ℚ} {a b : Tensor} {s : List ℕ}
    (ha : a.shape = [1]) (hb : b.shape = s) (h0 : 0 < s.length)
    (hpos : ∀ d ∈ s, 0 < d) : (Tensor.binop f a b).shape = s := by
  simp [Tensor.binop, ofFn_shape, ha, hb, broadcastShape_scalar_left h0 hpos]

theorem binop_get_scalar_left {f : ℚ → ℚ → ℚ} {a b : Tensor} {s idx : List ℕ}
    (ha : a.shape = [1]) (hb : b.shape = s) (h0 : 0 < s.length)
    (hpos : ∀ d ∈ s, 0 < d) (hidx : validIdxB idx s = true) :
    (Tensor.binop f a b).get idx = f (a.data.getD 0 0) (b.get idx) := by
  have hbs : broadcastShape a.shape b.shape = s := by
    rw [ha, hb]
    exact broadcastShape_scalar_left h0 hpos
  have h := ofFn_get (s := broadcastShape a.shape b.shape) (hbs ▸ hidx)
    (f := fun idx => f (a.bval idx) (b.bval idx))
  simp only [Tensor.binop]
  rw [h]
  dsimp only
  rw [bval_same hb hidx, bval_scalar ha (nonempty_of_validIdxB h0 hidx)]

theorem binop_shape_bcast_right {f : ℚ → ℚ → ℚ} {a b : Tensor} {s : List ℕ} {ch : ℕ}
    (ha : a.shape = s) (hb : b.shape = bcastShape s.length ch b.data.length)
    (hch : ch < s.length) (hL : b.data.length = s.getD ch 0)
    (hpos : ∀ d ∈ s, 0 < d) : (Tensor.binop f a b).shape = s := by
  simp [Tensor.binop, ofFn_shape, ha, hb, broadcastShape_bcast_right hch hL hpos]

theorem binop_get_bcast_right {f : ℚ → ℚ → ℚ} {a b : Tensor} {s idx : List ℕ} {ch : ℕ}
    (ha : a.shape = s) (hb : b.shape = bcastShape s.length ch b.data.length)
    (hch : ch < s.length) (hL : b.data.length = s.getD ch 0)
    (hpos : ∀ d ∈ s, 0 < d) (hidx : validIdxB idx s = true) :
    (Tensor.binop f a b).get idx = f (a.get idx) (b.data.getD (idx.getD ch 0) 0) := by
  have hbs : broadcastShape a.shape b.shape = s := by
    rw [ha, hb]
    exact broadcastShape_bcast_right hch hL hpos
  have h := ofFn_get (s := broadcastShape a.shape b.shape) (hbs ▸ hidx)
    (f := fun idx => f (a.bval idx) (b.bval idx))
  simp only [Tensor.binop]
  rw [h]
  dsimp only
  rw [bval_same ha hidx, bval_bcast hb hch hL hidx]

theorem binop_shape_bcast_left {f : ℚ → ℚ → ℚ} {a b : Tensor} {s : List ℕ} {ch : ℕ}
    (ha : a.shape = bcastShape s.length ch a.data.length) (hb : b.shape = s)
    (hch : ch < s.length) (hL : a.data.length = s.getD ch 0)
    (hpos : ∀ d ∈ s, 0 < d) : (Tensor.binop f a b).shape = s := by
  simp [Tensor.binop, ofFn_shape, ha, hb, broadcastShape_bcast_left hch hL hpos]

theorem binop_get_bcast_left {f : ℚ → ℚ → ℚ} {a b : Tensor} {s idx : List ℕ} {ch : ℕ}
    (ha : a.shape = bcastShape s.length ch a.data.length) (hb : b.shape = s)
    (hch : ch < s.length) (hL : a.data.length = s.getD ch 0)
    (hpos : ∀ d ∈ s, 0 < d) (hidx : validIdxB idx s = true) :
    (Tensor.binop f a b).get idx = f (a.data.getD (idx.getD ch 0) 0) (b.get idx) := by
  have hbs : broadcastShape a.shape b.shape = s := by
    rw [ha, hb]
    exact broadcastShape_bcast_left hch hL hpos
  have h := ofFn_get (s := broadcastShape a.shape b.shape) (hbs ▸ hidx)
    (f := fun idx => f (a.bval idx) (b.bval idx))
  simp only [Tensor.binop]
  rw [h]
  dsimp only
  rw [bval_same hb hidx, bval_bcast ha hch hL hidx]

theorem mapT_shape (f : ℚ → ℚ) (t : Tensor) : (Tensor.mapT f t).shape = t.shape := rfl

theorem mapT_get {f : ℚ → ℚ} {t : Tensor} {idx : List ℕ}
    (h : validIdxB idx t.shape = true) : (Tensor.mapT f t).get idx = f (t.get idx) :=
  ofFn_get h

/-! ### Reduction lemmas -/

theorem sumDims_shape (t : Tensor) (dims : List ℕ) :
    (t.sumDims dims).shape = reducedShape t.shape dims := rfl

theorem sumDims_get {t : Tensor} {dims ridx : List ℕ}
    (h : validIdxB ridx (reducedShape t.shape dims) = true) :
    (t.sumDims dims).get ridx = sumEntry t dims ridx :=
  ofFn_get h

theorem range_filter_eq_zero : ∀ {r : ℕ}, 0 < r →
    (List.range r).filter (fun i => decide (i = 0)) = [0]
  | 1, _ => rfl
  | r + 2, _ => by
    rw [List.range_succ, List.filter_append, range_filter_eq_zero (by omega)]
    simp

theorem keepAxes_except_zero {r : ℕ} (h : 0 < r) :
    keepAxes r ((List.range r).filter (fun i => decide (i ≠ 0))) = [0] := by
  unfold keepAxes
  rw [List.filter_congr (q := fun i => decide (i = 0)) ?_]
  · exact range_filter_eq_zero h
  · intro i hi
    have : i ∈ (List.range r).filter (fun i => decide (i ≠ 0)) ↔ ¬ i = 0 := by
      simp only [List.mem_filter, decide_eq_true_eq]
      exact ⟨fun hx => hx.2, fun hx => ⟨hi, hx⟩⟩
    apply decide_eq_decide.mpr
    rw [this]
    tauto

theorem reducedShape_except_zero {s : List ℕ} (h : 0 < s.length) :
    reducedShape s ((List.range s.length).filter (fun i => decide (i ≠ 0))) = [s.getD 0 0] := by
  unfold reducedShape
  rw [keepAxes_except_zero h]
  rfl

theorem sumEntry_channel {t : Tensor} {dims : List ℕ} {c : ℕ}
    (hk : keepAxes t.shape.length dims = [0]) :
    sumEntry t dims [c] =
      (((List.range (prodl t.shape)).filter
        (fun j => decide ((unflatten t.shape j).getD 0 0 = c))).map
        (fun j => t.data.getD j 0)).sum := by
  unfold sumEntry
  rw [hk]
  congr 2
  apply List.filter_congr
  intro j _
  apply decide_eq_decide.mpr
  simp

theorem channel_sum_eq {t : Tensor} {s : List ℕ} {c : ℕ} {f : List ℕ → ℚ}
    (hf : ∀ j < prodl s, t.data.getD j 0 = f (unflatten s j)) :
    (((List.range (prodl s)).filter
      (fun j => decide ((unflatten s j).getD 0 0 = c))).map
      (fun j => t.data.getD j 0)).sum = specChannelSum s c f := by
  unfold specChannelSum
  congr 1
  apply List.map_congr_left
  intro j hj
  have hj' : j < prodl s := by
    have := (List.mem_filter.mp hj).1
    simpa using this
  exact hf j hj'

/-! ### Elementwise facts about the learned-grid forward pipeline -/

theorem validIdxB_rank1 {c L : ℕ} (h : c < L) : validIdxB [c] [L] = true := by
  simp [validIdxB, h]

theorem prodl_rank1 (L : ℕ) : prodl [L] = L := by simp [prodl]

theorem binop_data_length (f : ℚ → ℚ → ℚ) (a b : Tensor) :
    (Tensor.binop f a b).data.length = prodl (broadcastShape a.shape b.shape) :=
  ofFn_data_length _ _

theorem vec_p_getD (p : ℚ) : (Tensor.vec [p]).data.getD 0 0 = p := rfl

section ForwardPipeline

variable {tensor : Tensor} {encMin encMax : List ℚ} {p : ℚ} {ch : ℕ} {idx : List ℕ}

theorem subVec_shape (hlen : encMax.length = encMin.length) :
    ((Tensor.vec encMax).subT (Tensor.vec encMin)).shape = [encMin.length] := by
  rw [Tensor.subT]
  apply binop_shape_same
  · simp [Tensor.vec, hlen]
  · simp [Tensor.vec]

theorem pos_rank1 (h0 : 0 < encMin.length) : ∀ d ∈ [encMin.length], 0 < d := by
  intro d hd
  simp at hd
  omega

theorem deltaVec_shape (h0 : 0 < encMin.length) (hlen : encMax.length = encMin.length) :
    (((Tensor.vec encMax).subT (Tensor.vec encMin)).divT (Tensor.vec [p])).shape
      = [encMin.length] := by
  rw [Tensor.divT]
  exact binop_shape_scalar_right (subVec_shape hlen) rfl (by simp) (pos_rank1 h0)

theorem deltaVec_data_length (h0 : 0 < encMin.length) (hlen : encMax.length = encMin.length) :
    (((Tensor.vec encMax).subT (Tensor.vec encMin)).divT (Tensor.vec [p])).data.length
      = encMin.length := by
  rw [Tensor.divT, binop_data_length, subVec_shape hlen]
  have hv : (Tensor.vec [p]).shape = [1] := rfl
  rw [hv, broadcastShape_scalar_right (by simp) (pos_rank1 h0), prodl_rank1]

theorem deltaVec_get (h0 : 0 < encMin.length) (hlen : encMax.length = encMin.length)
    {c : ℕ} (hc : c < encMin.length) :
    (((Tensor.vec encMax).subT (Tensor.vec encMin)).divT (Tensor.vec [p])).get [c]
      = specDelta encMin encMax p c := by
  rw [Tensor.divT]
  rw [binop_get_scalar_right (subVec_shape hlen) rfl (by simp) (pos_rank1 h0)
    (validIdxB_rank1 hc)]
  rw [Tensor.subT]
  rw [binop_get_same (by simp [Tensor.vec, hlen]) (by simp [Tensor.vec]) (validIdxB_rank1 hc)]
  rw [vec_get, vec_get, vec_p_getD]
  rfl

theorem deltaVec_getD (h0 : 0 < encMin.length) (hlen : encMax.length = encMin.length)
    {c : ℕ} (hc : c < encMin.length) :
    (((Tensor.vec encMax).subT (Tensor.vec encMin)).divT (Tensor.vec [p])).data.getD c 0
      = specDelta encMin encMax p c := by
  rw [← get_rank1 (deltaVec_shape h0 hlen), deltaVec_get h0 hlen hc]

theorem offsetVec_inner_shape (h0 : 0 < encMin.length) (hlen : encMax.length = encMin.length) :
    ((Tensor.vec encMin).divT
      (((Tensor.vec encMax).subT (Tensor.vec encMin)).divT (Tensor.vec [p]))).shape
      = [encMin.length] := by
  show (Tensor.binop (fun x y => x / y) (Tensor.vec encMin)
    (((Tensor.vec encMax).subT (Tensor.vec encMin)).divT (Tensor.vec [p]))).shape = _
  exact binop_shape_same (by simp [Tensor.vec]) (deltaVec_shape h0 hlen)

theorem offsetVec_shape (h0 : 0 < encMin.length) (hlen : encMax.length = encMin.length) :
    (((Tensor.vec encMin).divT
      (((Tensor.vec encMax).subT (Tensor.vec encMin)).divT (Tensor.vec [p]))).roundT).shape
      = [encMin.length] := by
  rw [Tensor.roundT, mapT_shape]
  exact offsetVec_inner_shape h0 hlen

theorem offsetVec_data_length (h0 : 0 < encMin.length) (hlen : encMax.length = encMin.length) :
    (((Tensor.vec encMin).divT
      (((Tensor.vec encMax).subT (Tensor.vec encMin)).divT (Tensor.vec [p]))).roundT).data.length
      = encMin.length := by
  rw [Tensor.roundT, Tensor.mapT, ofFn_data_length, offsetVec_inner_shape h0 hlen, prodl_rank1]

theorem offsetVec_get (h0 : 0 < encMin.length) (hlen : encMax.length = encMin.length)
    {c : ℕ} (hc : c < encMin.length) :
    (((Tensor.vec encMin).divT
      (((Tensor.vec encMax).subT (Tensor.vec encMin)).divT (Tensor.vec [p]))).roundT).get [c]
      = specOffsetQ encMin encMax p c := by
  rw [Tensor.roundT]
  rw [mapT_get (by rw [offsetVec_inner_shape h0 hlen]; exact validIdxB_rank1 hc)]
  have hin : ((Tensor.vec encMin).divT
      (((Tensor.vec encMax).subT (Tensor.vec encMin)).divT (Tensor.vec [p]))).get [c]
      = encMin.getD c 0 / specDelta encMin encMax p c := by
    show (Tensor.binop (fun x y => x / y) (Tensor.vec encMin)
      (((Tensor.vec encMax).subT (Tensor.vec encMin)).divT (Tensor.vec [p]))).get [c] = _
    rw [binop_get_same (by simp [Tensor.vec]) (deltaVec_shape h0 hlen) (validIdxB_rank1 hc)]
    rw [vec_get, deltaVec_get h0 hlen hc]
  rw [hin]
  rfl

theorem offsetVec_getD (h0 : 0 < encMin.length) (hlen : encMax.length = encMin.length)
    {c : ℕ} (hc : c < encMin.length) :
    (((Tensor.vec encMin).divT
      (((Tensor.vec encMax).subT (Tensor.vec encMin)).divT (Tensor.vec [p]))).roundT).data.getD c 0
      = specOffsetQ encMin encMax p c := by
  rw [← get_rank1 (offsetVec_shape h0 hlen), offsetVec_get h0 hlen hc]

theorem broadcast_to_tensor_data (tensor t : Tensor) (ch : ℕ) :
    (broadcast_to_tensor tensor t ch).data = t.data := rfl

theorem broadcast_to_tensor_shape (tensor t : Tensor) (ch : ℕ) :
    (broadcast_to_tensor tensor t ch).shape
      = bcastShape tensor.shape.length ch t.data.length := rfl

theorem broadcast_hb (tensor t : Tensor) (ch : ℕ) :
    (broadcast_to_tensor tensor t ch).shape
      = bcastShape tensor.shape.length ch (broadcast_to_tensor tensor t ch).data.length := by
  rw [broadcast_to_tensor_shape, broadcast_to_tensor_data]

theorem cdo_fst_per_channel (hgt : 1 < encMin.length) :
    (compute_delta_and_offset tensor encMin encMax (Tensor.vec [p]) ch).1
      = broadcast_to_tensor tensor
          (((Tensor.vec encMax).subT (Tensor.vec encMin)).divT (Tensor.vec [p])) ch := by
  simp only [compute_delta_and_offset]
  rw [if_pos hgt]

theorem cdo_snd_per_channel (hgt : 1 < encMin.length) :
    (compute_delta_and_offset tensor encMin encMax (Tensor.vec [p]) ch).2
      = broadcast_to_tensor tensor
          (((Tensor.vec encMin).divT
            (((Tensor.vec encMax).subT (Tensor.vec encMin)).divT (Tensor.vec [p]))).roundT) ch := by
  simp only [compute_delta_and_offset]
  rw [if_pos hgt]

theorem cdo_fst_per_tensor (hgt : ¬ 1 < encMin.length) :
    (compute_delta_and_offset tensor encMin encMax (Tensor.vec [p]) ch).1
      = ((Tensor.vec encMax).subT (Tensor.vec encMin)).divT (Tensor.vec [p]) := by
  simp only [compute_delta_and_offset]
  rw [if_neg hgt]

theorem cdo_snd_per_tensor (hgt : ¬ 1 < encMin.length) :
    (compute_delta_and_offset tensor encMin encMax (Tensor.vec [p]) ch).2
      = ((Tensor.vec encMin).divT
          (((Tensor.vec encMax).subT (Tensor.vec encMin)).divT (Tensor.vec [p]))).roundT := by
  simp only [compute_delta_and_offset]
  rw [if_neg hgt]

theorem length_one_of_pos {L : ℕ} (h0 : 0 < L) (hgt : ¬ 1 < L) : L = 1 := by omega

theorem delta_get_r {f : ℚ → ℚ → ℚ} {a : Tensor} (ha : a.shape = tensor.shape)
    (h0 : 0 < encMin.length) (hlen : encMax.length = encMin.length)
    (hr : 0 < tensor.shape.length) (hch : ch < tensor.shape.length)
    (hC : 1 < encMin.length → encMin.length = tensor.shape.getD ch 0)
    (hpos : ∀ d ∈ tensor.shape, 0 < d) (hidx : validIdxB idx tensor.shape = true) :
    (Tensor.binop f a
        (compute_delta_and_offset tensor encMin encMax (Tensor.vec [p]) ch).1).get idx
      = f (a.get idx) (specDelta encMin encMax p (specChannel encMin ch idx)) := by
  by_cases hgt : 1 < encMin.length
  · rw [cdo_fst_per_channel hgt]
    have hL : (broadcast_to_tensor tensor
        (((Tensor.vec encMax).subT (Tensor.vec encMin)).divT (Tensor.vec [p])) ch).data.length
        = tensor.shape.getD ch 0 := by
      rw [broadcast_to_tensor_data, deltaVec_data_length h0 hlen]
      exact hC hgt
    rw [binop_get_bcast_right ha (broadcast_hb tensor _ ch) hch hL hpos hidx]
    have hcc : idx.getD ch 0 < encMin.length := by
      have h1 := validIdxB_getD hidx ch hch
      have h2 := hC hgt
      omega
    have hv : (broadcast_to_tensor tensor
        (((Tensor.vec encMax).subT (Tensor.vec encMin)).divT (Tensor.vec [p])) ch).data.getD
          (idx.getD ch 0) 0
        = specDelta encMin encMax p (idx.getD ch 0) := by
      rw [broadcast_to_tensor_data]
      exact deltaVec_getD h0 hlen hcc
    rw [hv]
    unfold specChannel
    rw [if_pos hgt]
  · rw [cdo_fst_per_tensor hgt]
    have hsh : (((Tensor.vec encMax).subT (Tensor.vec encMin)).divT (Tensor.vec [p])).shape
        = [1] := by
      rw [deltaVec_shape h0 hlen, length_one_of_pos h0 hgt]
    rw [binop_get_scalar_right ha hsh hr hpos hidx]
    rw [deltaVec_getD h0 hlen (by omega)]
    unfold specChannel
    rw [if_neg hgt]

theorem delta_shape_r {f : ℚ → ℚ → ℚ} {a : Tensor} (ha : a.shape = tensor.shape)
    (h0 : 0 < encMin.length) (hlen : encMax.length = encMin.length)
    (hr : 0 < tensor.shape.length) (hch : ch < tensor.shape.length)
    (hC : 1 < encMin.length → encMin.length = tensor.shape.getD ch 0)
    (hpos : ∀ d ∈ tensor.shape, 0 < d) :
    (Tensor.binop f a
        (compute_delta_and_offset tensor encMin encMax (Tensor.vec [p]) ch).1).shape
      = tensor.shape := by
  by_cases hgt : 1 < encMin.length
  · rw [cdo_fst_per_channel hgt]
    have hL : (broadcast_to_tensor tensor
        (((Tensor.vec encMax).subT (Tensor.vec encMin)).divT (Tensor.vec [p])) ch).data.length
        = tensor.shape.getD ch 0 := by
      rw [broadcast_to_tensor_data, deltaVec_data_length h0 hlen]
      exact hC hgt
    exact binop_shape_bcast_right ha (broadcast_hb tensor _ ch) hch hL hpos
  · rw [cdo_fst_per_tensor hgt]
    have hsh : (((Tensor.vec encMax).subT (Tensor.vec encMin)).divT (Tensor.vec [p])).shape
        = [1] := by
      rw [deltaVec_shape h0 hlen, length_one_of_pos h0 hgt]
    exact binop_shape_scalar_right ha hsh hr hpos

theorem delta_get_l {f : ℚ → ℚ → ℚ} {b : Tensor} (hb : b.shape = tensor.shape)
    (h0 : 0 < encMin.length) (hlen : encMax.length = encMin.length)
    (hr : 0 < tensor.shape.length) (hch : ch < tensor.shape.length)
    (hC : 1 < encMin.length → encMin.length = tensor.shape.getD ch 0)
    (hpos : ∀ d ∈ tensor.shape, 0 < d) (hidx : validIdxB idx tensor.shape = true) :
    (Tensor.binop f
        (compute_delta_and_offset tensor encMin encMax (Tensor.vec [p]) ch).1 b).get idx
      = f (specDelta encMin encMax p (specChannel encMin ch idx)) (b.get idx) := by
  by_cases hgt : 1 < encMin.length
  · rw [cdo_fst_per_channel hgt]
    have hL : (broadcast_to_tensor tensor
        (((Tensor.vec encMax).subT (Tensor.vec encMin)).divT (Tensor.vec [p])) ch).data.length
        = tensor.shape.getD ch 0 := by
      rw [broadcast_to_tensor_data, deltaVec_data_length h0 hlen]
      exact hC hgt
    rw [binop_get_bcast_left (broadcast_hb tensor _ ch) hb hch hL hpos hidx]
    have hcc : idx.getD ch 0 < encMin.length := by
      have h1 := validIdxB_getD hidx ch hch
      have h2 := hC hgt
      omega
    have hv : (broadcast_to_tensor tensor
        (((Tensor.vec encMax).subT (Tensor.vec encMin)).divT (Tensor.vec [p])) ch).data.getD
          (idx.getD ch 0) 0
        = specDelta encMin encMax p (idx.getD ch 0) := by
      rw [broadcast_to_tensor_data]
      exact deltaVec_getD h0 hlen hcc
    rw [hv]
    unfold specChannel
    rw [if_pos hgt]
  · rw [cdo_fst_per_tensor hgt]
    have hsh : (((Tensor.vec encMax).subT (Tensor.vec encMin)).divT (Tensor.vec [p])).shape
        = [1] := by
      rw [deltaVec_shape h0 hlen, length_one_of_pos h0 hgt]
    rw [binop_get_scalar_left hsh hb hr hpos hidx]
    rw [deltaVec_getD h0 hlen (by omega)]
    unfold specChannel
    rw [if_neg hgt]

theorem delta_shape_l {f : ℚ → ℚ → ℚ} {b : Tensor} (hb : b.shape = tensor.shape)
    (h0 : 0 < encMin.length) (hlen : encMax.length = encMin.length)
    (hr : 0 < tensor.shape.length) (hch : ch < tensor.shape.length)
    (hC : 1 < encMin.length → encMin.length = tensor.shape.getD ch 0)
    (hpos : ∀ d ∈ tensor.shape, 0 < d) :
    (Tensor.binop f
        (compute_delta_and_offset tensor encMin encMax (Tensor.vec [p]) ch).1 b).shape
      = tensor.shape := by
  by_cases hgt : 1 < encMin.length
  · rw [cdo_fst_per_channel hgt]
    have hL : (broadcast_to_tensor tensor
        (((Tensor.vec encMax).subT (Tensor.vec encMin)).divT (Tensor.vec [p])) ch).data.length
        = tensor.shape.getD ch 0 := by
      rw [broadcast_to_tensor_data, deltaVec_data_length h0 hlen]
      exact hC hgt
    exact binop_shape_bcast_left (broadcast_hb tensor _ ch) hb hch hL hpos
  · rw [cdo_fst_per_tensor hgt]
    have hsh : (((Tensor.vec encMax).subT (Tensor.vec encMin)).divT (Tensor.vec [p])).shape
        = [1] := by
      rw [deltaVec_shape h0 hlen, length_one_of_pos h0 hgt]
    exact binop_shape_scalar_left hsh hb hr hpos

theorem offset_get_r {f : ℚ → ℚ → ℚ} {a : Tensor} (ha : a.shape = tensor.shape)
    (h0 : 0 < encMin.length) (hlen : encMax.length = encMin.length)
    (hr : 0 < tensor.shape.length) (hch : ch < tensor.shape.length)
    (hC : 1 < encMin.length → encMin.length = tensor.shape.getD ch 0)
    (hpos : ∀ d ∈ tensor.shape, 0 < d) (hidx : validIdxB idx tensor.shape = true) :
    (Tensor.binop f a
        (compute_delta_and_offset tensor encMin encMax (Tensor.vec [p]) ch).2).get idx
      = f (a.get idx) (specOffsetQ encMin encMax p (specChannel encMin ch idx)) := by
  by_cases hgt : 1 < encMin.length
  · rw [cdo_snd_per_channel hgt]
    have hL : (broadcast_to_tensor tensor
        (((Tensor.vec encMin).divT
          (((Tensor.vec encMax).subT (Tensor.vec encMin)).divT (Tensor.vec [p]))).roundT)
        ch).data.length
        = tensor.shape.getD ch 0 := by
      rw [broadcast_to_tensor_data, offsetVec_data_length h0 hlen]
      exact hC hgt
    rw [binop_get_bcast_right ha (broadcast_hb tensor _ ch) hch hL hpos hidx]
    have hcc : idx.getD ch 0 < encMin.length := by
      have h1 := validIdxB_getD hidx ch hch
      have h2 := hC hgt
      omega
    have hv : (broadcast_to_tensor tensor
        (((Tensor.vec encMin).divT
          (((Tensor.vec encMax).subT (Tensor.vec encMin)).divT (Tensor.vec [p]))).roundT)
        ch).data.getD (idx.getD ch 0) 0
        = specOffsetQ encMin encMax p (idx.getD ch 0) := by
      rw [broadcast_to_tensor_data]
      exact offsetVec_getD h0 hlen hcc
    rw [hv]
    unfold specChannel
    rw [if_pos hgt]
  · rw [cdo_snd_per_tensor hgt]
    have hsh : (((Tensor.vec encMin).divT
        (((Tensor.vec encMax).subT (Tensor.vec encMin)).divT (Tensor.vec [p]))).roundT).shape
        = [1] := by
      rw [offsetVec_shape h0 hlen, length_one_of_pos h0 hgt]
    rw [binop_get_scalar_right ha hsh hr hpos hidx]
    rw [offsetVec_getD h0 hlen (by omega)]
    unfold specChannel
    rw [if_neg hgt]

theorem offset_shape_r {f : ℚ → ℚ → ℚ} {a : Tensor} (ha : a.shape = tensor.shape)
    (h0 : 0 < encMin.length) (hlen : encMax.length = encMin.length)
    (hr : 0 < tensor.shape.length) (hch : ch < tensor.shape.length)
    (hC : 1 < encMin.length → encMin.length = tensor.shape.getD ch 0)
    (hpos : ∀ d ∈ tensor.shape, 0 < d) :
    (Tensor.binop f a
        (compute_delta_and_offset tensor encMin encMax (Tensor.vec [p]) ch).2).shape
      = tensor.shape := by
  by_cases hgt : 1 < encMin.length
  · rw [cdo_snd_per_channel hgt]
    have hL : (broadcast_to_tensor tensor
        (((Tensor.vec encMin).divT
          (((Tensor.vec encMax).subT (Tensor.vec encMin)).divT (Tensor.vec [p]))).roundT)
        ch).data.length
        = tensor.shape.getD ch 0 := by
      rw [broadcast_to_tensor_data, offsetVec_data_length h0 hlen]
      exact hC hgt
    exact binop_shape_bcast_right ha (broadcast_hb tensor _ ch) hch hL hpos
  · rw [cdo_snd_per_tensor hgt]
    have hsh : (((Tensor.vec encMin).divT
        (((Tensor.vec encMax).subT (Tensor.vec encMin)).divT (Tensor.vec [p]))).roundT).shape
        = [1] := by
      rw [offsetVec_shape h0 hlen, length_one_of_pos h0 hgt]
    exact binop_shape_scalar_right ha hsh hr hpos

theorem specChannel_lt (h0 : 0 < encMin.length) (hch : ch < tensor.shape.length)
    (hC : 1 < encMin.length → encMin.length = tensor.shape.getD ch 0)
    (hidx : validIdxB idx tensor.shape = true) :
    specChannel encMin ch idx < encMin.length := by
  unfold specChannel
  split
  · have := validIdxB_getD hidx ch hch
    have hCe := hC (by assumption)
    omega
  · omega

theorem indicator_mul (x a b : ℚ) :
    (if a ≤ x then (1 : ℚ) else 0) * (if x ≤ b then (1 : ℚ) else 0)
      = if a ≤ x ∧ x ≤ b then (1 : ℚ) else 0 := by
  by_cases h1 : a ≤ x <;> by_cases h2 : x ≤ b <;> simp [h1, h2]

theorem divT_delta_shape (h0 : 0 < encMin.length) (hlen : encMax.length = encMin.length)
    (hr : 0 < tensor.shape.length) (hch : ch < tensor.shape.length)
    (hC : 1 < encMin.length → encMin.length = tensor.shape.getD ch 0)
    (hpos : ∀ d ∈ tensor.shape, 0 < d) :
    (tensor.divT
      (compute_delta_and_offset tensor encMin encMax (Tensor.vec [p]) ch).1).shape
      = tensor.shape := by
  rw [Tensor.divT]
  exact delta_shape_r rfl h0 hlen hr hch hC hpos

theorem quantize_out_shape (h0 : 0 < encMin.length) (hlen : encMax.length = encMin.length)
    (hr : 0 < tensor.shape.length) (hch : ch < tensor.shape.length)
    (hC : 1 < encMin.length → encMin.length = tensor.shape.getD ch 0)
    (hpos : ∀ d ∈ tensor.shape, 0 < d) :
    (((tensor.divT
      (compute_delta_and_offset tensor encMin encMax (Tensor.vec [p]) ch).1).roundT).subT
      (compute_delta_and_offset tensor encMin encMax (Tensor.vec [p]) ch).2).shape
      = tensor.shape := by
  rw [Tensor.subT]
  exact offset_shape_r
    (by rw [Tensor.roundT, mapT_shape]; exact divT_delta_shape h0 hlen hr hch hC hpos)
    h0 hlen hr hch hC hpos

theorem quantize_out_get (h0 : 0 < encMin.length) (hlen : encMax.length = encMin.length)
    (hr : 0 < tensor.shape.length) (hch : ch < tensor.shape.length)
    (hC : 1 < encMin.length → encMin.length = tensor.shape.getD ch 0)
    (hpos : ∀ d ∈ tensor.shape, 0 < d) (hidx : validIdxB idx tensor.shape = true) :
    (((tensor.divT
      (compute_delta_and_offset tensor encMin encMax (Tensor.vec [p]) ch).1).roundT).subT
      (compute_delta_and_offset tensor encMin encMax (Tensor.vec [p]) ch).2).get idx
      = specQ tensor encMin encMax p ch idx := by
  rw [Tensor.subT]
  rw [offset_get_r
    (by rw [Tensor.roundT, mapT_shape]; exact divT_delta_shape h0 hlen hr hch hC hpos)
    h0 hlen hr hch hC hpos hidx]
  rw [Tensor.roundT,
    mapT_get (by rw [divT_delta_shape h0 hlen hr hch hC hpos]; exact hidx)]
  rw [Tensor.divT, delta_get_r rfl h0 hlen hr hch hC hpos hidx]
  rfl

theorem clamp_out_shape {n : ℚ} (h0 : 0 < encMin.length) (hlen : encMax.length = encMin.length)
    (hr : 0 < tensor.shape.length) (hch : ch < tensor.shape.length)
    (hC : 1 < encMin.length → encMin.length = tensor.shape.getD ch 0)
    (hpos : ∀ d ∈ tensor.shape, 0 < d) :
    ((((tensor.divT
      (compute_delta_and_offset tensor encMin encMax (Tensor.vec [p]) ch).1).roundT).subT
      (compute_delta_and_offset tensor encMin encMax (Tensor.vec [p]) ch).2).clampT n p).shape
      = tensor.shape := by
  rw [Tensor.clampT, mapT_shape]
  exact quantize_out_shape h0 hlen hr hch hC hpos

theorem clamp_out_get {n : ℚ} (h0 : 0 < encMin.length) (hlen : encMax.length = encMin.length)
    (hr : 0 < tensor.shape.length) (hch : ch < tensor.shape.length)
    (hC : 1 < encMin.length → encMin.length = tensor.shape.getD ch 0)
    (hpos : ∀ d ∈ tensor.shape, 0 < d) (hidx : validIdxB idx tensor.shape = true) :
    ((((tensor.divT
      (compute_delta_and_offset tensor encMin encMax (Tensor.vec [p]) ch).1).roundT).subT
      (compute_delta_and_offset tensor encMin encMax (Tensor.vec [p]) ch).2).clampT n p).get idx
      = clampQ (specQ tensor encMin encMax p ch idx) n p := by
  rw [Tensor.clampT,
    mapT_get (by rw [quantize_out_shape h0 hlen hr hch hC hpos]; exact hidx)]
  rw [quantize_out_get h0 hlen hr hch hC hpos hidx]

theorem mask_shape {n : ℚ} (h0 : 0 < encMin.length) (hlen : encMax.length = encMin.length)
    (hr : 0 < tensor.shape.length) (hch : ch < tensor.shape.length)
    (hC : 1 < encMin.length → encMin.length = tensor.shape.getD ch 0)
    (hpos : ∀ d ∈ tensor.shape, 0 < d) :
    (((((tensor.divT
      (compute_delta_and_offset tensor encMin encMax (Tensor.vec [p]) ch).1).roundT).subT
      (compute_delta_and_offset tensor encMin encMax (Tensor.vec [p]) ch).2).geT n).mulT
      ((((tensor.divT
        (compute_delta_and_offset tensor encMin encMax (Tensor.vec [p]) ch).1).roundT).subT
        (compute_delta_and_offset tensor encMin encMax (Tensor.vec [p]) ch).2).leT p)).shape
      = tensor.shape := by
  rw [Tensor.mulT]
  exact binop_shape_same
    (by rw [Tensor.geT, mapT_shape]; exact quantize_out_shape h0 hlen hr hch hC hpos)
    (by rw [Tensor.leT, mapT_shape]; exact quantize_out_shape h0 hlen hr hch hC hpos)

theorem mask_get {n : ℚ} (h0 : 0 < encMin.length) (hlen : encMax.length = encMin.length)
    (hr : 0 < tensor.shape.length) (hch : ch < tensor.shape.length)
    (hC : 1 < encMin.length → encMin.length = tensor.shape.getD ch 0)
    (hpos : ∀ d ∈ tensor.shape, 0 < d) (hidx : validIdxB idx tensor.shape = true) :
    (((((tensor.divT
      (compute_delta_and_offset tensor encMin encMax (Tensor.vec [p]) ch).1).roundT).subT
      (compute_delta_and_offset tensor encMin encMax (Tensor.vec [p]) ch).2).geT n).mulT
      ((((tensor.divT
        (compute_delta_and_offset tensor encMin encMax (Tensor.vec [p]) ch).1).roundT).subT
        (compute_delta_and_offset tensor encMin encMax (Tensor.vec [p]) ch).2).leT p)).get idx
      = specMask tensor encMin encMax p ch n p idx := by
  rw [Tensor.mulT]
  rw [binop_get_same
    (by rw [Tensor.geT, mapT_shape]; exact quantize_out_shape h0 hlen hr hch hC hpos)
    (by rw [Tensor.leT, mapT_shape]; exact quantize_out_shape h0 hlen hr hch hC hpos)
    hidx]
  rw [Tensor.geT,
    mapT_get (by rw [quantize_out_shape h0 hlen hr hch hC hpos]; exact hidx)]
  rw [Tensor.leT,
    mapT_get (by rw [quantize_out_shape h0 hlen hr hch hC hpos]; exact hidx)]
  rw [quantize_out_get h0 hlen hr hch hC hpos hidx]
  rw [indicator_mul]
  rfl

theorem dequant_shape {n : ℚ} (h0 : 0 < encMin.length) (hlen : encMax.length = encMin.length)
    (hr : 0 < tensor.shape.length) (hch : ch < tensor.shape.length)
    (hC : 1 < encMin.length → encMin.length = tensor.shape.getD ch 0)
    (hpos : ∀ d ∈ tensor.shape, 0 < d) :
    ((((((tensor.divT
      (compute_delta_and_offset tensor encMin encMax (Tensor.vec [p]) ch).1).roundT).subT
      (compute_delta_and_offset tensor encMin encMax (Tensor.vec [p]) ch).2).clampT n p).addT
      (compute_delta_and_offset tensor encMin encMax (Tensor.vec [p]) ch).2).mulT
      (compute_delta_and_offset tensor encMin encMax (Tensor.vec [p]) ch).1).shape
      = tensor.shape := by
  rw [Tensor.mulT]
  apply delta_shape_r ?_ h0 hlen hr hch hC hpos
  rw [Tensor.addT]
  exact offset_shape_r (clamp_out_shape h0 hlen hr hch hC hpos) h0 hlen hr hch hC hpos

theorem dequant_get {n : ℚ} (h0 : 0 < encMin.length) (hlen : encMax.length = encMin.length)
    (hr : 0 < tensor.shape.length) (hch : ch < tensor.shape.length)
    (hC : 1 < encMin.length → encMin.length = tensor.shape.getD ch 0)
    (hpos : ∀ d ∈ tensor.shape, 0 < d) (hidx : validIdxB idx tensor.shape = true) :
    ((((((tensor.divT
      (compute_delta_and_offset tensor encMin encMax (Tensor.vec [p]) ch).1).roundT).subT
      (compute_delta_and_offset tensor encMin encMax (Tensor.vec [p]) ch).2).clampT n p).addT
      (compute_delta_and_offset tensor encMin encMax (Tensor.vec [p]) ch).2).mulT
      (compute_delta_and_offset tensor encMin encMax (Tensor.vec [p]) ch).1).get idx
      = specDequant tensor encMin encMax p ch n p idx := by
  rw [Tensor.mulT]
  rw [delta_get_r
    (by rw [Tensor.addT]
        exact offset_shape_r (clamp_out_shape h0 hlen hr hch hC hpos) h0 hlen hr hch hC hpos)
    h0 hlen hr hch hC hpos hidx]
  rw [Tensor.addT]
  rw [offset_get_r (clamp_out_shape h0 hlen hr hch hC hpos) h0 hlen hr hch hC hpos hidx]
  rw [clamp_out_get h0 hlen hr hch hC hpos hidx]
  rfl

theorem castclamp_shape {n : ℚ} {bw : ℕ} {sym usym : Bool}
    (h0 : 0 < encMin.length) (hlen : encMax.length = encMin.length)
    (hr : 0 < tensor.shape.length) (hch : ch < tensor.shape.length)
    (hC : 1 < encMin.length → encMin.length = tensor.shape.getD ch 0)
    (hpos : ∀ d ∈ tensor.shape, 0 < d) :
    (Tensor.mapT (castTo (encoding_params_to_dtype bw sym usym))
      ((((tensor.divT
        (compute_delta_and_offset tensor encMin encMax (Tensor.vec [p]) ch).1).roundT).subT
        (compute_delta_and_offset tensor encMin encMax (Tensor.vec [p]) ch).2).clampT n
        p)).shape = tensor.shape := by
  rw [mapT_shape]
  exact clamp_out_shape h0 hlen hr hch hC hpos

theorem castclamp_get {n : ℚ} {bw : ℕ} {sym usym : Bool}
    (h0 : 0 < encMin.length) (hlen : encMax.length = encMin.length)
    (hr : 0 < tensor.shape.length) (hch : ch < tensor.shape.length)
    (hC : 1 < encMin.length → encMin.length = tensor.shape.getD ch 0)
    (hpos : ∀ d ∈ tensor.shape, 0 < d) (hidx : validIdxB idx tensor.shape = true) :
    (Tensor.mapT (castTo (encoding_params_to_dtype bw sym usym))
      ((((tensor.divT
        (compute_delta_and_offset tensor encMin encMax (Tensor.vec [p]) ch).1).roundT).subT
        (compute_delta_and_offset tensor encMin encMax (Tensor.vec [p]) ch).2).clampT n
        p)).get idx
      = specClampCast tensor encMin encMax p ch n p bw sym usym idx := by
  rw [mapT_get (by rw [clamp_out_shape h0 hlen hr hch hC hpos]; exact hidx)]
  rw [clamp_out_get h0 hlen hr hch hC hpos hidx]
  rfl

theorem qdqForward_fst {bw : ℕ} {sym usym : Bool} {n : ℚ} :
    (qdqForward tensor encMin encMax bw sym usym ch n p).1
      = ((((((tensor.divT
          (compute_delta_and_offset tensor encMin encMax (Tensor.vec [p]) ch).1).roundT).subT
          (compute_delta_and_offset tensor encMin encMax (Tensor.vec [p]) ch).2).clampT n p).addT
          (compute_delta_and_offset tensor encMin encMax (Tensor.vec [p]) ch).2).mulT
          (compute_delta_and_offset tensor encMin encMax (Tensor.vec [p]) ch).1) := rfl

theorem qdqForward_ctx_tensor {bw : ℕ} {sym usym : Bool} {n : ℚ} :
    (qdqForward tensor encMin encMax bw sym usym ch n p).2.tensor = tensor := rfl

theorem qdqForward_ctx_clamp_out {bw : ℕ} {sym usym : Bool} {n : ℚ} :
    (qdqForward tensor encMin encMax bw sym usym ch n p).2.clamp_out
      = Tensor.mapT (castTo (encoding_params_to_dtype bw sym usym))
          ((((tensor.divT
            (compute_delta_and_offset tensor encMin encMax (Tensor.vec [p]) ch).1).roundT).subT
            (compute_delta_and_offset tensor encMin encMax (Tensor.vec [p]) ch).2).clampT n
            p) := rfl

theorem qdqForward_ctx_delta {bw : ℕ} {sym usym : Bool} {n : ℚ} :
    (qdqForward tensor encMin encMax bw sym usym ch n p).2.delta
      = (compute_delta_and_offset tensor encMin encMax (Tensor.vec [p]) ch).1 := rfl

theorem qdqForward_ctx_offset {bw : ℕ} {sym usym : Bool} {n : ℚ} :
    (qdqForward tensor encMin encMax bw sym usym ch n p).2.offset
      = (compute_delta_and_offset tensor encMin encMax (Tensor.vec [p]) ch).2 := rfl

theorem qdqForward_ctx_encoding_min {bw : ℕ} {sym usym : Bool} {n : ℚ} :
    (qdqForward tensor encMin encMax bw sym usym ch n p).2.encoding_min
      = Tensor.vec encMin := rfl

theorem qdqForward_ctx_encoding_max {bw : ℕ} {sym usym : Bool} {n : ℚ} :
    (qdqForward tensor encMin encMax bw sym usym ch n p).2.encoding_max
      = Tensor.vec encMax := rfl

theorem qdqForward_ctx_mask {bw : ℕ} {sym usym : Bool} {n : ℚ} :
    (qdqForward tensor encMin encMax bw sym usym ch n p).2.mask_tensor
      = ((((tensor.divT
          (compute_delta_and_offset tensor encMin encMax (Tensor.vec [p]) ch).1).roundT).subT
          (compute_delta_and_offset tensor encMin encMax (Tensor.vec [p]) ch).2).geT n).mulT
          ((((tensor.divT
            (compute_delta_and_offset tensor encMin encMax (Tensor.vec [p]) ch).1).roundT).subT
            (compute_delta_and_offset tensor encMin encMax (Tensor.vec [p]) ch).2).leT p) := rfl

theorem qdqForward_ctx_steps {bw : ℕ} {sym usym : Bool} {n : ℚ} :
    (qdqForward tensor encMin encMax bw sym usym ch n p).2.steps = Tensor.vec [p] := rfl

theorem qdqForward_ctx_channel_axis {bw : ℕ} {sym usym : Bool} {n : ℚ} :
    (qdqForward tensor encMin encMax bw sym usym ch n p).2.channel_axis = ch := rfl

end ForwardPipeline

/-! ### Elementwise facts about the learned-grid backward pipeline -/

theorem qdqBackward_tensor_grad (ctx : QdqCtx) (grad : Tensor) :
    (qdqBackward ctx grad).1 = grad.mulT ctx.mask_tensor := rfl

theorem qdqBackward_min_grad (ctx : QdqCtx) (grad : Tensor) :
    (qdqBackward ctx grad).2.1
      = (((((((ctx.clamp_out.addT ctx.offset).subT
            ((ctx.tensor.mulT ctx.mask_tensor).divT ctx.delta)).mulT grad).sumDims
              (backwardDims ctx)).divT ctx.steps).negT).addT
          (ctx.encoding_max.mulT
            ((ctx.steps.divT (Tensor.mapT (fun x => x ^ 2)
              (ctx.encoding_max.subT ctx.encoding_min))).mulT
              (((ctx.delta.mulT grad).mulT
                (Tensor.mapT (fun m => 1 - m) ctx.mask_tensor)).sumDims
                  (backwardDims ctx))))) := rfl

theorem qdqBackward_max_grad (ctx : QdqCtx) (grad : Tensor) :
    (qdqBackward ctx grad).2.2
      = ((((((ctx.clamp_out.addT ctx.offset).subT
            ((ctx.tensor.mulT ctx.mask_tensor).divT ctx.delta)).mulT grad).sumDims
              (backwardDims ctx)).divT ctx.steps).subT
          (ctx.encoding_min.mulT
            ((ctx.steps.divT (Tensor.mapT (fun x => x ^ 2)
              (ctx.encoding_max.subT ctx.encoding_min))).mulT
              (((ctx.delta.mulT grad).mulT
                (Tensor.mapT (fun m => 1 - m) ctx.mask_tensor)).sumDims
                  (backwardDims ctx))))) := rfl

theorem bcastShape_headD {r L : ℕ} (h : 0 < r) : (bcastShape r 0 L).headD 0 = L := by
  cases r with
  | zero => omega
  | succ r => simp [bcastShape]

theorem sumEntry_to_spec {t : Tensor} {s : List ℕ} {dims : List ℕ} {c : ℕ} {f : List ℕ → ℚ}
    (hs : t.shape = s) (hk : keepAxes s.length dims = [0])
    (hf : ∀ idx, validIdxB idx s = true → t.get idx = f idx) :
    sumEntry t dims [c] = specChannelSum s c f := by
  subst hs
  rw [sumEntry_channel hk]
  apply channel_sum_eq
  intro j hj
  rw [← get_unflatten_of_shape rfl hj]
  exact hf _ (validIdxB_unflatten hj)

section BackwardPipeline

variable {tensor grad : Tensor} {encMin encMax : List ℚ} {p n : ℚ} {bw : ℕ} {sym usym : Bool}
variable {idx : List ℕ} {c : ℕ}

theorem backwardDims_per_channel (hgt : 1 < encMin.length)
    (hr2 : 1 < tensor.shape.length) (hlen : encMax.length = encMin.length) :
    backwardDims (qdqForward tensor encMin encMax bw sym usym 0 n p).2
      = (List.range tensor.shape.length).filter (fun i => decide (i ≠ 0)) := by
  unfold backwardDims
  rw [qdqForward_ctx_delta, qdqForward_ctx_tensor, qdqForward_ctx_channel_axis]
  rw [cdo_fst_per_channel hgt, broadcast_to_tensor_shape,
    deltaVec_data_length (by omega) hlen, bcastShape_headD (by omega)]
  rw [if_pos ⟨hgt, hr2⟩]

theorem scale_grad_shape (hgt : 1 < encMin.length) (hr2 : 1 < tensor.shape.length)
    (hlen : encMax.length = encMin.length)
    (hC0 : encMin.length = tensor.shape.getD 0 0)
    (hpos : ∀ d ∈ tensor.shape, 0 < d) (hg : grad.shape = tensor.shape) :
    ((((Tensor.mapT (castTo (encoding_params_to_dtype bw sym usym)) ((((tensor.divT (compute_delta_and_offset tensor encMin encMax (Tensor.vec [p]) 0).1).roundT).subT (compute_delta_and_offset tensor encMin encMax (Tensor.vec [p]) 0).2).clampT n p)).addT (compute_delta_and_offset tensor encMin encMax (Tensor.vec [p]) 0).2).subT ((tensor.mulT (((((tensor.divT (compute_delta_and_offset tensor encMin encMax (Tensor.vec [p]) 0).1).roundT).subT (compute_delta_and_offset tensor encMin encMax (Tensor.vec [p]) 0).2).geT n).mulT ((((tensor.divT (compute_delta_and_offset tensor encMin encMax (Tensor.vec [p]) 0).1).roundT).subT (compute_delta_and_offset tensor encMin encMax (Tensor.vec [p]) 0).2).leT p))).divT (compute_delta_and_offset tensor encMin encMax (Tensor.vec [p]) 0).1)).mulT grad).shape = tensor.shape := by
  have h0 : 0 < encMin.length := by omega
  have hr : 0 < tensor.shape.length := by omega
  have hC : 1 < encMin.length → encMin.length = tensor.shape.getD 0 0 := fun _ => hC0
  rw [Tensor.mulT]
  apply binop_shape_same ?_ hg
  rw [Tensor.subT]
  apply binop_shape_same
  · rw [Tensor.addT]
    exact offset_shape_r (castclamp_shape h0 hlen hr hr hC hpos) h0 hlen hr hr hC hpos
  · rw [Tensor.divT]
    apply delta_shape_r ?_ h0 hlen hr hr hC hpos
    rw [Tensor.mulT]
    exact binop_shape_same rfl (mask_shape h0 hlen hr hr hC hpos)

theorem scale_grad_get (hgt : 1 < encMin.length) (hr2 : 1 < tensor.shape.length)
    (hlen : encMax.length = encMin.length)
    (hC0 : encMin.length = tensor.shape.getD 0 0)
    (hpos : ∀ d ∈ tensor.shape, 0 < d) (hg : grad.shape = tensor.shape)
    (hidx : validIdxB idx tensor.shape = true) :
    ((((Tensor.mapT (castTo (encoding_params_to_dtype bw sym usym)) ((((tensor.divT (compute_delta_and_offset tensor encMin encMax (Tensor.vec [p]) 0).1).roundT).subT (compute_delta_and_offset tensor encMin encMax (Tensor.vec [p]) 0).2).clampT n p)).addT (compute_delta_and_offset tensor encMin encMax (Tensor.vec [p]) 0).2).subT ((tensor.mulT (((((tensor.divT (compute_delta_and_offset tensor encMin encMax (Tensor.vec [p]) 0).1).roundT).subT (compute_delta_and_offset tensor encMin encMax (Tensor.vec [p]) 0).2).geT n).mulT ((((tensor.divT (compute_delta_and_offset tensor encMin encMax (Tensor.vec [p]) 0).1).roundT).subT (compute_delta_and_offset tensor encMin encMax (Tensor.vec [p]) 0).2).leT p))).divT (compute_delta_and_offset tensor encMin encMax (Tensor.vec [p]) 0).1)).mulT grad).get idx
      = specScaleGradElem tensor grad encMin encMax p 0 n p bw sym usym idx := by
  have h0 : 0 < encMin.length := by omega
  have hr : 0 < tensor.shape.length := by omega
  have hC : 1 < encMin.length → encMin.length = tensor.shape.getD 0 0 := fun _ => hC0
  have hsubshape : ((Tensor.mapT (castTo (encoding_params_to_dtype bw sym usym))
      ((((tensor.divT
        (compute_delta_and_offset tensor encMin encMax (Tensor.vec [p]) 0).1).roundT).subT
        (compute_delta_and_offset tensor encMin encMax (Tensor.vec [p]) 0).2).clampT n
        p)).addT
      (compute_delta_and_offset tensor encMin encMax (Tensor.vec [p]) 0).2).shape
      = tensor.shape := by
    rw [Tensor.addT]
    exact offset_shape_r (castclamp_shape h0 hlen hr hr hC hpos) h0 hlen hr hr hC hpos
  have hdivshape : ((tensor.mulT
      (((((tensor.divT
        (compute_delta_and_offset tensor encMin encMax (Tensor.vec [p]) 0).1).roundT).subT
        (compute_delta_and_offset tensor encMin encMax (Tensor.vec [p]) 0).2).geT n).mulT
        ((((tensor.divT
          (compute_delta_and_offset tensor encMin encMax (Tensor.vec [p]) 0).1).roundT).subT
          (compute_delta_and_offset tensor encMin encMax (Tensor.vec [p]) 0).2).leT p))).divT
      (compute_delta_and_offset tensor encMin encMax (Tensor.vec [p]) 0).1).shape
      = tensor.shape := by
    rw [Tensor.divT]
    apply delta_shape_r ?_ h0 hlen hr hr hC hpos
    rw [Tensor.mulT]
    exact binop_shape_same rfl (mask_shape h0 hlen hr hr hC hpos)
  rw [Tensor.mulT]
  rw [binop_get_same (by rw [Tensor.subT]; exact binop_shape_same hsubshape hdivshape) hg hidx]
  rw [Tensor.subT]
  rw [binop_get_same hsubshape hdivshape hidx]
  rw [Tensor.addT]
  rw [offset_get_r (castclamp_shape h0 hlen hr hr hC hpos) h0 hlen hr hr hC hpos hidx]
  rw [castclamp_get h0 hlen hr hr hC hpos hidx]
  rw [Tensor.divT]
  rw [delta_get_r
    (by rw [Tensor.mulT]; exact binop_shape_same rfl (mask_shape h0 hlen hr hr hC hpos))
    h0 hlen hr hr hC hpos hidx]
  rw [Tensor.mulT]
  rw [binop_get_same rfl (mask_shape h0 hlen hr hr hC hpos) hidx]
  rw [mask_get h0 hlen hr hr hC hpos hidx]
  rfl

theorem offset_grad_shape (hgt : 1 < encMin.length) (hr2 : 1 < tensor.shape.length)
    (hlen : encMax.length = encMin.length)
    (hC0 : encMin.length = tensor.shape.getD 0 0)
    (hpos : ∀ d ∈ tensor.shape, 0 < d) (hg : grad.shape = tensor.shape) :
    (((compute_delta_and_offset tensor encMin encMax (Tensor.vec [p]) 0).1.mulT grad).mulT (Tensor.mapT (fun m => 1 - m) (((((tensor.divT (compute_delta_and_offset tensor encMin encMax (Tensor.vec [p]) 0).1).roundT).subT (compute_delta_and_offset tensor encMin encMax (Tensor.vec [p]) 0).2).geT n).mulT ((((tensor.divT (compute_delta_and_offset tensor encMin encMax (Tensor.vec [p]) 0).1).roundT).subT (compute_delta_and_offset tensor encMin encMax (Tensor.vec [p]) 0).2).leT p)))).shape = tensor.shape := by
  have h0 : 0 < encMin.length := by omega
  have hr : 0 < tensor.shape.length := by omega
  have hC : 1 < encMin.length → encMin.length = tensor.shape.getD 0 0 := fun _ => hC0
  rw [Tensor.mulT]
  apply binop_shape_same
  · rw [Tensor.mulT]
    exact delta_shape_l hg h0 hlen hr hr hC hpos
  · rw [mapT_shape]
    exact mask_shape h0 hlen hr hr hC hpos

theorem offset_grad_get (hgt : 1 < encMin.length) (hr2 : 1 < tensor.shape.length)
    (hlen : encMax.length = encMin.length)
    (hC0 : encMin.length = tensor.shape.getD 0 0)
    (hpos : ∀ d ∈ tensor.shape, 0 < d) (hg : grad.shape = tensor.shape)
    (hidx : validIdxB idx tensor.shape = true) :
    (((compute_delta_and_offset tensor encMin encMax (Tensor.vec [p]) 0).1.mulT grad).mulT (Tensor.mapT (fun m => 1 - m) (((((tensor.divT (compute_delta_and_offset tensor encMin encMax (Tensor.vec [p]) 0).1).roundT).subT (compute_delta_and_offset tensor encMin encMax (Tensor.vec [p]) 0).2).geT n).mulT ((((tensor.divT (compute_delta_and_offset tensor encMin encMax (Tensor.vec [p]) 0).1).roundT).subT (compute_delta_and_offset tensor encMin encMax (Tensor.vec [p]) 0).2).leT p)))).get idx
      = specOffsetGradElem tensor grad encMin encMax p 0 n p idx := by
  have h0 : 0 < encMin.length := by omega
  have hr : 0 < tensor.shape.length := by omega
  have hC : 1 < encMin.length → encMin.length = tensor.shape.getD 0 0 := fun _ => hC0
  have hda : ((compute_delta_and_offset tensor encMin encMax (Tensor.vec [p]) 0).1.mulT
      grad).shape = tensor.shape := by
    rw [Tensor.mulT]
    exact delta_shape_l hg h0 hlen hr hr hC hpos
  have hmb : (Tensor.mapT (fun m => 1 - m)
      (((((tensor.divT
        (compute_delta_and_offset tensor encMin encMax (Tensor.vec [p]) 0).1).roundT).subT
        (compute_delta_and_offset tensor encMin encMax (Tensor.vec [p]) 0).2).geT n).mulT
        ((((tensor.divT
          (compute_delta_and_offset tensor encMin encMax (Tensor.vec [p]) 0).1).roundT).subT
          (compute_delta_and_offset tensor encMin encMax (Tensor.vec [p]) 0).2).leT
          p))).shape = tensor.shape := by
    rw [mapT_shape]
    exact mask_shape h0 hlen hr hr hC hpos
  rw [Tensor.mulT]
  rw [binop_get_same hda hmb hidx]
  rw [Tensor.mulT]
  rw [delta_get_l hg h0 hlen hr hr hC hpos hidx]
  rw [mapT_get (by rw [mask_shape h0 hlen hr hr hC hpos]; exact hidx)]
  rw [mask_get h0 hlen hr hr hC hpos hidx]
  rfl

end BackwardPipeline

section BackwardAssembly

variable {tensor grad : Tensor} {encMin encMax : List ℚ} {p n : ℚ} {bw : ℕ} {sym usym : Bool}
variable {c : ℕ}

theorem min_grad_shape (hgt : 1 < encMin.length) (hr2 : 1 < tensor.shape.length)
    (hlen : encMax.length = encMin.length)
    (hC0 : encMin.length = tensor.shape.getD 0 0)
    (hpos : ∀ d ∈ tensor.shape, 0 < d) (hg : grad.shape = tensor.shape) :
    (qdqBackward (qdqForward tensor encMin encMax bw sym usym 0 n p).2 grad).2.1.shape
      = [encMin.length] := by
  rw [qdqBackward_min_grad, qdqForward_ctx_clamp_out, qdqForward_ctx_offset,
    qdqForward_ctx_tensor, qdqForward_ctx_mask, qdqForward_ctx_delta, qdqForward_ctx_steps,
    qdqForward_ctx_encoding_min, qdqForward_ctx_encoding_max,
    backwardDims_per_channel hgt hr2 hlen]
  have h0 : 0 < encMin.length := by omega
  have hr : 0 < tensor.shape.length := by omega
  have hSGshape : ((((Tensor.mapT (castTo (encoding_params_to_dtype bw sym usym)) ((((tensor.divT (compute_delta_and_offset tensor encMin encMax (Tensor.vec [p]) 0).1).roundT).subT (compute_delta_and_offset tensor encMin encMax (Tensor.vec [p]) 0).2).clampT n p)).addT (compute_delta_and_offset tensor encMin encMax (Tensor.vec [p]) 0).2).subT ((tensor.mulT (((((tensor.divT (compute_delta_and_offset tensor encMin encMax (Tensor.vec [p]) 0).1).roundT).subT (compute_delta_and_offset tensor encMin encMax (Tensor.vec [p]) 0).2).geT n).mulT ((((tensor.divT (compute_delta_and_offset tensor encMin encMax (Tensor.vec [p]) 0).1).roundT).subT (compute_delta_and_offset tensor encMin encMax (Tensor.vec [p]) 0).2).leT p))).divT (compute_delta_and_offset tensor encMin encMax (Tensor.vec [p]) 0).1)).mulT grad).shape = tensor.shape := scale_grad_shape hgt hr2 hlen hC0 hpos hg
  have hOGshape : (((compute_delta_and_offset tensor encMin encMax (Tensor.vec [p]) 0).1.mulT grad).mulT (Tensor.mapT (fun m => 1 - m) (((((tensor.divT (compute_delta_and_offset tensor encMin encMax (Tensor.vec [p]) 0).1).roundT).subT (compute_delta_and_offset tensor encMin encMax (Tensor.vec [p]) 0).2).geT n).mulT ((((tensor.divT (compute_delta_and_offset tensor encMin encMax (Tensor.vec [p]) 0).1).roundT).subT (compute_delta_and_offset tensor encMin encMax (Tensor.vec [p]) 0).2).leT p)))).shape = tensor.shape := offset_grad_shape hgt hr2 hlen hC0 hpos hg
  have hssumShape : (((((Tensor.mapT (castTo (encoding_params_to_dtype bw sym usym)) ((((tensor.divT (compute_delta_and_offset tensor encMin encMax (Tensor.vec [p]) 0).1).roundT).subT (compute_delta_and_offset tensor encMin encMax (Tensor.vec [p]) 0).2).clampT n p)).addT (compute_delta_and_offset tensor encMin encMax (Tensor.vec [p]) 0).2).subT ((tensor.mulT (((((tensor.divT (compute_delta_and_offset tensor encMin encMax (Tensor.vec [p]) 0).1).roundT).subT (compute_delta_and_offset tensor encMin encMax (Tensor.vec [p]) 0).2).geT n).mulT ((((tensor.divT (compute_delta_and_offset tensor encMin encMax (Tensor.vec [p]) 0).1).roundT).subT (compute_delta_and_offset tensor encMin encMax (Tensor.vec [p]) 0).2).leT p))).divT (compute_delta_and_offset tensor encMin encMax (Tensor.vec [p]) 0).1)).mulT grad).sumDims ((List.range tensor.shape.length).filter (fun i => decide (i ≠ 0)))).shape = [encMin.length] := by
    rw [sumDims_shape, hSGshape, reducedShape_except_zero hr, ← hC0]
  have hosumShape : ((((compute_delta_and_offset tensor encMin encMax (Tensor.vec [p]) 0).1.mulT grad).mulT (Tensor.mapT (fun m => 1 - m) (((((tensor.divT (compute_delta_and_offset tensor encMin encMax (Tensor.vec [p]) 0).1).roundT).subT (compute_delta_and_offset tensor encMin encMax (Tensor.vec [p]) 0).2).geT n).mulT ((((tensor.divT (compute_delta_and_offset tensor encMin encMax (Tensor.vec [p]) 0).1).roundT).subT (compute_delta_and_offset tensor encMin encMax (Tensor.vec [p]) 0).2).leT p)))).sumDims ((List.range tensor.shape.length).filter (fun i => decide (i ≠ 0)))).shape = [encMin.length] := by
    rw [sumDims_shape, hOGshape, reducedShape_except_zero hr, ← hC0]
  have ht1Shape : ((((((Tensor.mapT (castTo (encoding_params_to_dtype bw sym usym)) ((((tensor.divT (compute_delta_and_offset tensor encMin encMax (Tensor.vec [p]) 0).1).roundT).subT (compute_delta_and_offset tensor encMin encMax (Tensor.vec [p]) 0).2).clampT n p)).addT (compute_delta_and_offset tensor encMin encMax (Tensor.vec [p]) 0).2).subT ((tensor.mulT (((((tensor.divT (compute_delta_and_offset tensor encMin encMax (Tensor.vec [p]) 0).1).roundT).subT (compute_delta_and_offset tensor encMin encMax (Tensor.vec [p]) 0).2).geT n).mulT ((((tensor.divT (compute_delta_and_offset tensor encMin encMax (Tensor.vec [p]) 0).1).roundT).subT (compute_delta_and_offset tensor encMin encMax (Tensor.vec [p]) 0).2).leT p))).divT (compute_delta_and_offset tensor encMin encMax (Tensor.vec [p]) 0).1)).mulT grad).sumDims ((List.range tensor.shape.length).filter (fun i => decide (i ≠ 0)))).divT (Tensor.vec [p])).shape = [encMin.length] := by
    rw [Tensor.divT]
    exact binop_shape_scalar_right hssumShape rfl (by simp) (pos_rank1 h0)
  have hnegShape : (((((((Tensor.mapT (castTo (encoding_params_to_dtype bw sym usym)) ((((tensor.divT (compute_delta_and_offset tensor encMin encMax (Tensor.vec [p]) 0).1).roundT).subT (compute_delta_and_offset tensor encMin encMax (Tensor.vec [p]) 0).2).clampT n p)).addT (compute_delta_and_offset tensor encMin encMax (Tensor.vec [p]) 0).2).subT ((tensor.mulT (((((tensor.divT (compute_delta_and_offset tensor encMin encMax (Tensor.vec [p]) 0).1).roundT).subT (compute_delta_and_offset tensor encMin encMax (Tensor.vec [p]) 0).2).geT n).mulT ((((tensor.divT (compute_delta_and_offset tensor encMin encMax (Tensor.vec [p]) 0).1).roundT).subT (compute_delta_and_offset tensor encMin encMax (Tensor.vec [p]) 0).2).leT p))).divT (compute_delta_and_offset tensor encMin encMax (Tensor.vec [p]) 0).1)).mulT grad).sumDims ((List.range tensor.shape.length).filter (fun i => decide (i ≠ 0)))).divT (Tensor.vec [p])).negT).shape = [encMin.length] := by
    rw [Tensor.negT, mapT_shape]
    exact ht1Shape
  have hpow2Shape : (Tensor.mapT (fun x => x ^ 2) ((Tensor.vec encMax).subT (Tensor.vec encMin))).shape = [encMin.length] := by
    rw [mapT_shape]
    exact subVec_shape hlen
  have hsdShape : ((Tensor.vec [p]).divT (Tensor.mapT (fun x => x ^ 2) ((Tensor.vec encMax).subT (Tensor.vec encMin)))).shape = [encMin.length] := by
    rw [Tensor.divT]
    exact binop_shape_scalar_left rfl hpow2Shape (by simp) (pos_rank1 h0)
  have ht2Shape : (((Tensor.vec [p]).divT (Tensor.mapT (fun x => x ^ 2) ((Tensor.vec encMax).subT (Tensor.vec encMin)))).mulT ((((compute_delta_and_offset tensor encMin encMax (Tensor.vec [p]) 0).1.mulT grad).mulT (Tensor.mapT (fun m => 1 - m) (((((tensor.divT (compute_delta_and_offset tensor encMin encMax (Tensor.vec [p]) 0).1).roundT).subT (compute_delta_and_offset tensor encMin encMax (Tensor.vec [p]) 0).2).geT n).mulT ((((tensor.divT (compute_delta_and_offset tensor encMin encMax (Tensor.vec [p]) 0).1).roundT).subT (compute_delta_and_offset tensor encMin encMax (Tensor.vec [p]) 0).2).leT p)))).sumDims ((List.range tensor.shape.length).filter (fun i => decide (i ≠ 0))))).shape = [encMin.length] := by
    rw [Tensor.mulT]
    exact binop_shape_same hsdShape hosumShape
  have hvmaxShape : (Tensor.vec encMax).shape = [encMin.length] := by simp [Tensor.vec, hlen]
  have hvminShape : (Tensor.vec encMin).shape = [encMin.length] := by simp [Tensor.vec]
  have hmaxMulShape : ((Tensor.vec encMax).mulT (((Tensor.vec [p]).divT (Tensor.mapT (fun x => x ^ 2) ((Tensor.vec encMax).subT (Tensor.vec encMin)))).mulT ((((compute_delta_and_offset tensor encMin encMax (Tensor.vec [p]) 0).1.mulT grad).mulT (Tensor.mapT (fun m => 1 - m) (((((tensor.divT (compute_delta_and_offset tensor encMin encMax (Tensor.vec [p]) 0).1).roundT).subT (compute_delta_and_offset tensor encMin encMax (Tensor.vec [p]) 0).2).geT n).mulT ((((tensor.divT (compute_delta_and_offset tensor encMin encMax (Tensor.vec [p]) 0).1).roundT).subT (compute_delta_and_offset tensor encMin encMax (Tensor.vec [p]) 0).2).leT p)))).sumDims ((List.range tensor.shape.length).filter (fun i => decide (i ≠ 0)))))).shape = [encMin.length] := by
    rw [Tensor.mulT]
    exact binop_shape_same hvmaxShape ht2Shape
  have hminMulShape : ((Tensor.vec encMin).mulT (((Tensor.vec [p]).divT (Tensor.mapT (fun x => x ^ 2) ((Tensor.vec encMax).subT (Tensor.vec encMin)))).mulT ((((compute_delta_and_offset tensor encMin encMax (Tensor.vec [p]) 0).1.mulT grad).mulT (Tensor.mapT (fun m => 1 - m) (((((tensor.divT (compute_delta_and_offset tensor encMin encMax (Tensor.vec [p]) 0).1).roundT).subT (compute_delta_and_offset tensor encMin encMax (Tensor.vec [p]) 0).2).geT n).mulT ((((tensor.divT (compute_delta_and_offset tensor encMin encMax (Tensor.vec [p]) 0).1).roundT).subT (compute_delta_and_offset tensor encMin encMax (Tensor.vec [p]) 0).2).leT p)))).sumDims ((List.range tensor.shape.length).filter (fun i => decide (i ≠ 0)))))).shape = [encMin.length] := by
    rw [Tensor.mulT]
    exact binop_shape_same hvminShape ht2Shape
  rw [Tensor.addT]
  exact binop_shape_same hnegShape hmaxMulShape

theorem max_grad_shape (hgt : 1 < encMin.length) (hr2 : 1 < tensor.shape.length)
    (hlen : encMax.length = encMin.length)
    (hC0 : encMin.length = tensor.shape.getD 0 0)
    (hpos : ∀ d ∈ tensor.shape, 0 < d) (hg : grad.shape = tensor.shape) :
    (qdqBackward (qdqForward tensor encMin encMax bw sym usym 0 n p).2 grad).2.2.shape
      = [encMin.length] := by
  rw [qdqBackward_max_grad, qdqForward_ctx_clamp_out, qdqForward_ctx_offset,
    qdqForward_ctx_tensor, qdqForward_ctx_mask, qdqForward_ctx_delta, qdqForward_ctx_steps,
    qdqForward_ctx_encoding_min, qdqForward_ctx_encoding_max,
    backwardDims_per_channel hgt hr2 hlen]
  have h0 : 0 < encMin.length := by omega
  have hr : 0 < tensor.shape.length := by omega
  have hSGshape : ((((Tensor.mapT (castTo (encoding_params_to_dtype bw sym usym)) ((((tensor.divT (compute_delta_and_offset tensor encMin encMax (Tensor.vec [p]) 0).1).roundT).subT (compute_delta_and_offset tensor encMin encMax (Tensor.vec [p]) 0).2).clampT n p)).addT (compute_delta_and_offset tensor encMin encMax (Tensor.vec [p]) 0).2).subT ((tensor.mulT (((((tensor.divT (compute_delta_and_offset tensor encMin encMax (Tensor.vec [p]) 0).1).roundT).subT (compute_delta_and_offset tensor encMin encMax (Tensor.vec [p]) 0).2).geT n).mulT ((((tensor.divT (compute_delta_and_offset tensor encMin encMax (Tensor.vec [p]) 0).1).roundT).subT (compute_delta_and_offset tensor encMin encMax (Tensor.vec [p]) 0).2).leT p))).divT (compute_delta_and_offset tensor encMin encMax (Tensor.vec [p]) 0).1)).mulT grad).shape = tensor.shape := scale_grad_shape hgt hr2 hlen hC0 hpos hg
  have hOGshape : (((compute_delta_and_offset tensor encMin encMax (Tensor.vec [p]) 0).1.mulT grad).mulT (Tensor.mapT (fun m => 1 - m) (((((tensor.divT (compute_delta_and_offset tensor encMin encMax (Tensor.vec [p]) 0).1).roundT).subT (compute_delta_and_offset tensor encMin encMax (Tensor.vec [p]) 0).2).geT n).mulT ((((tensor.divT (compute_delta_and_offset tensor encMin encMax (Tensor.vec [p]) 0).1).roundT).subT (compute_delta_and_offset tensor encMin encMax (Tensor.vec [p]) 0).2).leT p)))).shape = tensor.shape := offset_grad_shape hgt hr2 hlen hC0 hpos hg
  have hssumShape : (((((Tensor.mapT (castTo (encoding_params_to_dtype bw sym usym)) ((((tensor.divT (compute_delta_and_offset tensor encMin encMax (Tensor.vec [p]) 0).1).roundT).subT (compute_delta_and_offset tensor encMin encMax (Tensor.vec [p]) 0).2).clampT n p)).addT (compute_delta_and_offset tensor encMin encMax (Tensor.vec [p]) 0).2).subT ((tensor.mulT (((((tensor.divT (compute_delta_and_offset tensor encMin encMax (Tensor.vec [p]) 0).1).roundT).subT (compute_delta_and_offset tensor encMin encMax (Tensor.vec [p]) 0).2).geT n).mulT ((((tensor.divT (compute_delta_and_offset tensor encMin encMax (Tensor.vec [p]) 0).1).roundT).subT (compute_delta_and_offset tensor encMin encMax (Tensor.vec [p]) 0).2).leT p))).divT (compute_delta_and_offset tensor encMin encMax (Tensor.vec [p]) 0).1)).mulT grad).sumDims ((List.range tensor.shape.length).filter (fun i => decide (i ≠ 0)))).shape = [encMin.length] := by
    rw [sumDims_shape, hSGshape, reducedShape_except_zero hr, ← hC0]
  have hosumShape : ((((compute_delta_and_offset tensor encMin encMax (Tensor.vec [p]) 0).1.mulT grad).mulT (Tensor.mapT (fun m => 1 - m) (((((tensor.divT (compute_delta_and_offset tensor encMin encMax (Tensor.vec [p]) 0).1).roundT).subT (compute_delta_and_offset tensor encMin encMax (Tensor.vec [p]) 0).2).geT n).mulT ((((tensor.divT (compute_delta_and_offset tensor encMin encMax (Tensor.vec [p]) 0).1).roundT).subT (compute_delta_and_offset tensor encMin encMax (Tensor.vec [p]) 0).2).leT p)))).sumDims ((List.range tensor.shape.length).filter (fun i => decide (i ≠ 0)))).shape = [encMin.length] := by
    rw [sumDims_shape, hOGshape, reducedShape_except_zero hr, ← hC0]
  have ht1Shape : ((((((Tensor.mapT (castTo (encoding_params_to_dtype bw sym usym)) ((((tensor.divT (compute_delta_and_offset tensor encMin encMax (Tensor.vec [p]) 0).1).roundT).subT (compute_delta_and_offset tensor encMin encMax (Tensor.vec [p]) 0).2).clampT n p)).addT (compute_delta_and_offset tensor encMin encMax (Tensor.vec [p]) 0).2).subT ((tensor.mulT (((((tensor.divT (compute_delta_and_offset tensor encMin encMax (Tensor.vec [p]) 0).1).roundT).subT (compute_delta_and_offset tensor encMin encMax (Tensor.vec [p]) 0).2).geT n).mulT ((((tensor.divT (compute_delta_and_offset tensor encMin encMax (Tensor.vec [p]) 0).1).roundT).subT (compute_delta_and_offset tensor encMin encMax (Tensor.vec [p]) 0).2).leT p))).divT (compute_delta_and_offset tensor encMin encMax (Tensor.vec [p]) 0).1)).mulT grad).sumDims ((List.range tensor.shape.length).filter (fun i => decide (i ≠ 0)))).divT (Tensor.vec [p])).shape = [encMin.length] := by
    rw [Tensor.divT]
    exact binop_shape_scalar_right hssumShape rfl (by simp) (pos_rank1 h0)
  have hnegShape : (((((((Tensor.mapT (castTo (encoding_params_to_dtype bw sym usym)) ((((tensor.divT (compute_delta_and_offset tensor encMin encMax (Tensor.vec [p]) 0).1).roundT).subT (compute_delta_and_offset tensor encMin encMax (Tensor.vec [p]) 0).2).clampT n p)).addT (compute_delta_and_offset tensor encMin encMax (Tensor.vec [p]) 0).2).subT ((tensor.mulT (((((tensor.divT (compute_delta_and_offset tensor encMin encMax (Tensor.vec [p]) 0).1).roundT).subT (compute_delta_and_offset tensor encMin encMax (Tensor.vec [p]) 0).2).geT n).mulT ((((tensor.divT (compute_delta_and_offset tensor encMin encMax (Tensor.vec [p]) 0).1).roundT).subT (compute_delta_and_offset tensor encMin encMax (Tensor.vec [p]) 0).2).leT p))).divT (compute_delta_and_offset tensor encMin encMax (Tensor.vec [p]) 0).1)).mulT grad).sumDims ((List.range tensor.shape.length).filter (fun i => decide (i ≠ 0)))).divT (Tensor.vec [p])).negT).shape = [encMin.length] := by
    rw [Tensor.negT, mapT_shape]
    exact ht1Shape
  have hpow2Shape : (Tensor.mapT (fun x => x ^ 2) ((Tensor.vec encMax).subT (Tensor.vec encMin))).shape = [encMin.length] := by
    rw [mapT_shape]
    exact subVec_shape hlen
  have hsdShape : ((Tensor.vec [p]).divT (Tensor.mapT (fun x => x ^ 2) ((Tensor.vec encMax).subT (Tensor.vec encMin)))).shape = [encMin.length] := by
    rw [Tensor.divT]
    exact binop_shape_scalar_left rfl hpow2Shape (by simp) (pos_rank1 h0)
  have ht2Shape : (((Tensor.vec [p]).divT (Tensor.mapT (fun x => x ^ 2) ((Tensor.vec encMax).subT (Tensor.vec encMin)))).mulT ((((compute_delta_and_offset tensor encMin encMax (Tensor.vec [p]) 0).1.mulT grad).mulT (Tensor.mapT (fun m => 1 - m) (((((tensor.divT (compute_delta_and_offset tensor encMin encMax (Tensor.vec [p]) 0).1).roundT).subT (compute_delta_and_offset tensor encMin encMax (Tensor.vec [p]) 0).2).geT n).mulT ((((tensor.divT (compute_delta_and_offset tensor encMin encMax (Tensor.vec [p]) 0).1).roundT).subT (compute_delta_and_offset tensor encMin encMax (Tensor.vec [p]) 0).2).leT p)))).sumDims ((List.range tensor.shape.length).filter (fun i => decide (i ≠ 0))))).shape = [encMin.length] := by
    rw [Tensor.mulT]
    exact binop_shape_same hsdShape hosumShape
  have hvmaxShape : (Tensor.vec encMax).shape = [encMin.length] := by simp [Tensor.vec, hlen]
  have hvminShape : (Tensor.vec encMin).shape = [encMin.length] := by simp [Tensor.vec]
  have hmaxMulShape : ((Tensor.vec encMax).mulT (((Tensor.vec [p]).divT (Tensor.mapT (fun x => x ^ 2) ((Tensor.vec encMax).subT (Tensor.vec encMin)))).mulT ((((compute_delta_and_offset tensor encMin encMax (Tensor.vec [p]) 0).1.mulT grad).mulT (Tensor.mapT (fun m => 1 - m) (((((tensor.divT (compute_delta_and_offset tensor encMin encMax (Tensor.vec [p]) 0).1).roundT).subT (compute_delta_and_offset tensor encMin encMax (Tensor.vec [p]) 0).2).geT n).mulT ((((tensor.divT (compute_delta_and_offset tensor encMin encMax (Tensor.vec [p]) 0).1).roundT).subT (compute_delta_and_offset tensor encMin encMax (Tensor.vec [p]) 0).2).leT p)))).sumDims ((List.range tensor.shape.length).filter (fun i => decide (i ≠ 0)))))).shape = [encMin.length] := by
    rw [Tensor.mulT]
    exact binop_shape_same hvmaxShape ht2Shape
  have hminMulShape : ((Tensor.vec encMin).mulT (((Tensor.vec [p]).divT (Tensor.mapT (fun x => x ^ 2) ((Tensor.vec encMax).subT (Tensor.vec encMin)))).mulT ((((compute_delta_and_offset tensor encMin encMax (Tensor.vec [p]) 0).1.mulT grad).mulT (Tensor.mapT (fun m => 1 - m) (((((tensor.divT (compute_delta_and_offset tensor encMin encMax (Tensor.vec [p]) 0).1).roundT).subT (compute_delta_and_offset tensor encMin encMax (Tensor.vec [p]) 0).2).geT n).mulT ((((tensor.divT (compute_delta_and_offset tensor encMin encMax (Tensor.vec [p]) 0).1).roundT).subT (compute_delta_and_offset tensor encMin encMax (Tensor.vec [p]) 0).2).leT p)))).sumDims ((List.range tensor.shape.length).filter (fun i => decide (i ≠ 0)))))).shape = [encMin.length] := by
    rw [Tensor.mulT]
    exact binop_shape_same hvminShape ht2Shape
  rw [Tensor.subT]
  exact binop_shape_same ht1Shape hminMulShape

theorem min_grad_get (hgt : 1 < encMin.length) (hr2 : 1 < tensor.shape.length)
    (hlen : encMax.length = encMin.length)
    (hC0 : encMin.length = tensor.shape.getD 0 0)
    (hpos : ∀ d ∈ tensor.shape, 0 < d) (hg : grad.shape = tensor.shape) (hc : c < encMin.length) :
    (qdqBackward (qdqForward tensor encMin encMax bw sym usym 0 n p).2 grad).2.1.get [c]
      = -(specChannelSum tensor.shape c (specScaleGradElem tensor grad encMin encMax p 0 n p bw sym usym) / p)
        + encMax.getD c 0 * (p / (encMax.getD c 0 - encMin.getD c 0) ^ 2 * (specChannelSum tensor.shape c (specOffsetGradElem tensor grad encMin encMax p 0 n p))) := by
  rw [qdqBackward_min_grad, qdqForward_ctx_clamp_out, qdqForward_ctx_offset,
    qdqForward_ctx_tensor, qdqForward_ctx_mask, qdqForward_ctx_delta, qdqForward_ctx_steps,
    qdqForward_ctx_encoding_min, qdqForward_ctx_encoding_max,
    backwardDims_per_channel hgt hr2 hlen]
  have h0 : 0 < encMin.length := by omega
  have hr : 0 < tensor.shape.length := by omega
  have hSGshape : ((((Tensor.mapT (castTo (encoding_params_to_dtype bw sym usym)) ((((tensor.divT (compute_delta_and_offset tensor encMin encMax (Tensor.vec [p]) 0).1).roundT).subT (compute_delta_and_offset tensor encMin encMax (Tensor.vec [p]) 0).2).clampT n p)).addT (compute_delta_and_offset tensor encMin encMax (Tensor.vec [p]) 0).2).subT ((tensor.mulT (((((tensor.divT (compute_delta_and_offset tensor encMin encMax (Tensor.vec [p]) 0).1).roundT).subT (compute_delta_and_offset tensor encMin encMax (Tensor.vec [p]) 0).2).geT n).mulT ((((tensor.divT (compute_delta_and_offset tensor encMin encMax (Tensor.vec [p]) 0).1).roundT).subT (compute_delta_and_offset tensor encMin encMax (Tensor.vec [p]) 0).2).leT p))).divT (compute_delta_and_offset tensor encMin encMax (Tensor.vec [p]) 0).1)).mulT grad).shape = tensor.shape := scale_grad_shape hgt hr2 hlen hC0 hpos hg
  have hOGshape : (((compute_delta_and_offset tensor encMin encMax (Tensor.vec [p]) 0).1.mulT grad).mulT (Tensor.mapT (fun m => 1 - m) (((((tensor.divT (compute_delta_and_offset tensor encMin encMax (Tensor.vec [p]) 0).1).roundT).subT (compute_delta_and_offset tensor encMin encMax (Tensor.vec [p]) 0).2).geT n).mulT ((((tensor.divT (compute_delta_and_offset tensor encMin encMax (Tensor.vec [p]) 0).1).roundT).subT (compute_delta_and_offset tensor encMin encMax (Tensor.vec [p]) 0).2).leT p)))).shape = tensor.shape := offset_grad_shape hgt hr2 hlen hC0 hpos hg
  have hssumShape : (((((Tensor.mapT (castTo (encoding_params_to_dtype bw sym usym)) ((((tensor.divT (compute_delta_and_offset tensor encMin encMax (Tensor.vec [p]) 0).1).roundT).subT (compute_delta_and_offset tensor encMin encMax (Tensor.vec [p]) 0).2).clampT n p)).addT (compute_delta_and_offset tensor encMin encMax (Tensor.vec [p]) 0).2).subT ((tensor.mulT (((((tensor.divT (compute_delta_and_offset tensor encMin encMax (Tensor.vec [p]) 0).1).roundT).subT (compute_delta_and_offset tensor encMin encMax (Tensor.vec [p]) 0).2).geT n).mulT ((((tensor.divT (compute_delta_and_offset tensor encMin encMax (Tensor.vec [p]) 0).1).roundT).subT (compute_delta_and_offset tensor encMin encMax (Tensor.vec [p]) 0).2).leT p))).divT (compute_delta_and_offset tensor encMin encMax (Tensor.vec [p]) 0).1)).mulT grad).sumDims ((List.range tensor.shape.length).filter (fun i => decide (i ≠ 0)))).shape = [encMin.length] := by
    rw [sumDims_shape, hSGshape, reducedShape_except_zero hr, ← hC0]
  have hosumShape : ((((compute_delta_and_offset tensor encMin encMax (Tensor.vec [p]) 0).1.mulT grad).mulT (Tensor.mapT (fun m => 1 - m) (((((tensor.divT (compute_delta_and_offset tensor encMin encMax (Tensor.vec [p]) 0).1).roundT).subT (compute_delta_and_offset tensor encMin encMax (Tensor.vec [p]) 0).2).geT n).mulT ((((tensor.divT (compute_delta_and_offset tensor encMin encMax (Tensor.vec [p]) 0).1).roundT).subT (compute_delta_and_offset tensor encMin encMax (Tensor.vec [p]) 0).2).leT p)))).sumDims ((List.range tensor.shape.length).filter (fun i => decide (i ≠ 0)))).shape = [encMin.length] := by
    rw [sumDims_shape, hOGshape, reducedShape_except_zero hr, ← hC0]
  have ht1Shape : ((((((Tensor.mapT (castTo (encoding_params_to_dtype bw sym usym)) ((((tensor.divT (compute_delta_and_offset tensor encMin encMax (Tensor.vec [p]) 0).1).roundT).subT (compute_delta_and_offset tensor encMin encMax (Tensor.vec [p]) 0).2).clampT n p)).addT (compute_delta_and_offset tensor encMin encMax (Tensor.vec [p]) 0).2).subT ((tensor.mulT (((((tensor.divT (compute_delta_and_offset tensor encMin encMax (Tensor.vec [p]) 0).1).roundT).subT (compute_delta_and_offset tensor encMin encMax (Tensor.vec [p]) 0).2).geT n).mulT ((((tensor.divT (compute_delta_and_offset tensor encMin encMax (Tensor.vec [p]) 0).1).roundT).subT (compute_delta_and_offset tensor encMin encMax (Tensor.vec [p]) 0).2).leT p))).divT (compute_delta_and_offset tensor encMin encMax (Tensor.vec [p]) 0).1)).mulT grad).sumDims ((List.range tensor.shape.length).filter (fun i => decide (i ≠ 0)))).divT (Tensor.vec [p])).shape = [encMin.length] := by
    rw [Tensor.divT]
    exact binop_shape_scalar_right hssumShape rfl (by simp) (pos_rank1 h0)
  have hnegShape : (((((((Tensor.mapT (castTo (encoding_params_to_dtype bw sym usym)) ((((tensor.divT (compute_delta_and_offset tensor encMin encMax (Tensor.vec [p]) 0).1).roundT).subT (compute_delta_and_offset tensor encMin encMax (Tensor.vec [p]) 0).2).clampT n p)).addT (compute_delta_and_offset tensor encMin encMax (Tensor.vec [p]) 0).2).subT ((tensor.mulT (((((tensor.divT (compute_delta_and_offset tensor encMin encMax (Tensor.vec [p]) 0).1).roundT).subT (compute_delta_and_offset tensor encMin encMax (Tensor.vec [p]) 0).2).geT n).mulT ((((tensor.divT (compute_delta_and_offset tensor encMin encMax (Tensor.vec [p]) 0).1).roundT).subT (compute_delta_and_offset tensor encMin encMax (Tensor.vec [p]) 0).2).leT p))).divT (compute_delta_and_offset tensor encMin encMax (Tensor.vec [p]) 0).1)).mulT grad).sumDims ((List.range tensor.shape.length).filter (fun i => decide (i ≠ 0)))).divT (Tensor.vec [p])).negT).shape = [encMin.length] := by
    rw [Tensor.negT, mapT_shape]
    exact ht1Shape
  have hpow2Shape : (Tensor.mapT (fun x => x ^ 2) ((Tensor.vec encMax).subT (Tensor.vec encMin))).shape = [encMin.length] := by
    rw [mapT_shape]
    exact subVec_shape hlen
  have hsdShape : ((Tensor.vec [p]).divT (Tensor.mapT (fun x => x ^ 2) ((Tensor.vec encMax).subT (Tensor.vec encMin)))).shape = [encMin.length] := by
    rw [Tensor.divT]
    exact binop_shape_scalar_left rfl hpow2Shape (by simp) (pos_rank1 h0)
  have ht2Shape : (((Tensor.vec [p]).divT (Tensor.mapT (fun x => x ^ 2) ((Tensor.vec encMax).subT (Tensor.vec encMin)))).mulT ((((compute_delta_and_offset tensor encMin encMax (Tensor.vec [p]) 0).1.mulT grad).mulT (Tensor.mapT (fun m => 1 - m) (((((tensor.divT (compute_delta_and_offset tensor encMin encMax (Tensor.vec [p]) 0).1).roundT).subT (compute_delta_and_offset tensor encMin encMax (Tensor.vec [p]) 0).2).geT n).mulT ((((tensor.divT (compute_delta_and_offset tensor encMin encMax (Tensor.vec [p]) 0).1).roundT).subT (compute_delta_and_offset tensor encMin encMax (Tensor.vec [p]) 0).2).leT p)))).sumDims ((List.range tensor.shape.length).filter (fun i => decide (i ≠ 0))))).shape = [encMin.length] := by
    rw [Tensor.mulT]
    exact binop_shape_same hsdShape hosumShape
  have hvmaxShape : (Tensor.vec encMax).shape = [encMin.length] := by simp [Tensor.vec, hlen]
  have hvminShape : (Tensor.vec encMin).shape = [encMin.length] := by simp [Tensor.vec]
  have hmaxMulShape : ((Tensor.vec encMax).mulT (((Tensor.vec [p]).divT (Tensor.mapT (fun x => x ^ 2) ((Tensor.vec encMax).subT (Tensor.vec encMin)))).mulT ((((compute_delta_and_offset tensor encMin encMax (Tensor.vec [p]) 0).1.mulT grad).mulT (Tensor.mapT (fun m => 1 - m) (((((tensor.divT (compute_delta_and_offset tensor encMin encMax (Tensor.vec [p]) 0).1).roundT).subT (compute_delta_and_offset tensor encMin encMax (Tensor.vec [p]) 0).2).geT n).mulT ((((tensor.divT (compute_delta_and_offset tensor encMin encMax (Tensor.vec [p]) 0).1).roundT).subT (compute_delta_and_offset tensor encMin encMax (Tensor.vec [p]) 0).2).leT p)))).sumDims ((List.range tensor.shape.length).filter (fun i => decide (i ≠ 0)))))).shape = [encMin.length] := by
    rw [Tensor.mulT]
    exact binop_shape_same hvmaxShape ht2Shape
  have hminMulShape : ((Tensor.vec encMin).mulT (((Tensor.vec [p]).divT (Tensor.mapT (fun x => x ^ 2) ((Tensor.vec encMax).subT (Tensor.vec encMin)))).mulT ((((compute_delta_and_offset tensor encMin encMax (Tensor.vec [p]) 0).1.mulT grad).mulT (Tensor.mapT (fun m => 1 - m) (((((tensor.divT (compute_delta_and_offset tensor encMin encMax (Tensor.vec [p]) 0).1).roundT).subT (compute_delta_and_offset tensor encMin encMax (Tensor.vec [p]) 0).2).geT n).mulT ((((tensor.divT (compute_delta_and_offset tensor encMin encMax (Tensor.vec [p]) 0).1).roundT).subT (compute_delta_and_offset tensor encMin encMax (Tensor.vec [p]) 0).2).leT p)))).sumDims ((List.range tensor.shape.length).filter (fun i => decide (i ≠ 0)))))).shape = [encMin.length] := by
    rw [Tensor.mulT]
    exact binop_shape_same hvminShape ht2Shape
  have hssumGet : (((((Tensor.mapT (castTo (encoding_params_to_dtype bw sym usym)) ((((tensor.divT (compute_delta_and_offset tensor encMin encMax (Tensor.vec [p]) 0).1).roundT).subT (compute_delta_and_offset tensor encMin encMax (Tensor.vec [p]) 0).2).clampT n p)).addT (compute_delta_and_offset tensor encMin encMax (Tensor.vec [p]) 0).2).subT ((tensor.mulT (((((tensor.divT (compute_delta_and_offset tensor encMin encMax (Tensor.vec [p]) 0).1).roundT).subT (compute_delta_and_offset tensor encMin encMax (Tensor.vec [p]) 0).2).geT n).mulT ((((tensor.divT (compute_delta_and_offset tensor encMin encMax (Tensor.vec [p]) 0).1).roundT).subT (compute_delta_and_offset tensor encMin encMax (Tensor.vec [p]) 0).2).leT p))).divT (compute_delta_and_offset tensor encMin encMax (Tensor.vec [p]) 0).1)).mulT grad).sumDims ((List.range tensor.shape.length).filter (fun i => decide (i ≠ 0)))).get [c] = specChannelSum tensor.shape c (specScaleGradElem tensor grad encMin encMax p 0 n p bw sym usym) := by
    rw [sumDims_get (by rw [hSGshape, reducedShape_except_zero hr, ← hC0]
                        exact validIdxB_rank1 hc)]
    exact sumEntry_to_spec hSGshape (by rw [keepAxes_except_zero hr])
      (fun ix hix => scale_grad_get hgt hr2 hlen hC0 hpos hg hix)
  have hosumGet : ((((compute_delta_and_offset tensor encMin encMax (Tensor.vec [p]) 0).1.mulT grad).mulT (Tensor.mapT (fun m => 1 - m) (((((tensor.divT (compute_delta_and_offset tensor encMin encMax (Tensor.vec [p]) 0).1).roundT).subT (compute_delta_and_offset tensor encMin encMax (Tensor.vec [p]) 0).2).geT n).mulT ((((tensor.divT (compute_delta_and_offset tensor encMin encMax (Tensor.vec [p]) 0).1).roundT).subT (compute_delta_and_offset tensor encMin encMax (Tensor.vec [p]) 0).2).leT p)))).sumDims ((List.range tensor.shape.length).filter (fun i => decide (i ≠ 0)))).get [c] = specChannelSum tensor.shape c (specOffsetGradElem tensor grad encMin encMax p 0 n p) := by
    rw [sumDims_get (by rw [hOGshape, reducedShape_except_zero hr, ← hC0]
                        exact validIdxB_rank1 hc)]
    exact sumEntry_to_spec hOGshape (by rw [keepAxes_except_zero hr])
      (fun ix hix => offset_grad_get hgt hr2 hlen hC0 hpos hg hix)
  have ht1Get : ((((((Tensor.mapT (castTo (encoding_params_to_dtype bw sym usym)) ((((tensor.divT (compute_delta_and_offset tensor encMin encMax (Tensor.vec [p]) 0).1).roundT).subT (compute_delta_and_offset tensor encMin encMax (Tensor.vec [p]) 0).2).clampT n p)).addT (compute_delta_and_offset tensor encMin encMax (Tensor.vec [p]) 0).2).subT ((tensor.mulT (((((tensor.divT (compute_delta_and_offset tensor encMin encMax (Tensor.vec [p]) 0).1).roundT).subT (compute_delta_and_offset tensor encMin encMax (Tensor.vec [p]) 0).2).geT n).mulT ((((tensor.divT (compute_delta_and_offset tensor encMin encMax (Tensor.vec [p]) 0).1).roundT).subT (compute_delta_and_offset tensor encMin encMax (Tensor.vec [p]) 0).2).leT p))).divT (compute_delta_and_offset tensor encMin encMax (Tensor.vec [p]) 0).1)).mulT grad).sumDims ((List.range tensor.shape.length).filter (fun i => decide (i ≠ 0)))).divT (Tensor.vec [p])).get [c] = specChannelSum tensor.shape c (specScaleGradElem tensor grad encMin encMax p 0 n p bw sym usym) / p := by
    rw [Tensor.divT,
      binop_get_scalar_right hssumShape rfl (by simp) (pos_rank1 h0) (validIdxB_rank1 hc),
      hssumGet, vec_p_getD]
  have hpow2Get : (Tensor.mapT (fun x => x ^ 2) ((Tensor.vec encMax).subT (Tensor.vec encMin))).get [c] = (encMax.getD c 0 - encMin.getD c 0) ^ 2 := by
    rw [mapT_get (by rw [subVec_shape hlen]; exact validIdxB_rank1 hc)]
    rw [Tensor.subT, binop_get_same hvmaxShape hvminShape (validIdxB_rank1 hc),
      vec_get, vec_get]
  have hsdGet : ((Tensor.vec [p]).divT (Tensor.mapT (fun x => x ^ 2) ((Tensor.vec encMax).subT (Tensor.vec encMin)))).get [c] = p / (encMax.getD c 0 - encMin.getD c 0) ^ 2 := by
    rw [Tensor.divT,
      binop_get_scalar_left rfl hpow2Shape (by simp) (pos_rank1 h0) (validIdxB_rank1 hc),
      hpow2Get, vec_p_getD]
  have ht2Get : (((Tensor.vec [p]).divT (Tensor.mapT (fun x => x ^ 2) ((Tensor.vec encMax).subT (Tensor.vec encMin)))).mulT ((((compute_delta_and_offset tensor encMin encMax (Tensor.vec [p]) 0).1.mulT grad).mulT (Tensor.mapT (fun m => 1 - m) (((((tensor.divT (compute_delta_and_offset tensor encMin encMax (Tensor.vec [p]) 0).1).roundT).subT (compute_delta_and_offset tensor encMin encMax (Tensor.vec [p]) 0).2).geT n).mulT ((((tensor.divT (compute_delta_and_offset tensor encMin encMax (Tensor.vec [p]) 0).1).roundT).subT (compute_delta_and_offset tensor encMin encMax (Tensor.vec [p]) 0).2).leT p)))).sumDims ((List.range tensor.shape.length).filter (fun i => decide (i ≠ 0))))).get [c]
      = p / (encMax.getD c 0 - encMin.getD c 0) ^ 2 * (specChannelSum tensor.shape c (specOffsetGradElem tensor grad encMin encMax p 0 n p)) := by
    rw [Tensor.mulT, binop_get_same hsdShape hosumShape (validIdxB_rank1 hc), hsdGet, hosumGet]
  rw [Tensor.addT, binop_get_same hnegShape hmaxMulShape (validIdxB_rank1 hc)]
  rw [Tensor.negT, mapT_get (by rw [ht1Shape]; exact validIdxB_rank1 hc), ht1Get]
  rw [Tensor.mulT, binop_get_same hvmaxShape ht2Shape (validIdxB_rank1 hc), vec_get, ht2Get]

theorem max_grad_get (hgt : 1 < encMin.length) (hr2 : 1 < tensor.shape.length)
    (hlen : encMax.length = encMin.length)
    (hC0 : encMin.length = tensor.shape.getD 0 0)
    (hpos : ∀ d ∈ tensor.shape, 0 < d) (hg : grad.shape = tensor.shape) (hc : c < encMin.length) :
    (qdqBackward (qdqForward tensor encMin encMax bw sym usym 0 n p).2 grad).2.2.get [c]
      = specChannelSum tensor.shape c (specScaleGradElem tensor grad encMin encMax p 0 n p bw sym usym) / p
        - encMin.getD c 0 * (p / (encMax.getD c 0 - encMin.getD c 0) ^ 2 * (specChannelSum tensor.shape c (specOffsetGradElem tensor grad encMin encMax p 0 n p))) := by
  rw [qdqBackward_max_grad, qdqForward_ctx_clamp_out, qdqForward_ctx_offset,
    qdqForward_ctx_tensor, qdqForward_ctx_mask, qdqForward_ctx_delta, qdqForward_ctx_steps,
    qdqForward_ctx_encoding_min, qdqForward_ctx_encoding_max,
    backwardDims_per_channel hgt hr2 hlen]
  have h0 : 0 < encMin.length := by omega
  have hr : 0 < tensor.shape.length := by omega
  have hSGshape : ((((Tensor.mapT (castTo (encoding_params_to_dtype bw sym usym)) ((((tensor.divT (compute_delta_and_offset tensor encMin encMax (Tensor.vec [p]) 0).1).roundT).subT (compute_delta_and_offset tensor encMin encMax (Tensor.vec [p]) 0).2).clampT n p)).addT (compute_delta_and_offset tensor encMin encMax (Tensor.vec [p]) 0).2).subT ((tensor.mulT (((((tensor.divT (compute_delta_and_offset tensor encMin encMax (Tensor.vec [p]) 0).1).roundT).subT (compute_delta_and_offset tensor encMin encMax (Tensor.vec [p]) 0).2).geT n).mulT ((((tensor.divT (compute_delta_and_offset tensor encMin encMax (Tensor.vec [p]) 0).1).roundT).subT (compute_delta_and_offset tensor encMin encMax (Tensor.vec [p]) 0).2).leT p))).divT (compute_delta_and_offset tensor encMin encMax (Tensor.vec [p]) 0).1)).mulT grad).shape = tensor.shape := scale_grad_shape hgt hr2 hlen hC0 hpos hg
  have hOGshape : (((compute_delta_and_offset tensor encMin encMax (Tensor.vec [p]) 0).1.mulT grad).mulT (Tensor.mapT (fun m => 1 - m) (((((tensor.divT (compute_delta_and_offset tensor encMin encMax (Tensor.vec [p]) 0).1).roundT).subT (compute_delta_and_offset tensor encMin encMax (Tensor.vec [p]) 0).2).geT n).mulT ((((tensor.divT (compute_delta_and_offset tensor encMin encMax (Tensor.vec [p]) 0).1).roundT).subT (compute_delta_and_offset tensor encMin encMax (Tensor.vec [p]) 0).2).leT p)))).shape = tensor.shape := offset_grad_shape hgt hr2 hlen hC0 hpos hg
  have hssumShape : (((((Tensor.mapT (castTo (encoding_params_to_dtype bw sym usym)) ((((tensor.divT (compute_delta_and_offset tensor encMin encMax (Tensor.vec [p]) 0).1).roundT).subT (compute_delta_and_offset tensor encMin encMax (Tensor.vec [p]) 0).2).clampT n p)).addT (compute_delta_and_offset tensor encMin encMax (Tensor.vec [p]) 0).2).subT ((tensor.mulT (((((tensor.divT (compute_delta_and_offset tensor encMin encMax (Tensor.vec [p]) 0).1).roundT).subT (compute_delta_and_offset tensor encMin encMax (Tensor.vec [p]) 0).2).geT n).mulT ((((tensor.divT (compute_delta_and_offset tensor encMin encMax (Tensor.vec [p]) 0).1).roundT).subT (compute_delta_and_offset tensor encMin encMax (Tensor.vec [p]) 0).2).leT p))).divT (compute_delta_and_offset tensor encMin encMax (Tensor.vec [p]) 0).1)).mulT grad).sumDims ((List.range tensor.shape.length).filter (fun i => decide (i ≠ 0)))).shape = [encMin.length] := by
    rw [sumDims_shape, hSGshape, reducedShape_except_zero hr, ← hC0]
  have hosumShape : ((((compute_delta_and_offset tensor encMin encMax (Tensor.vec [p]) 0).1.mulT grad).mulT (Tensor.mapT (fun m => 1 - m) (((((tensor.divT (compute_delta_and_offset tensor encMin encMax (Tensor.vec [p]) 0).1).roundT).subT (compute_delta_and_offset tensor encMin encMax (Tensor.vec [p]) 0).2).geT n).mulT ((((tensor.divT (compute_delta_and_offset tensor encMin encMax (Tensor.vec [p]) 0).1).roundT).subT (compute_delta_and_offset tensor encMin encMax (Tensor.vec [p]) 0).2).leT p)))).sumDims ((List.range tensor.shape.length).filter (fun i => decide (i ≠ 0)))).shape = [encMin.length] := by
    rw [sumDims_shape, hOGshape, reducedShape_except_zero hr, ← hC0]
  have ht1Shape : ((((((Tensor.mapT (castTo (encoding_params_to_dtype bw sym usym)) ((((tensor.divT (compute_delta_and_offset tensor encMin encMax (Tensor.vec [p]) 0).1).roundT).subT (compute_delta_and_offset tensor encMin encMax (Tensor.vec [p]) 0).2).clampT n p)).addT (compute_delta_and_offset tensor encMin encMax (Tensor.vec [p]) 0).2).subT ((tensor.mulT (((((tensor.divT (compute_delta_and_offset tensor encMin encMax (Tensor.vec [p]) 0).1).roundT).subT (compute_delta_and_offset tensor encMin encMax (Tensor.vec [p]) 0).2).geT n).mulT ((((tensor.divT (compute_delta_and_offset tensor encMin encMax (Tensor.vec [p]) 0).1).roundT).subT (compute_delta_and_offset tensor encMin encMax (Tensor.vec [p]) 0).2).leT p))).divT (compute_delta_and_offset tensor encMin encMax (Tensor.vec [p]) 0).1)).mulT grad).sumDims ((List.range tensor.shape.length).filter (fun i => decide (i ≠ 0)))).divT (Tensor.vec [p])).shape = [encMin.length] := by
    rw [Tensor.divT]
    exact binop_shape_scalar_right hssumShape rfl (by simp) (pos_rank1 h0)
  have hnegShape : (((((((Tensor.mapT (castTo (encoding_params_to_dtype bw sym usym)) ((((tensor.divT (compute_delta_and_offset tensor encMin encMax (Tensor.vec [p]) 0).1).roundT).subT (compute_delta_and_offset tensor encMin encMax (Tensor.vec [p]) 0).2).clampT n p)).addT (compute_delta_and_offset tensor encMin encMax (Tensor.vec [p]) 0).2).subT ((tensor.mulT (((((tensor.divT (compute_delta_and_offset tensor encMin encMax (Tensor.vec [p]) 0).1).roundT).subT (compute_delta_and_offset tensor encMin encMax (Tensor.vec [p]) 0).2).geT n).mulT ((((tensor.divT (compute_delta_and_offset tensor encMin encMax (Tensor.vec [p]) 0).1).roundT).subT (compute_delta_and_offset tensor encMin encMax (Tensor.vec [p]) 0).2).leT p))).divT (compute_delta_and_offset tensor encMin encMax (Tensor.vec [p]) 0).1)).mulT grad).sumDims ((List.range tensor.shape.length).filter (fun i => decide (i ≠ 0)))).divT (Tensor.vec [p])).negT).shape = [encMin.length] := by
    rw [Tensor.negT, mapT_shape]
    exact ht1Shape
  have hpow2Shape : (Tensor.mapT (fun x => x ^ 2) ((Tensor.vec encMax).subT (Tensor.vec encMin))).shape = [encMin.length] := by
    rw [mapT_shape]
    exact subVec_shape hlen
  have hsdShape : ((Tensor.vec [p]).divT (Tensor.mapT (fun x => x ^ 2) ((Tensor.vec encMax).subT (Tensor.vec encMin)))).shape = [encMin.length] := by
    rw [Tensor.divT]
    exact binop_shape_scalar_left rfl hpow2Shape (by simp) (pos_rank1 h0)
  have ht2Shape : (((Tensor.vec [p]).divT (Tensor.mapT (fun x => x ^ 2) ((Tensor.vec encMax).subT (Tensor.vec encMin)))).mulT ((((compute_delta_and_offset tensor encMin encMax (Tensor.vec [p]) 0).1.mulT grad).mulT (Tensor.mapT (fun m => 1 - m) (((((tensor.divT (compute_delta_and_offset tensor encMin encMax (Tensor.vec [p]) 0).1).roundT).subT (compute_delta_and_offset tensor encMin encMax (Tensor.vec [p]) 0).2).geT n).mulT ((((tensor.divT (compute_delta_and_offset tensor encMin encMax (Tensor.vec [p]) 0).1).roundT).subT (compute_delta_and_offset tensor encMin encMax (Tensor.vec [p]) 0).2).leT p)))).sumDims ((List.range tensor.shape.length).filter (fun i => decide (i ≠ 0))))).shape = [encMin.length] := by
    rw [Tensor.mulT]
    exact binop_shape_same hsdShape hosumShape
  have hvmaxShape : (Tensor.vec encMax).shape = [encMin.length] := by simp [Tensor.vec, hlen]
  have hvminShape : (Tensor.vec encMin).shape = [encMin.length] := by simp [Tensor.vec]
  have hmaxMulShape : ((Tensor.vec encMax).mulT (((Tensor.vec [p]).divT (Tensor.mapT (fun x => x ^ 2) ((Tensor.vec encMax).subT (Tensor.vec encMin)))).mulT ((((compute_delta_and_offset tensor encMin encMax (Tensor.vec [p]) 0).1.mulT grad).mulT (Tensor.mapT (fun m => 1 - m) (((((tensor.divT (compute_delta_and_offset tensor encMin encMax (Tensor.vec [p]) 0).1).roundT).subT (compute_delta_and_offset tensor encMin encMax (Tensor.vec [p]) 0).2).geT n).mulT ((((tensor.divT (compute_delta_and_offset tensor encMin encMax (Tensor.vec [p]) 0).1).roundT).subT (compute_delta_and_offset tensor encMin encMax (Tensor.vec [p]) 0).2).leT p)))).sumDims ((List.range tensor.shape.length).filter (fun i => decide (i ≠ 0)))))).shape = [encMin.length] := by
    rw [Tensor.mulT]
    exact binop_shape_same hvmaxShape ht2Shape
  have hminMulShape : ((Tensor.vec encMin).mulT (((Tensor.vec [p]).divT (Tensor.mapT (fun x => x ^ 2) ((Tensor.vec encMax).subT (Tensor.vec encMin)))).mulT ((((compute_delta_and_offset tensor encMin encMax (Tensor.vec [p]) 0).1.mulT grad).mulT (Tensor.mapT (fun m => 1 - m) (((((tensor.divT (compute_delta_and_offset tensor encMin encMax (Tensor.vec [p]) 0).1).roundT).subT (compute_delta_and_offset tensor encMin encMax (Tensor.vec [p]) 0).2).geT n).mulT ((((tensor.divT (compute_delta_and_offset tensor encMin encMax (Tensor.vec [p]) 0).1).roundT).subT (compute_delta_and_offset tensor encMin encMax (Tensor.vec [p]) 0).2).leT p)))).sumDims ((List.range tensor.shape.length).filter (fun i => decide (i ≠ 0)))))).shape = [encMin.length] := by
    rw [Tensor.mulT]
    exact binop_shape_same hvminShape ht2Shape
  have hssumGet : (((((Tensor.mapT (castTo (encoding_params_to_dtype bw sym usym)) ((((tensor.divT (compute_delta_and_offset tensor encMin encMax (Tensor.vec [p]) 0).1).roundT).subT (compute_delta_and_offset tensor encMin encMax (Tensor.vec [p]) 0).2).clampT n p)).addT (compute_delta_and_offset tensor encMin encMax (Tensor.vec [p]) 0).2).subT ((tensor.mulT (((((tensor.divT (compute_delta_and_offset tensor encMin encMax (Tensor.vec [p]) 0).1).roundT).subT (compute_delta_and_offset tensor encMin encMax (Tensor.vec [p]) 0).2).geT n).mulT ((((tensor.divT (compute_delta_and_offset tensor encMin encMax (Tensor.vec [p]) 0).1).roundT).subT (compute_delta_and_offset tensor encMin encMax (Tensor.vec [p]) 0).2).leT p))).divT (compute_delta_and_offset tensor encMin encMax (Tensor.vec [p]) 0).1)).mulT grad).sumDims ((List.range tensor.shape.length).filter (fun i => decide (i ≠ 0)))).get [c] = specChannelSum tensor.shape c (specScaleGradElem tensor grad encMin encMax p 0 n p bw sym usym) := by
    rw [sumDims_get (by rw [hSGshape, reducedShape_except_zero hr, ← hC0]
                        exact validIdxB_rank1 hc)]
    exact sumEntry_to_spec hSGshape (by rw [keepAxes_except_zero hr])
      (fun ix hix => scale_grad_get hgt hr2 hlen hC0 hpos hg hix)
  have hosumGet : ((((compute_delta_and_offset tensor encMin encMax (Tensor.vec [p]) 0).1.mulT grad).mulT (Tensor.mapT (fun m => 1 - m) (((((tensor.divT (compute_delta_and_offset tensor encMin encMax (Tensor.vec [p]) 0).1).roundT).subT (compute_delta_and_offset tensor encMin encMax (Tensor.vec [p]) 0).2).geT n).mulT ((((tensor.divT (compute_delta_and_offset tensor encMin encMax (Tensor.vec [p]) 0).1).roundT).subT (compute_delta_and_offset tensor encMin encMax (Tensor.vec [p]) 0).2).leT p)))).sumDims ((List.range tensor.shape.length).filter (fun i => decide (i ≠ 0)))).get [c] = specChannelSum tensor.shape c (specOffsetGradElem tensor grad encMin encMax p 0 n p) := by
    rw [sumDims_get (by rw [hOGshape, reducedShape_except_zero hr, ← hC0]
                        exact validIdxB_rank1 hc)]
    exact sumEntry_to_spec hOGshape (by rw [keepAxes_except_zero hr])
      (fun ix hix => offset_grad_get hgt hr2 hlen hC0 hpos hg hix)
  have ht1Get : ((((((Tensor.mapT (castTo (encoding_params_to_dtype bw sym usym)) ((((tensor.divT (compute_delta_and_offset tensor encMin encMax (Tensor.vec [p]) 0).1).roundT).subT (compute_delta_and_offset tensor encMin encMax (Tensor.vec [p]) 0).2).clampT n p)).addT (compute_delta_and_offset tensor encMin encMax (Tensor.vec [p]) 0).2).subT ((tensor.mulT (((((tensor.divT (compute_delta_and_offset tensor encMin encMax (Tensor.vec [p]) 0).1).roundT).subT (compute_delta_and_offset tensor encMin encMax (Tensor.vec [p]) 0).2).geT n).mulT ((((tensor.divT (compute_delta_and_offset tensor encMin encMax (Tensor.vec [p]) 0).1).roundT).subT (compute_delta_and_offset tensor encMin encMax (Tensor.vec [p]) 0).2).leT p))).divT (compute_delta_and_offset tensor encMin encMax (Tensor.vec [p]) 0).1)).mulT grad).sumDims ((List.range tensor.shape.length).filter (fun i => decide (i ≠ 0)))).divT (Tensor.vec [p])).get [c] = specChannelSum tensor.shape c (specScaleGradElem tensor grad encMin encMax p 0 n p bw sym usym) / p := by
    rw [Tensor.divT,
      binop_get_scalar_right hssumShape rfl (by simp) (pos_rank1 h0) (validIdxB_rank1 hc),
      hssumGet, vec_p_getD]
  have hpow2Get : (Tensor.mapT (fun x => x ^ 2) ((Tensor.vec encMax).subT (Tensor.vec encMin))).get [c] = (encMax.getD c 0 - encMin.getD c 0) ^ 2 := by
    rw [mapT_get (by rw [subVec_shape hlen]; exact validIdxB_rank1 hc)]
    rw [Tensor.subT, binop_get_same hvmaxShape hvminShape (validIdxB_rank1 hc),
      vec_get, vec_get]
  have hsdGet : ((Tensor.vec [p]).divT (Tensor.mapT (fun x => x ^ 2) ((Tensor.vec encMax).subT (Tensor.vec encMin)))).get [c] = p / (encMax.getD c 0 - encMin.getD c 0) ^ 2 := by
    rw [Tensor.divT,
      binop_get_scalar_left rfl hpow2Shape (by simp) (pos_rank1 h0) (validIdxB_rank1 hc),
      hpow2Get, vec_p_getD]
  have ht2Get : (((Tensor.vec [p]).divT (Tensor.mapT (fun x => x ^ 2) ((Tensor.vec encMax).subT (Tensor.vec encMin)))).mulT ((((compute_delta_and_offset tensor encMin encMax (Tensor.vec [p]) 0).1.mulT grad).mulT (Tensor.mapT (fun m => 1 - m) (((((tensor.divT (compute_delta_and_offset tensor encMin encMax (Tensor.vec [p]) 0).1).roundT).subT (compute_delta_and_offset tensor encMin encMax (Tensor.vec [p]) 0).2).geT n).mulT ((((tensor.divT (compute_delta_and_offset tensor encMin encMax (Tensor.vec [p]) 0).1).roundT).subT (compute_delta_and_offset tensor encMin encMax (Tensor.vec [p]) 0).2).leT p)))).sumDims ((List.range tensor.shape.length).filter (fun i => decide (i ≠ 0))))).get [c]
      = p / (encMax.getD c 0 - encMin.getD c 0) ^ 2 * (specChannelSum tensor.shape c (specOffsetGradElem tensor grad encMin encMax p 0 n p)) := by
    rw [Tensor.mulT, binop_get_same hsdShape hosumShape (validIdxB_rank1 hc), hsdGet, hosumGet]
  rw [Tensor.subT, binop_get_same ht1Shape hminMulShape (validIdxB_rank1 hc), ht1Get]
  rw [Tensor.mulT, binop_get_same hvminShape ht2Shape (validIdxB_rank1 hc), vec_get, ht2Get]

end BackwardAssembly

/-! ### Claim theorems -/

/-- C1: for every input tensor, encoding min/max vectors, channel axis and
bounds, the learned-grid `QuantizeDequantizeFunc.forward` computes
`delta = (max - min) / steps` and `offset = round(min / delta)` (read through
the channel axis when the encoding vectors have length > 1), returns
`(clamp(round(tensor/delta) - offset, n, p) + offset) * delta` elementwise,
and records a boundary mask that is 1 exactly where
`round(tensor/delta) - offset` lies within `[n, p]` and 0 where it was
clamped. -/
theorem C1_learned_grid_forward (tensor : Tensor) (encMin encMax : List ℚ) (bw : ℕ)
    (sym usym : Bool) (ch : ℕ) (n p : ℚ) (idx : List ℕ)
    (h0 : 0 < encMin.length) (hlen : encMax.length = encMin.length)
    (hr : 0 < tensor.shape.length) (hch : ch < tensor.shape.length)
    (hC : 1 < encMin.length → encMin.length = tensor.shape.getD ch 0)
    (hpos : ∀ d ∈ tensor.shape, 0 < d)
    (hidx : validIdxB idx tensor.shape = true) :
    (qdqForward tensor encMin encMax bw sym usym ch n p).1.shape = tensor.shape ∧
    (qdqForward tensor encMin encMax bw sym usym ch n p).1.get idx
      = specDequant tensor encMin encMax p ch n p idx ∧
    (qdqForward tensor encMin encMax bw sym usym ch n p).2.mask_tensor.get idx
      = specMask tensor encMin encMax p ch n p idx := by
  rw [qdqForward_fst, qdqForward_ctx_mask]
  exact ⟨dequant_shape h0 hlen hr hch hC hpos,
    dequant_get h0 hlen hr hch hC hpos hidx,
    mask_get h0 hlen hr hch hC hpos hidx⟩

/-- C2 (amended): for every saved context produced by a per-channel
learned-grid forward with channel axis 0 (encoding vectors of length > 1) on
a tensor of rank > 1, `QuantizeDequantizeFunc.backward` returns the tensor
gradient `g * mask` elementwise, and per channel `c` the encoding-min
gradient `-scale_term + max*offset_term` and encoding-max gradient
`scale_term - min*offset_term`, where `scale_term` sums
`(clamped + offset - tensor*mask/delta) * g` over all axes except the channel
axis and divides by `steps`, and `offset_term` is `steps/(max-min)^2` times
the same-axes sum of `delta*g*(1-mask)`.  (In the original claim the
reduction excludes the channel axis for every context; the source reduces
over all axes unless the saved delta has length > 1 along dimension 0 and the
tensor has rank > 1, see the counterexample.) -/
theorem C2_learned_grid_backward (tensor grad : Tensor) (encMin encMax : List ℚ)
    (bw : ℕ) (sym usym : Bool) (n p : ℚ) (idx : List ℕ) (c : ℕ)
    (hgt : 1 < encMin.length) (hr2 : 1 < tensor.shape.length)
    (hlen : encMax.length = encMin.length)
    (hC0 : encMin.length = tensor.shape.getD 0 0)
    (hpos : ∀ d ∈ tensor.shape, 0 < d) (hg : grad.shape = tensor.shape)
    (hidx : validIdxB idx tensor.shape = true) (hc : c < encMin.length) :
    (qdqBackward (qdqForward tensor encMin encMax bw sym usym 0 n p).2 grad).1.shape = tensor.shape ∧
    (qdqBackward (qdqForward tensor encMin encMax bw sym usym 0 n p).2 grad).1.get idx = grad.get idx * specMask tensor encMin encMax p 0 n p idx ∧
    (qdqBackward (qdqForward tensor encMin encMax bw sym usym 0 n p).2 grad).2.1.shape = [encMin.length] ∧
    (qdqBackward (qdqForward tensor encMin encMax bw sym usym 0 n p).2 grad).2.2.shape = [encMin.length] ∧
    (qdqBackward (qdqForward tensor encMin encMax bw sym usym 0 n p).2 grad).2.1.get [c]
      = -(specChannelSum tensor.shape c (specScaleGradElem tensor grad encMin encMax p 0 n p bw sym usym) / p)
        + encMax.getD c 0 * (p / (encMax.getD c 0 - encMin.getD c 0) ^ 2 * (specChannelSum tensor.shape c (specOffsetGradElem tensor grad encMin encMax p 0 n p))) ∧
    (qdqBackward (qdqForward tensor encMin encMax bw sym usym 0 n p).2 grad).2.2.get [c]
      = specChannelSum tensor.shape c (specScaleGradElem tensor grad encMin encMax p 0 n p bw sym usym) / p
        - encMin.getD c 0 * (p / (encMax.getD c 0 - encMin.getD c 0) ^ 2 * (specChannelSum tensor.shape c (specOffsetGradElem tensor grad encMin encMax p 0 n p))) := by
  have h0 : 0 < encMin.length := by omega
  have hr : 0 < tensor.shape.length := by omega
  have hC : 1 < encMin.length → encMin.length = tensor.shape.getD 0 0 := fun _ => hC0
  refine ⟨?_, ?_, min_grad_shape hgt hr2 hlen hC0 hpos hg,
    max_grad_shape hgt hr2 hlen hC0 hpos hg,
    min_grad_get hgt hr2 hlen hC0 hpos hg hc,
    max_grad_get hgt hr2 hlen hC0 hpos hg hc⟩
  · rw [qdqBackward_tensor_grad, qdqForward_ctx_mask, Tensor.mulT]
    exact binop_shape_same hg (mask_shape h0 hlen hr hr hC hpos)
  · rw [qdqBackward_tensor_grad, qdqForward_ctx_mask, Tensor.mulT]
    rw [binop_get_same hg (mask_shape h0 hlen hr hr hC hpos) hidx]
    rw [mask_get h0 hlen hr hr hC hpos hidx]

/-- C2, counterexample to the claim as stated: for a per-tensor saved context
(encoding vectors of length 1), the source sums the gradient terms over all
axes, not over all axes except the channel axis, so the returned encoding-min
gradient differs from the formula of the claim (modelled by
`specBackwardMinMax`) already in shape. -/
theorem C2_counterexample :
    (qdqBackward (qdqForward (Tensor.mk [2] [1, 2]) [-1] [1] 8 false true 0 0 3).2
        (Tensor.mk [2] [1, 1])).2.1.shape
      ≠ (specBackwardMinMax (qdqForward (Tensor.mk [2] [1, 2]) [-1] [1] 8 false true 0 0 3).2
        (Tensor.mk [2] [1, 1])).1.shape := by
  decide

/-- Witness for C1 at a concrete per-tensor input. -/
theorem C1_learned_grid_forward_witness :
    0 < ([(-1 : ℚ)]).length ∧ ([(1 : ℚ)]).length = ([(-1 : ℚ)]).length ∧
    0 < (Tensor.mk [2] [1, 2]).shape.length ∧ 0 < (Tensor.mk [2] [1, 2]).shape.length ∧
    (1 < ([(-1 : ℚ)]).length →
      ([(-1 : ℚ)]).length = (Tensor.mk [2] [1, 2]).shape.getD 0 0) ∧
    (∀ d ∈ (Tensor.mk [2] [1, 2]).shape, 0 < d) ∧
    validIdxB [1] (Tensor.mk [2] [1, 2]).shape = true ∧
    ((qdqForward (Tensor.mk [2] [1, 2]) [-1] [1] 8 false true 0 0 3).1.shape
        = (Tensor.mk [2] [1, 2]).shape ∧
      (qdqForward (Tensor.mk [2] [1, 2]) [-1] [1] 8 false true 0 0 3).1.get [1]
        = specDequant (Tensor.mk [2] [1, 2]) [-1] [1] 3 0 0 3 [1] ∧
      (qdqForward (Tensor.mk [2] [1, 2]) [-1] [1] 8 false true 0 0 3).2.mask_tensor.get [1]
        = specMask (Tensor.mk [2] [1, 2]) [-1] [1] 3 0 0 3 [1]) :=
  ⟨by decide, by decide, by decide, by decide, by decide, by decide, by decide,
    C1_learned_grid_forward (Tensor.mk [2] [1, 2]) [-1] [1] 8 false true 0 0 3 [1]
      (by decide) (by decide) (by decide) (by decide) (by decide) (by decide) (by decide)⟩

/-- Witness for C2 at a concrete per-channel input with channel axis 0. -/
theorem C2_learned_grid_backward_witness :
    1 < ([(-1 : ℚ), -2]).length ∧ 1 < (Tensor.mk [2, 2] [1, 2, 3, 4]).shape.length ∧
    ([(1 : ℚ), 2]).length = ([(-1 : ℚ), -2]).length ∧
    ([(-1 : ℚ), -2]).length = (Tensor.mk [2, 2] [1, 2, 3, 4]).shape.getD 0 0 ∧
    (∀ d ∈ (Tensor.mk [2, 2] [1, 2, 3, 4]).shape, 0 < d) ∧
    (Tensor.mk [2, 2] [1, 1, 1, 1]).shape = (Tensor.mk [2, 2] [1, 2, 3, 4]).shape ∧
    validIdxB [0, 1] (Tensor.mk [2, 2] [1, 2, 3, 4]).shape = true ∧
    1 < ([(-1 : ℚ), -2]).length ∧
    ((qdqBackward (qdqForward (Tensor.mk [2, 2] [1, 2, 3, 4]) [-1, -2] [1, 2] 8 false true
          0 0 3).2 (Tensor.mk [2, 2] [1, 1, 1, 1])).1.shape
        = (Tensor.mk [2, 2] [1, 2, 3, 4]).shape ∧
      (qdqBackward (qdqForward (Tensor.mk [2, 2] [1, 2, 3, 4]) [-1, -2] [1, 2] 8 false true
          0 0 3).2 (Tensor.mk [2, 2] [1, 1, 1, 1])).1.get [0, 1]
        = (Tensor.mk [2, 2] [1, 1, 1, 1]).get [0, 1]
          * specMask (Tensor.mk [2, 2] [1, 2, 3, 4]) [-1, -2] [1, 2] 3 0 0 3 [0, 1] ∧
      (qdqBackward (qdqForward (Tensor.mk [2, 2] [1, 2, 3, 4]) [-1, -2] [1, 2] 8 false true
          0 0 3).2 (Tensor.mk [2, 2] [1, 1, 1, 1])).2.1.shape = [([(-1 : ℚ), -2]).length] ∧
      (qdqBackward (qdqForward (Tensor.mk [2, 2] [1, 2, 3, 4]) [-1, -2] [1, 2] 8 false true
          0 0 3).2 (Tensor.mk [2, 2] [1, 1, 1, 1])).2.2.shape = [([(-1 : ℚ), -2]).length] ∧
      (qdqBackward (qdqForward (Tensor.mk [2, 2] [1, 2, 3, 4]) [-1, -2] [1, 2] 8 false true
          0 0 3).2 (Tensor.mk [2, 2] [1, 1, 1, 1])).2.1.get [1]
        = -(specChannelSum (Tensor.mk [2, 2] [1, 2, 3, 4]).shape 1
              (specScaleGradElem (Tensor.mk [2, 2] [1, 2, 3, 4])
                (Tensor.mk [2, 2] [1, 1, 1, 1]) [-1, -2] [1, 2] 3 0 0 3 8 false true) / 3)
          + ([(1 : ℚ), 2]).getD 1 0
            * (3 / (([(1 : ℚ), 2]).getD 1 0 - ([(-1 : ℚ), -2]).getD 1 0) ^ 2
              * (specChannelSum (Tensor.mk [2, 2] [1, 2, 3, 4]).shape 1
                  (specOffsetGradElem (Tensor.mk [2, 2] [1, 2, 3, 4])
                    (Tensor.mk [2, 2] [1, 1, 1, 1]) [-1, -2] [1, 2] 3 0 0 3))) ∧
      (qdqBackward (qdqForward (Tensor.mk [2, 2] [1, 2, 3, 4]) [-1, -2] [1, 2] 8 false true
          0 0 3).2 (Tensor.mk [2, 2] [1, 1, 1, 1])).2.2.get [1]
        = specChannelSum (Tensor.mk [2, 2] [1, 2, 3, 4]).shape 1
              (specScaleGradElem (Tensor.mk [2, 2] [1, 2, 3, 4])
                (Tensor.mk [2, 2] [1, 1, 1, 1]) [-1, -2] [1, 2] 3 0 0 3 8 false true) / 3
          - ([(-1 : ℚ), -2]).getD 1 0
            * (3 / (([(1 : ℚ), 2]).getD 1 0 - ([(-1 : ℚ), -2]).getD 1 0) ^ 2
              * (specChannelSum (Tensor.mk [2, 2] [1, 2, 3, 4]).shape 1
                  (specOffsetGradElem (Tensor.mk [2, 2] [1, 2, 3, 4])
                    (Tensor.mk [2, 2] [1, 1, 1, 1]) [-1, -2] [1, 2] 3 0 0 3)))) :=
  ⟨by decide, by decide, by decide, by decide, by decide, by decide, by decide, by decide,
    C2_learned_grid_backward (Tensor.mk [2, 2] [1, 2, 3, 4]) (Tensor.mk [2, 2] [1, 1, 1, 1])
      [-1, -2] [1, 2] 8 false true 0 3 [0, 1] 1
      (by decide) (by decide) (by decide) (by decide) (by decide) (by decide) (by decide)
      (by decide)⟩

/-- C3, evaluation at the failing input: an enabled per-channel static-grid
quantizer with integer data type and a stored per-channel encoding list.  The
backward pass reads `tensor_quantizer.encoding.min`, but the per-channel
`encoding` property returns a Python list, so the attribute access raises
instead of computing the per-channel masked gradient. -/
theorem C3_static_backward_per_channel_crash :
    staticBackward
      { bitwidth := 8
        use_symmetric_encodings := false
        use_strict_symmetric := false
        use_unsigned_symmetric := true
        enabled := true
        data_type := QuantizationDataType.int
        is_encoding_frozen := false
        encoding := some [{ min := -1, max := 1, delta := 2 / 255, offset := -128, bw := 8 },
          { min := -2, max := 2, delta := 4 / 255, offset := -128, bw := 8 }]
        per_channel := true
        ch_axis := 0
        num_ops := 2 }
      (Tensor.mk [2, 2] [0, 1, 0, 2]) (Tensor.mk [2, 2] [1, 1, 1, 1])
      = Except.error "AttributeError: list object has no attribute min" := rfl

theorem ce_fold_fst (results : List (TfEncoding × Bool)) :
    ∀ (b : Bool) (l : List TfEncoding),
    (results.foldl
      (fun (st : Bool × List TfEncoding) r =>
        if r.2 = true then (st.1, st.2 ++ [r.1]) else (false, st.2)) (b, l)).1
      = (b && results.all (fun r => r.2)) := by
  induction results with
  | nil => intro b l; simp
  | cons r rs ih =>
    intro b l
    simp only [List.foldl_cons, List.all_cons]
    by_cases hr : r.2 = true
    · rw [if_pos hr, ih, hr]
      simp
    · rw [if_neg hr, ih]
      have : r.2 = false := by
        cases h : r.2
        · rfl
        · exact absurd h hr
      rw [this]
      simp

theorem ce_fold_snd (results : List (TfEncoding × Bool)) :
    ∀ (b : Bool) (l : List TfEncoding),
    (results.foldl
      (fun (st : Bool × List TfEncoding) r =>
        if r.2 = true then (st.1, st.2 ++ [r.1]) else (false, st.2)) (b, l)).2
      = l ++ (results.filter (fun r => r.2)).map (fun r => r.1) := by
  induction results with
  | nil => intro b l; simp
  | cons r rs ih =>
    intro b l
    simp only [List.foldl_cons]
    by_cases hr : r.2 = true
    · rw [if_pos hr, ih, List.filter_cons_of_pos hr]
      simp
    · rw [if_neg hr, ih, List.filter_cons_of_neg (by simpa using hr)]

theorem compute_encoding_float {q : StaticGridState} (results : List (TfEncoding × Bool))
    (hen : q.enabled = true) (hfr : q.is_encoding_frozen = false)
    (hdt : q.data_type = QuantizationDataType.float) :
    compute_encoding q results = ({ q with encoding := none }, none) := by
  unfold compute_encoding
  rw [if_pos ⟨hen, hfr⟩, if_pos hdt]

theorem compute_encoding_int {q : StaticGridState} (results : List (TfEncoding × Bool))
    (hen : q.enabled = true) (hfr : q.is_encoding_frozen = false)
    (hdt : q.data_type = QuantizationDataType.int) :
    compute_encoding q results
      = ({ q with
            enabled := results.all (fun r => r.2)
            encoding := some ((results.filter (fun r => r.2)).map (fun r => r.1)) },
        if results.all (fun r => r.2) = false
            ∧ (results.filter (fun r => r.2)).map (fun r => r.1) ≠ [] then
          some "At least one encoding for a multi-encoding quantizer is invalid."
        else none) := by
  unfold compute_encoding
  rw [if_pos ⟨hen, hfr⟩, if_neg (by rw [hdt]; intro h; cases h)]
  dsimp only
  rw [ce_fold_fst, ce_fold_snd]
  simp only [Bool.true_and, List.nil_append]
  by_cases hmix : (results.all (fun r => r.2) = false
      ∧ (results.filter (fun r => r.2)).map (fun r => r.1) ≠ [])
  · rw [if_pos hmix, if_pos hmix]
  · rw [if_neg hmix, if_neg hmix]

theorem all_false_iff (results : List (TfEncoding × Bool)) :
    results.all (fun r => r.2) = false ↔ ∃ r ∈ results, r.2 = false := by
  constructor
  · intro h
    by_contra hc
    push_neg at hc
    have : results.all (fun r => r.2) = true := by
      rw [List.all_eq_true]
      intro r hr
      cases hb : r.2
      · exact absurd hb (hc r hr)
      · rfl
    rw [this] at h
    cases h
  · intro ⟨r, hr, hrf⟩
    cases h : results.all (fun r => r.2)
    · rfl
    · rw [List.all_eq_true] at h
      have := h r hr
      rw [hrf] at this
      cases this

theorem filter_map_ne_nil_iff (results : List (TfEncoding × Bool)) :
    (results.filter (fun r => r.2)).map (fun r => r.1) ≠ [] ↔
      ∃ r ∈ results, r.2 = true := by
  constructor
  · intro h
    cases hf : results.filter (fun r => r.2) with
    | nil =>
      rw [hf] at h
      simp at h
    | cons r rest =>
      have hr : r ∈ results.filter (fun r => r.2) := by
        rw [hf]
        simp
      exact ⟨r, (List.mem_filter.mp hr).1, (List.mem_filter.mp hr).2⟩
  · intro ⟨r, hr, hrt⟩ h
    have hm : r ∈ results.filter (fun r => r.2) := List.mem_filter.mpr ⟨hr, hrt⟩
    rw [List.map_eq_nil_iff] at h
    rw [h] at hm
    cases hm

/-- C4: for an enabled, unfrozen static-grid quantizer, `compute_encoding`
with float data type sets the encoding to `None`; with integer data type it
queries every native engine, the quantizer ends up disabled exactly when some
engine reported an invalid encoding, and the call raises the assertion
(after mutating the state) exactly when some engine reported invalid and
another valid (partial validity). -/
theorem C4_compute_encoding (q1 q2 : StaticGridState) (results : List (TfEncoding × Bool))
    (hen1 : q1.enabled = true) (hfr1 : q1.is_encoding_frozen = false)
    (hdt1 : q1.data_type = QuantizationDataType.float)
    (hen2 : q2.enabled = true) (hfr2 : q2.is_encoding_frozen = false)
    (hdt2 : q2.data_type = QuantizationDataType.int) :
    compute_encoding q1 results = ({ q1 with encoding := none }, none) ∧
    ((compute_encoding q2 results).1.enabled = false ↔ ∃ r ∈ results, r.2 = false) ∧
    ((compute_encoding q2 results).2 ≠ none ↔
      ((∃ r ∈ results, r.2 = false) ∧ ∃ r ∈ results, r.2 = true)) ∧
    ((compute_encoding q2 results).2 ≠ none →
      (compute_encoding q2 results).2
        = some "At least one encoding for a multi-encoding quantizer is invalid.") := by
  refine ⟨compute_encoding_float results hen1 hfr1 hdt1, ?_, ?_, ?_⟩
  · rw [compute_encoding_int results hen2 hfr2 hdt2]
    show (results.all (fun r => r.2) = false) ↔ ∃ r ∈ results, r.2 = false
    exact all_false_iff results
  · rw [compute_encoding_int results hen2 hfr2 hdt2]
    show (if results.all (fun r => r.2) = false
          ∧ (results.filter (fun r => r.2)).map (fun r => r.1) ≠ [] then
        some "At least one encoding for a multi-encoding quantizer is invalid."
      else none) ≠ none ↔ ((∃ r ∈ results, r.2 = false) ∧ ∃ r ∈ results, r.2 = true)
    by_cases hmix : (results.all (fun r => r.2) = false
        ∧ (results.filter (fun r => r.2)).map (fun r => r.1) ≠ [])
    · rw [if_pos hmix]
      constructor
      · intro _
        exact ⟨(all_false_iff results).mp hmix.1, (filter_map_ne_nil_iff results).mp hmix.2⟩
      · intro _ h
        cases h
    · rw [if_neg hmix]
      constructor
      · intro h
        exact absurd rfl h
      · intro ⟨h1, h2⟩
        exact absurd ⟨(all_false_iff results).mpr h1,
          (filter_map_ne_nil_iff results).mpr h2⟩ hmix
  · rw [compute_encoding_int results hen2 hfr2 hdt2]
    show (if results.all (fun r => r.2) = false
          ∧ (results.filter (fun r => r.2)).map (fun r => r.1) ≠ [] then
        some "At least one encoding for a multi-encoding quantizer is invalid."
      else none) ≠ none →
      (if results.all (fun r => r.2) = false
          ∧ (results.filter (fun r => r.2)).map (fun r => r.1) ≠ [] then
        some "At least one encoding for a multi-encoding quantizer is invalid."
      else none)
        = some "At least one encoding for a multi-encoding quantizer is invalid."
    by_cases hmix : (results.all (fun r => r.2) = false
        ∧ (results.filter (fun r => r.2)).map (fun r => r.1) ≠ [])
    · rw [if_pos hmix]
      intro _
      rfl
    · rw [if_neg hmix]
      intro h
      exact absurd rfl h

/-- Witness for C4 at concrete enabled, unfrozen float and int quantizers
with one valid and one invalid engine result. -/
theorem C4_compute_encoding_witness :
    compute_encoding c4qFloat c4results = ({ c4qFloat with encoding := none }, none) ∧
    ((compute_encoding c4qInt c4results).1.enabled = false ↔
      ∃ r ∈ c4results, r.2 = false) ∧
    ((compute_encoding c4qInt c4results).2 ≠ none ↔
      ((∃ r ∈ c4results, r.2 = false) ∧ ∃ r ∈ c4results, r.2 = true)) ∧
    ((compute_encoding c4qInt c4results).2 ≠ none →
      (compute_encoding c4qInt c4results).2
        = some "At least one encoding for a multi-encoding quantizer is invalid.") :=
  C4_compute_encoding c4qFloat c4qInt c4results rfl rfl rfl rfl rfl rfl

theorem staticStep_frozen {q : StaticGridState} (hfr : q.is_encoding_frozen = true)
    (op : StaticOp) :
    (staticStep q op).1.is_encoding_frozen = true
      ∧ (staticStep q op).1.encoding = q.encoding := by
  cases op with
  | setEncoding enc =>
    simp [staticStep, set_encoding_static, hfr]
  | computeEncoding results =>
    simp [staticStep, compute_encoding, hfr]
  | freezeEnc =>
    by_cases h : q.encoding = none ∨ q.encoding = some []
    · simp only [staticStep, freeze_encoding]
      rw [if_pos h]
      exact ⟨hfr, rfl⟩
    · simp only [staticStep, freeze_encoding]
      rw [if_neg h]
      exact ⟨rfl, rfl⟩
  | resetEncodingStats =>
    simp [staticStep, reset_encoding_stats, hfr]
  | setQuantScheme => exact ⟨hfr, rfl⟩
  | updateStats => exact ⟨hfr, rfl⟩
  | setPercentile => exact ⟨hfr, rfl⟩

theorem runOps_frozen : ∀ (ops : List StaticOp) (q : StaticGridState),
    q.is_encoding_frozen = true →
    (runOps q ops).is_encoding_frozen = true ∧ (runOps q ops).encoding = q.encoding := by
  intro ops
  induction ops with
  | nil => intro q hfr; exact ⟨hfr, rfl⟩
  | cons op ops ih =>
    intro q hfr
    have h := staticStep_frozen hfr op
    have h2 := ih (staticStep q op).1 h.1
    simp only [runOps]
    exact ⟨h2.1, h2.2.trans h.2⟩

/-- C5: `freeze_encoding` raises when no encoding is stored (`None` or the
empty list) and otherwise succeeds and marks the quantizer frozen; and once a
static-grid quantizer is frozen, no sequence of quantizer operations (encoding
assignment, `compute_encoding`, further freezes, statistics resets, quant-scheme
or statistics updates) changes the stored encoding, and the frozen flag stays
true. -/
theorem C5_freeze_monotone (q q2 : StaticGridState) (ops : List StaticOp)
    (hfr : q2.is_encoding_frozen = true) :
    ((q.encoding = none ∨ q.encoding = some []) →
      freeze_encoding q = (q, some "Encoding can be frozen only when it is not None.")) ∧
    (¬(q.encoding = none ∨ q.encoding = some []) →
      freeze_encoding q = ({ q with is_encoding_frozen := true }, none)) ∧
    (runOps q2 ops).is_encoding_frozen = true ∧
    (runOps q2 ops).encoding = q2.encoding := by
  refine ⟨?_, ?_, (runOps_frozen ops q2 hfr).1, (runOps_frozen ops q2 hfr).2⟩
  · intro h
    unfold freeze_encoding
    rw [if_pos h]
  · intro h
    unfold freeze_encoding
    rw [if_neg h]

/-- Witness for C5 at a quantizer without a stored encoding and a concrete
frozen quantizer run through a mutation sequence. -/
theorem C5_freeze_monotone_witness :
    ((c6qs.encoding = none ∨ c6qs.encoding = some []) →
      freeze_encoding c6qs = (c6qs, some "Encoding can be frozen only when it is not None.")) ∧
    (¬(c6qs.encoding = none ∨ c6qs.encoding = some []) →
      freeze_encoding c6qs = ({ c6qs with is_encoding_frozen := true }, none)) ∧
    (runOps c5qFrozen
      [StaticOp.setEncoding none, StaticOp.computeEncoding [],
        StaticOp.resetEncodingStats, StaticOp.freezeEnc]).is_encoding_frozen = true ∧
    (runOps c5qFrozen
      [StaticOp.setEncoding none, StaticOp.computeEncoding [],
        StaticOp.resetEncodingStats, StaticOp.freezeEnc]).encoding = c5qFrozen.encoding :=
  C5_freeze_monotone c6qs c5qFrozen
    [StaticOp.setEncoding none, StaticOp.computeEncoding [],
      StaticOp.resetEncodingStats, StaticOp.freezeEnc] rfl

/-- C6: a disabled quantizer is an identity transform: the static-grid
operator forward passes the tensor through unchanged, the learned-grid
`quantize_dequantize` returns the tensor untouched, and the learned-grid
variant, when enabled, raises if the encoding min or max is absent. -/
theorem C6_disabled_identity (qs : StaticGridState) (ql ql2 : LearnedState)
    (tensor : Tensor) (nativeQdq : ℕ → Tensor → Option TfEncoding → Tensor)
    (toHalf : ℚ → ℚ) (emin emax : Option (List ℚ))
    (hs : qs.enabled = false) (hl : ql.enabled = false) (hl2 : ql2.enabled = true) :
    static_qdq_forward qs tensor nativeQdq toHalf = Except.ok tensor ∧
    quantize_dequantize_learned ql tensor emin emax = Except.ok tensor ∧
    ((emin = none ∨ emax = none) →
      quantize_dequantize_learned ql2 tensor emin emax
        = Except.error "Forward pass used for compute_encodings differs from forward pass used during training") := by
  refine ⟨?_, ?_, ?_⟩
  · unfold static_qdq_forward
    rw [if_neg (by simp [hs])]
  · unfold quantize_dequantize_learned
    rw [if_neg (by simp [hl])]
  · intro h
    unfold quantize_dequantize_learned
    rw [if_pos hl2]
    rcases h with h | h
    · subst h
      cases emax <;> rfl
    · subst h
      cases emin <;> rfl

/-- Witness for C6 at a concrete disabled static-grid state, a concrete
disabled and a concrete enabled learned-grid state, with the min parameter
absent. -/
theorem C6_disabled_identity_witness :
    static_qdq_forward c6qs (Tensor.mk [2] [1, 2]) (fun _ t _ => t) (fun x => x)
      = Except.ok (Tensor.mk [2] [1, 2]) ∧
    quantize_dequantize_learned c6ql (Tensor.mk [2] [1, 2]) none (some [1])
      = Except.ok (Tensor.mk [2] [1, 2]) ∧
    ((none = (none : Option (List ℚ)) ∨ some [1] = (none : Option (List ℚ))) →
      quantize_dequantize_learned c6qlEnabled (Tensor.mk [2] [1, 2]) none (some [1])
        = Except.error "Forward pass used for compute_encodings differs from forward pass used during training") :=
  C6_disabled_identity c6qs c6ql c6qlEnabled (Tensor.mk [2] [1, 2])
    (fun _ t _ => t) (fun x => x) none (some [1]) rfl rfl rfl

/-- C7: for every bitwidth and flag combination, `get_n_and_p` returns
`n = 0` and `p = 2 ^ bitwidth - 1`, with `p` reduced by one exactly when both
symmetric and strict-symmetric are set, and raises exactly when
strict-symmetric is requested without symmetric. -/
theorem C7_get_n_and_p (bitwidth : ℕ) (sym strict : Bool) :
    get_n_and_p bitwidth sym strict
      = if sym = false ∧ strict = true then
          Except.error "Strict symmetric can be enabled only when using symmetric encoding"
        else if sym = true ∧ strict = true then
          Except.ok ((0 : ℚ), (2 ^ bitwidth - 1 - 1 : ℚ))
        else Except.ok ((0 : ℚ), (2 ^ bitwidth - 1 : ℚ)) := by
  cases sym <;> cases strict <;> rfl

theorem backward_pass_eq_foldl (params : List ParamInfo) :
    backward_pass_for_parameters params = params.foldl bpStep [] := by
  unfold backward_pass_for_parameters
  refine List.foldl_ext _ _ [] (fun acc pr _ => ?_)
  by_cases h : pr.quantizer.enabled = true
  · rcases hg : pr.grad with _ | g <;> simp [bpStep, bpPair, h, hg]
  · simp [bpStep, h]

theorem bpfp_general : ∀ (params : List ParamInfo) (acc : List (Option Tensor)),
    params.foldl bpStep acc
      = acc ++ ((params.filter (fun pr => pr.quantizer.enabled)).map bpPair).flatten := by
  intro params
  induction params with
  | nil => intro acc; simp
  | cons pr prs ih =>
    intro acc
    simp only [List.foldl_cons]
    by_cases h : pr.quantizer.enabled = true
    · show prs.foldl bpStep (bpStep acc pr) = _
      rw [ih]
      unfold bpStep
      rw [if_pos h]
      simp [List.filter_cons, h, List.append_assoc]
    · show prs.foldl bpStep (bpStep acc pr) = _
      rw [ih]
      unfold bpStep
      rw [if_neg h]
      simp [List.filter_cons, h]

/-- C8: amended form of the parameter-quantization backward: the returned list
is, in the order the parameters were supplied, the concatenation of one
(min-gradient, max-gradient) pair per ENABLED parameter — the computed
gradients when the parameter received one, `None` placeholders otherwise —
while a disabled parameter contributes nothing (so there is not one pair per
parameter, see the counterexample). -/
theorem C8_backward_pass_order (params : List ParamInfo) :
    backward_pass_for_parameters params
      = ((params.filter (fun pr => pr.quantizer.enabled)).map bpPair).flatten := by
  rw [backward_pass_eq_foldl]
  simpa using bpfp_general params []

/-- Counterexample to the literal C8 claim that one pair is returned per
parameter: a single disabled parameter with a received gradient yields an
empty result instead of one (min, max) pair. -/
theorem C8_counterexample :
    ¬ (backward_pass_for_parameters [c8param]).length = 2 * [c8param].length := by
  decide

/-- C9: for a disabled learned-grid quantizer the `encoding` setter is a
complete no-op and raises nothing, whatever the supplied encoding (even
`None`) and whatever the frozen flag. -/
theorem C9_disabled_setter_noop (q : LearnedState) (encoding : Option EncodingArg)
    (hq : q.enabled = false) :
    set_encoding_learned q encoding = (q, none) := by
  unfold set_encoding_learned
  rw [if_neg (by simp [hq])]

/-- Witness for C9 at a concrete disabled, already-frozen learned-grid state
with a `None` encoding. -/
theorem C9_disabled_setter_noop_witness :
    set_encoding_learned c9ql none = (c9ql, none) :=
  C9_disabled_setter_noop c9ql none rfl

/-- C10: assigning an encoding to an enabled, unfrozen learned-grid quantizer
never trips the bitwidth-mismatch assertion of `_set_p_and_n`, and whenever
the assignment succeeds the stored bitwidth equals the bw of the (first)
supplied encoding. -/
theorem C10_bitwidth_overwrite (q : LearnedState) (enc : EncodingArg)
    (hq : q.enabled = true) (hfr : q.is_encoding_frozen = false) :
    (set_encoding_learned q (some enc)).2 ≠ some bitwidthMismatchMsg ∧
    ((set_encoding_learned q (some enc)).2 = none →
      (set_encoding_learned q (some enc)).1.bitwidth = firstBw enc) := by
  unfold set_encoding_learned
  rw [if_pos hq]
  simp only
  rw [if_neg (by simp [hfr])]
  cases enc with
  | single e =>
    simp only [set_encoding_min_max_parameters, set_p_and_n, firstBw]
    rw [if_neg (by simp)]
    cases hg : get_n_and_p e.bw q.use_symmetric_encodings q.use_strict_symmetric with
    | error msg =>
      have hmsg : msg = "Strict symmetric can be enabled only when using symmetric encoding" := by
        unfold get_n_and_p at hg
        by_cases hc : q.use_symmetric_encodings = false ∧ q.use_strict_symmetric = true
        · rw [if_pos hc] at hg
          injection hg with hinj
          exact hinj.symm
        · rw [if_neg hc] at hg
          cases hg
      constructor
      · subst hmsg
        simp [bitwidthMismatchMsg]
      · intro h
        simp at h
    | ok np =>
      exact ⟨by simp, fun _ => rfl⟩
  | list es =>
    cases es with
    | nil =>
      simp only [set_encoding_min_max_parameters]
      constructor
      · simp [bitwidthMismatchMsg]
      · intro h
        simp at h
    | cons e0 rest =>
      simp only [set_encoding_min_max_parameters, set_p_and_n, firstBw]
      rw [if_neg (by simp)]
      cases hg : get_n_and_p e0.bw q.use_symmetric_encodings q.use_strict_symmetric with
      | error msg =>
        have hmsg : msg = "Strict symmetric can be enabled only when using symmetric encoding" := by
          unfold get_n_and_p at hg
          by_cases hc : q.use_symmetric_encodings = false ∧ q.use_strict_symmetric = true
          · rw [if_pos hc] at hg
            injection hg with hinj
            exact hinj.symm
          · rw [if_neg hc] at hg
            cases hg
        constructor
        · subst hmsg
          simp [bitwidthMismatchMsg]
        · intro h
          simp at h
      | ok np =>
        exact ⟨by simp, fun _ => rfl⟩

/-- Witness for C10 at a concrete enabled, unfrozen learned-grid state and a
concrete single encoding. -/
theorem C10_bitwidth_overwrite_witness :
    (set_encoding_learned c6qlEnabled (some c10enc)).2 ≠ some bitwidthMismatchMsg ∧
    ((set_encoding_learned c6qlEnabled (some c10enc)).2 = none →
      (set_encoding_learned c6qlEnabled (some c10enc)).1.bitwidth = firstBw c10enc) :=
  C10_bitwidth_overwrite c6qlEnabled c10enc rfl rfl

end Aimet
